import Mathlib

/-!
# PS2Recomp: branch emission, entry-point discovery, registration, name arbitration

A shallow embedding of parts of the PS2 static recompiler:

* `ps2xRecomp/src/lib/code_generator.cpp`: `buildAbsoluteJumpTarget`, `getFunctionName`,
  `handleBranchDelaySlots`, `collectInternalBranchTargets`, `generateFunctionRegistration`;
* `ps2xRecomp/src/lib/ps2_recompiler.cpp`: `decodeAbsoluteJumpTarget`, `sanitizeIdentifierBody`,
  `sanitizeFunctionName`, `generateOutput` (the rename map), `discoverAdditionalEntryPoints`;
* `ps2xRuntime`: the register macros of `ps2_runtime_macros.h` and the function table of
  `ps2_runtime.cpp`.

Conventions. A `uint32_t` is a natural number, arithmetic on it is reduced modulo `2^32`
where the C++ wraps. A `std::string` is a `String`, one `Char` per byte. An
`unordered_map<uint32_t, T>` is a function `Nat → Option T`, an `unordered_set<uint32_t>` is a list
of its members. Text is emitted exactly as the C++ writes it to its stream; a brace in emitted text
is written with its character code. Where the C++ has no defined result (a signed sum, difference
or quotient that leaves its type, a 16-byte access at a misaligned address) the definitions give
`none` or a fault, or mark the run `undefined`.
-/

namespace PS2Recomp

/-! ## Data model -/

/-- Modelled from the spec: the record `Instruction` of `ps2recomp/types.h`, a header that is not
among the sources. The fields are the ones the spec lists and the code reads; `simmediate` is the
sign-extended immediate, the other numeric fields are unsigned. -/
structure Instruction where
  address : Nat
  raw : Nat
  opcode : Nat
  rs : Nat
  rt : Nat
  rd : Nat
  sa : Nat
  function : Nat
  immediate : Nat
  simmediate : Int
  target : Nat
  isBranch : Bool
  hasDelaySlot : Bool
  isMMI : Bool
  deriving DecidableEq

/-- Modelled from the spec: the record `Function` of `ps2recomp/types.h` (not among the sources):
the half-open guest range `[start, end)`, the guest name and the two classification flags. The
field `end` is spelled `end_`. -/
structure Function where
  start : Nat
  end_ : Nat
  name : String
  isRecompiled : Bool
  isStub : Bool
  deriving DecidableEq

/-- Modelled from the spec: the record `Symbol` of `ps2recomp/types.h` (not among the sources). -/
structure Symbol where
  address : Nat
  name : String
  isFunction : Bool
  deriving DecidableEq

/-- Modelled from the spec: the record `BootstrapInfo` of `ps2recomp/types.h` (not among the
sources), with the fields `initialize` and `generateOutput` assign. -/
structure BootstrapInfo where
  valid : Bool
  entry : Nat
  bssStart : Nat
  bssEnd : Nat
  gp : Nat
  entryName : String
  deriving DecidableEq

/-! ### Opcode constants

Modelled from the spec: the enumerators below are declared in `ps2recomp/instructions.h`, which is
not among the sources; they carry the MIPS R5900 encodings of the instruction fields they name. -/

/-- Modelled from the spec: primary opcode of the SPECIAL class (`instructions.h` is absent). -/
def OPCODE_SPECIAL : Nat := 0x00
/-- Modelled from the spec: primary opcode of the REGIMM class (`instructions.h` is absent). -/
def OPCODE_REGIMM : Nat := 0x01
/-- Modelled from the spec: primary opcode of `J` (`instructions.h` is absent). -/
def OPCODE_J : Nat := 0x02
/-- Modelled from the spec: primary opcode of `JAL` (`instructions.h` is absent). -/
def OPCODE_JAL : Nat := 0x03
/-- Modelled from the spec: primary opcode of `BEQ` (`instructions.h` is absent). -/
def OPCODE_BEQ : Nat := 0x04
/-- Modelled from the spec: primary opcode of `BNE` (`instructions.h` is absent). -/
def OPCODE_BNE : Nat := 0x05
/-- Modelled from the spec: primary opcode of `BLEZ` (`instructions.h` is absent). -/
def OPCODE_BLEZ : Nat := 0x06
/-- Modelled from the spec: primary opcode of `BGTZ` (`instructions.h` is absent). -/
def OPCODE_BGTZ : Nat := 0x07
/-- Modelled from the spec: primary opcode of `ADDIU` (`instructions.h` is absent). -/
def OPCODE_ADDIU : Nat := 0x09
/-- Modelled from the spec: primary opcode of the COP1 class (`instructions.h` is absent). -/
def OPCODE_COP1 : Nat := 0x11
/-- Modelled from the spec: primary opcode of the COP2 class (`instructions.h` is absent). -/
def OPCODE_COP2 : Nat := 0x12
/-- Modelled from the spec: primary opcode of `BEQL` (`instructions.h` is absent). -/
def OPCODE_BEQL : Nat := 0x14
/-- Modelled from the spec: primary opcode of `BNEL` (`instructions.h` is absent). -/
def OPCODE_BNEL : Nat := 0x15
/-- Modelled from the spec: primary opcode of `BLEZL` (`instructions.h` is absent). -/
def OPCODE_BLEZL : Nat := 0x16
/-- Modelled from the spec: primary opcode of `BGTZL` (`instructions.h` is absent). -/
def OPCODE_BGTZL : Nat := 0x17

/-- Modelled from the spec: SPECIAL function code of `JR` (`instructions.h` is absent). -/
def SPECIAL_JR : Nat := 0x08
/-- Modelled from the spec: SPECIAL function code of `JALR` (`instructions.h` is absent). -/
def SPECIAL_JALR : Nat := 0x09

/-- Modelled from the spec: REGIMM `rt` code of `BLTZ` (`instructions.h` is absent). -/
def REGIMM_BLTZ : Nat := 0x00
/-- Modelled from the spec: REGIMM `rt` code of `BGEZ` (`instructions.h` is absent). -/
def REGIMM_BGEZ : Nat := 0x01
/-- Modelled from the spec: REGIMM `rt` code of `BLTZL` (`instructions.h` is absent). -/
def REGIMM_BLTZL : Nat := 0x02
/-- Modelled from the spec: REGIMM `rt` code of `BGEZL` (`instructions.h` is absent). -/
def REGIMM_BGEZL : Nat := 0x03
/-- Modelled from the spec: REGIMM `rt` code of `BLTZAL` (`instructions.h` is absent). -/
def REGIMM_BLTZAL : Nat := 0x10
/-- Modelled from the spec: REGIMM `rt` code of `BGEZAL` (`instructions.h` is absent). -/
def REGIMM_BGEZAL : Nat := 0x11
/-- Modelled from the spec: REGIMM `rt` code of `BLTZALL` (`instructions.h` is absent). -/
def REGIMM_BLTZALL : Nat := 0x12
/-- Modelled from the spec: REGIMM `rt` code of `BGEZALL` (`instructions.h` is absent). -/
def REGIMM_BGEZALL : Nat := 0x13

/-- Modelled from the spec: COP1 `rs` code of the branch-on-condition group (`instructions.h` is
absent). -/
def COP1_BC : Nat := 0x08
/-- Modelled from the spec: COP1 branch `rt` code of `BC1F` (`instructions.h` is absent). -/
def COP1_BC_BCF : Nat := 0x00
/-- Modelled from the spec: COP1 branch `rt` code of `BC1T` (`instructions.h` is absent). -/
def COP1_BC_BCT : Nat := 0x01
/-- Modelled from the spec: COP1 branch `rt` code of `BC1FL` (`instructions.h` is absent). -/
def COP1_BC_BCFL : Nat := 0x02
/-- Modelled from the spec: COP1 branch `rt` code of `BC1TL` (`instructions.h` is absent). -/
def COP1_BC_BCTL : Nat := 0x03
/-- Modelled from the spec: COP2 `rs` code of the branch-on-condition group (`instructions.h` is
absent). -/
def COP2_BC : Nat := 0x08
/-- Modelled from the spec: COP2 branch `rt` code of `BC2F` (`instructions.h` is absent). -/
def COP2_BC_BCF : Nat := 0x00
/-- Modelled from the spec: COP2 branch `rt` code of `BC2T` (`instructions.h` is absent). -/
def COP2_BC_BCT : Nat := 0x01
/-- Modelled from the spec: COP2 branch `rt` code of `BC2FL` (`instructions.h` is absent). -/
def COP2_BC_BCFL : Nat := 0x02
/-- Modelled from the spec: COP2 branch `rt` code of `BC2TL` (`instructions.h` is absent). -/
def COP2_BC_BCTL : Nat := 0x03

/-! ## Text helpers -/

/-- Lower-case hexadecimal without padding: `std::hex` on a stream and `{:x}` of `fmt`. -/
def hexLower (n : Nat) : String := String.mk (Nat.toDigits 16 n)

/-- Upper-case hexadecimal without padding: `{:X}` of `fmt`. -/
def hexUpper (n : Nat) : String := String.mk ((Nat.toDigits 16 n).map Char.toUpper)

/-- Reduction of an unsigned value to 32 bits. -/
def u32 (n : Nat) : Nat := n % 4294967296

/-- Reduction of a signed value to the `uint32_t` with the same low 32 bits. -/
def u32OfInt (z : Int) : Nat := (z % 4294967296).toNat

/-- The `int32_t` with the bits of a `uint32_t`. -/
def s32 (n : Nat) : Int :=
  if n % 4294967296 < 2147483648 then ((n % 4294967296 : Nat) : Int)
  else ((n % 4294967296 : Nat) : Int) - 4294967296

/-! ## Name arbitration (`ps2_recompiler.cpp`, `code_generator.cpp`) -/

/-- The set `kKeywords` of `code_generator.cpp`. -/
def kKeywords : List String :=
  ["alignas", "alignof", "and", "and_eq", "asm", "auto", "bitand", "bitor", "bool",
   "break", "case", "catch", "char", "char8_t", "char16_t", "char32_t", "class",
   "compl", "concept", "const", "consteval", "constexpr", "constinit", "const_cast",
   "continue", "co_await", "co_return", "co_yield", "decltype", "default", "delete",
   "do", "double", "dynamic_cast", "else", "enum", "explicit", "export", "extern",
   "false", "float", "for", "friend", "goto", "if", "inline", "int", "long", "mutable",
   "namespace", "new", "noexcept", "not", "not_eq", "nullptr", "operator", "or", "or_eq",
   "private", "protected", "public", "register", "reinterpret_cast", "requires", "return",
   "short", "signed", "sizeof", "static", "static_assert", "static_cast", "struct",
   "switch", "template", "this", "thread_local", "throw", "true", "try", "typedef",
   "typeid", "typename", "union", "unsigned", "using", "virtual", "void", "volatile",
   "wchar_t", "while", "xor", "xor_eq", "std"]

/-- The per-byte replacement of `sanitizeIdentifierBody`: `isalnum` (C locale) or `_` is kept,
every other byte becomes `_`. -/
def sanitizeChar (c : Char) : Char :=
  if c.isAlphanum || c == '_' then c else '_'

/-- The function `sanitizeIdentifierBody`: map every byte, then put `_` in front when the first
byte is neither a letter nor `_`; the empty name stays empty. -/
def sanitizeIdentifierBody (name : String) : String :=
  let sanitized := name.data.map sanitizeChar
  match sanitized with
  | [] => String.mk sanitized
  | first :: _ =>
    if !(first.isAlpha || first == '_') then String.mk ('_' :: sanitized)
    else String.mk sanitized

/-- The function `isReservedCxxIdentifier`: a leading `__`, or `_` followed by an upper-case
letter. -/
def isReservedCxxIdentifier (name : String) : Bool :=
  match name.data with
  | c0 :: c1 :: _ => (c0 == '_' && c1 == '_') || (c0 == '_' && c1.isUpper)
  | _ => false

/-- The function `PS2Recompiler::sanitizeFunctionName` (and its copy
`CodeGenerator::sanitizeFunctionName`, which tests the same conditions in another order). -/
def sanitizeFunctionName (name : String) : String :=
  let sanitized := sanitizeIdentifierBody name
  if sanitized.data = [] then sanitized
  else if sanitized = "main" then "ps2_main"
  else if kKeywords.contains sanitized || isReservedCxxIdentifier sanitized then
    "ps2_" ++ sanitized
  else sanitized

/-! ## Code generator state and name lookup -/

/-- The members of `CodeGenerator` that the embedded functions read: `m_symbols` (through
`findSymbolByAddress`), `m_renamedFunctions` and `m_bootstrapInfo`. -/
structure CodeGenerator where
  m_symbols : Nat → Option Symbol
  m_renamedFunctions : Nat → Option String
  m_bootstrapInfo : BootstrapInfo

/-- The function `CodeGenerator::getFunctionName`: the rename of the address when there is one,
else the sanitized name of a function symbol at the address, else the empty string. -/
def CodeGenerator.getFunctionName (g : CodeGenerator) (address : Nat) : String :=
  match g.m_renamedFunctions address with
  | some name => name
  | none =>
    match g.m_symbols address with
    | some sym => if sym.isFunction then sanitizeFunctionName sym.name else ""
    | none => ""

/-! ## Branch targets -/

/-- The function `buildAbsoluteJumpTarget` of `code_generator.cpp`, in `uint32_t` arithmetic. -/
def buildAbsoluteJumpTarget (address target : Nat) : Nat :=
  (u32 (address + 4) &&& 0xF0000000) ||| u32 (target <<< 2)

/-- The function `decodeAbsoluteJumpTarget` of `ps2_recompiler.cpp`, in `uint32_t` arithmetic. -/
def decodeAbsoluteJumpTarget (address target : Nat) : Nat :=
  (u32 (address + 4) &&& 0xF0000000) ||| u32 (target <<< 2)

/-- The PC-relative destination `inst.address + 4 + (inst.simmediate << 2)` as a `uint32_t`. -/
def relativeBranchTarget (inst : Instruction) : Nat :=
  u32OfInt ((inst.address : Int) + 4 + inst.simmediate * 4)

/-! ## Emission of a branch with its delay slot (`handleBranchDelaySlots`) -/

/-- The condition expressions `handleBranchDelaySlots` can put into `conditionStr`, as syntax. -/
inductive Cond where
  | cFalse
  | eqU32 (rs rt : Nat)
  | neU32 (rs rt : Nat)
  | lezS32 (rs : Nat)
  | gtzS32 (rs : Nat)
  | ltzS32 (rs : Nat)
  | gezS32 (rs : Nat)
  | fcr31Clear
  | fcr31Set
  | vu0Clear
  | vu0Set
  deriving DecidableEq

/-- The text of a condition, exactly the `fmt::format` results and literals of lines 193-283. -/
def Cond.render : Cond → String
  | .cFalse => "false"
  | .eqU32 rs rt => "GPR_U32(ctx, " ++ toString rs ++ ") == GPR_U32(ctx, " ++ toString rt ++ ")"
  | .neU32 rs rt => "GPR_U32(ctx, " ++ toString rs ++ ") != GPR_U32(ctx, " ++ toString rt ++ ")"
  | .lezS32 rs => "GPR_S32(ctx, " ++ toString rs ++ ") <= 0"
  | .gtzS32 rs => "GPR_S32(ctx, " ++ toString rs ++ ") > 0"
  | .ltzS32 rs => "GPR_S32(ctx, " ++ toString rs ++ ") < 0"
  | .gezS32 rs => "GPR_S32(ctx, " ++ toString rs ++ ") >= 0"
  | .fcr31Clear => "!(ctx->fcr31 & 0x800000)"
  | .fcr31Set => "(ctx->fcr31 & 0x800000)"
  | .vu0Clear => "!(ctx->vu0_status & 0x1)"
  | .vu0Set => "(ctx->vu0_status & 0x1)"

/-- The `switch (branchInst.opcode)` of lines 196-283: the condition chosen for the branch.
`rs_reg` and `rt_reg` are the `uint8_t` copies of the register fields. -/
def branchCond (branchInst : Instruction) : Cond :=
  let rs_reg := branchInst.rs % 256
  let rt_reg := branchInst.rt % 256
  if branchInst.opcode = OPCODE_BEQ then .eqU32 rs_reg rt_reg
  else if branchInst.opcode = OPCODE_BNE then .neU32 rs_reg rt_reg
  else if branchInst.opcode = OPCODE_BLEZ then .lezS32 rs_reg
  else if branchInst.opcode = OPCODE_BGTZ then .gtzS32 rs_reg
  else if branchInst.opcode = OPCODE_BEQL then .eqU32 rs_reg rt_reg
  else if branchInst.opcode = OPCODE_BNEL then .neU32 rs_reg rt_reg
  else if branchInst.opcode = OPCODE_BLEZL then .lezS32 rs_reg
  else if branchInst.opcode = OPCODE_BGTZL then .gtzS32 rs_reg
  else if branchInst.opcode = OPCODE_REGIMM then
    if rt_reg = REGIMM_BLTZ then .ltzS32 rs_reg
    else if rt_reg = REGIMM_BGEZ then .gezS32 rs_reg
    else if rt_reg = REGIMM_BLTZL then .ltzS32 rs_reg
    else if rt_reg = REGIMM_BGEZL then .gezS32 rs_reg
    else if rt_reg = REGIMM_BLTZAL then .ltzS32 rs_reg
    else if rt_reg = REGIMM_BGEZAL then .gezS32 rs_reg
    else if rt_reg = REGIMM_BLTZALL then .ltzS32 rs_reg
    else if rt_reg = REGIMM_BGEZALL then .gezS32 rs_reg
    else .cFalse
  else if branchInst.opcode = OPCODE_COP1 then
    if branchInst.rs = COP1_BC then
      let bc_cond := branchInst.rt % 256
      if bc_cond = COP1_BC_BCF ∨ bc_cond = COP1_BC_BCFL then .fcr31Clear else .fcr31Set
    else .cFalse
  else if branchInst.opcode = OPCODE_COP2 then
    if branchInst.rs = COP2_BC then
      let bc_cond := branchInst.rt % 256
      if bc_cond = COP2_BC_BCF ∨ bc_cond = COP2_BC_BCFL then .vu0Clear else .vu0Set
    else .cFalse
  else .cFalse

/-- The `linkCode` of lines 194-253: non-empty exactly for the four REGIMM and-link forms. -/
def branchLinkCode (branchInst : Instruction) : String :=
  let rt_reg := branchInst.rt % 256
  if branchInst.opcode = OPCODE_REGIMM ∧
      (rt_reg = REGIMM_BLTZAL ∨ rt_reg = REGIMM_BGEZAL ∨
       rt_reg = REGIMM_BLTZALL ∨ rt_reg = REGIMM_BGEZALL) then
    "SET_GPR_U32(ctx, 31, 0x" ++ hexUpper (u32 (branchInst.address + 8)) ++ ");"
  else ""

/-- The `targetAction` of lines 285-303 for a conditional branch. -/
def branchTargetAction (g : CodeGenerator) (branchInst : Instruction)
    (internalTargets : List Nat) : String :=
  let target := relativeBranchTarget branchInst
  let funcName := g.getFunctionName target
  let isInternalTarget := internalTargets.contains target
  if isInternalTarget then "goto label_" ++ hexLower target ++ ";"
  else if funcName ≠ "" then funcName ++ "(rdram, ctx, runtime); return;"
  else "ctx->pc = 0x" ++ hexUpper target ++ "; return;"

/-- The flag `isLikely` of lines 305-309. -/
def isLikely (branchInst : Instruction) : Bool :=
  branchInst.opcode = OPCODE_BEQL || branchInst.opcode = OPCODE_BNEL ||
  branchInst.opcode = OPCODE_BLEZL || branchInst.opcode = OPCODE_BGTZL ||
  (branchInst.opcode = OPCODE_REGIMM &&
    (branchInst.rt = REGIMM_BLTZL || branchInst.rt = REGIMM_BGEZL ||
     branchInst.rt = REGIMM_BLTZALL || branchInst.rt = REGIMM_BGEZALL)) ||
  (branchInst.opcode = OPCODE_COP1 && branchInst.rs = COP1_BC &&
    (branchInst.rt = COP1_BC_BCFL || branchInst.rt = COP1_BC_BCTL)) ||
  (branchInst.opcode = OPCODE_COP2 && branchInst.rs = COP2_BC &&
    (branchInst.rt = COP2_BC_BCFL || branchInst.rt = COP2_BC_BCTL))

/-- The function `CodeGenerator::handleBranchDelaySlots`. The text of a translated instruction
comes from `translateInstruction`, a parameter here; `function` is unused, as in the source. -/
def handleBranchDelaySlots (g : CodeGenerator) (translateInstruction : Instruction → String)
    (branchInst delaySlot : Instruction) (_function : Function)
    (internalTargets : List Nat) : String :=
  let hasValidDelaySlot : Bool := delaySlot.raw ≠ 0
  let delaySlotCode := if hasValidDelaySlot then translateInstruction delaySlot else ""
  let rs_reg := branchInst.rs % 256
  let rd_reg := branchInst.rd % 256
  if branchInst.opcode = OPCODE_J ∨ branchInst.opcode = OPCODE_JAL then
    let ss1 :=
      if branchInst.opcode = OPCODE_JAL then
        "    SET_GPR_U32(ctx, 31, 0x" ++ hexLower (u32 (branchInst.address + 8)) ++ ");\n"
      else ""
    let ss2 := if hasValidDelaySlot then ss1 ++ "    " ++ delaySlotCode ++ "\n" else ss1
    let target := buildAbsoluteJumpTarget branchInst.address branchInst.target
    let funcName := g.getFunctionName target
    if funcName ≠ "" then
      if branchInst.opcode = OPCODE_J then
        ss2 ++ "    " ++ funcName ++ "(rdram, ctx, runtime); return;\n"
      else
        ss2 ++ "    " ++ funcName ++ "(rdram, ctx, runtime);\n"
    else
      ss2 ++ "    ctx->pc = 0x" ++ hexLower target ++ "; return;\n"
  else if branchInst.opcode = OPCODE_SPECIAL ∧
      (branchInst.function = SPECIAL_JR ∨ branchInst.function = SPECIAL_JALR) then
    let link_reg :=
      if branchInst.function = SPECIAL_JALR then (if rd_reg = 0 then 31 else rd_reg) else 0
    let ss1 :=
      if link_reg ≠ 0 then
        "    SET_GPR_U32(ctx, " ++ toString link_reg ++ ", 0x" ++
          hexLower (u32 (branchInst.address + 8)) ++ ");\n"
      else ""
    let ss2 := if hasValidDelaySlot then ss1 ++ "    " ++ delaySlotCode ++ "\n" else ss1
    ss2 ++ "    ctx->pc = GPR_U32(ctx, " ++ toString rs_reg ++ "); return;\n"
  else if branchInst.isBranch then
    let conditionStr := (branchCond branchInst).render
    let linkCode := branchLinkCode branchInst
    let targetAction := branchTargetAction g branchInst internalTargets
    let ss1 := if linkCode ≠ "" then "    " ++ linkCode ++ "\n" else ""
    if isLikely branchInst then
      let ss2 := ss1 ++ "    if (" ++ conditionStr ++ ") \x7b\n"
      let ss3 := if hasValidDelaySlot then ss2 ++ "        " ++ delaySlotCode ++ "\n" else ss2
      ss3 ++ "        " ++ targetAction ++ "\n" ++ "    \x7d\n"
    else
      let ss2 := if hasValidDelaySlot then ss1 ++ "    " ++ delaySlotCode ++ "\n" else ss1
      ss2 ++ "    if (" ++ conditionStr ++ ") \x7b\n" ++ "        " ++ targetAction ++ "\n" ++
        "    \x7d\n"
  else
    let ss1 := "    " ++ translateInstruction branchInst ++ "\n"
    if hasValidDelaySlot then ss1 ++ "    " ++ delaySlotCode ++ "\n" else ss1

/-- The function `CodeGenerator::collectInternalBranchTargets`; the returned list holds the
members of the C++ set in insertion order (an address may repeat, membership is what counts). -/
def collectInternalBranchTargets (function : Function) (instructions : List Instruction) :
    List Nat :=
  instructions.foldl (fun targets inst =>
    let isStaticJump : Bool := inst.opcode = OPCODE_J || inst.opcode = OPCODE_JAL
    if inst.isBranch ∧ inst.opcode ≠ OPCODE_J ∧ inst.opcode ≠ OPCODE_JAL then
      let target := relativeBranchTarget inst
      if target ≥ function.start ∧ target < function.end_ then targets ++ [target] else targets
    else if isStaticJump then
      let target := buildAbsoluteJumpTarget inst.address inst.target
      if target ≥ function.start ∧ target < function.end_ then targets ++ [target] else targets
    else targets) []

/-! ## Runtime register file (`ps2_runtime.h`, `ps2_runtime_macros.h`) -/

/-- The record `R5900Context`, restricted to the fields the embedded code touches: the 32
general-purpose registers (128-bit values, indexed by number), `pc`, the `uint64_t` fields `hi`,
`lo`, `hi1` and `lo1`, `fcr31`, `vu0_status` and the `uint32_t` fields `cop0_cause` and
`cop0_epc`, which only the exception handler writes. -/
structure R5900Context where
  r : Nat → Nat
  pc : Nat
  hi : Nat
  lo : Nat
  hi1 : Nat
  lo1 : Nat
  fcr31 : Nat
  vu0_status : Nat
  cop0_cause : Nat := 0
  cop0_epc : Nat := 0

/-- The macro `GPR_U32`: zero for register 0, else lane 0 of the register as `uint32_t`. -/
def GPR_U32 (ctx : R5900Context) (reg_idx : Nat) : Nat :=
  if reg_idx = 0 then 0 else u32 (ctx.r reg_idx)

/-- The macro `GPR_S32`: zero for register 0, else lane 0 of the register as `int`. -/
def GPR_S32 (ctx : R5900Context) (reg_idx : Nat) : Int :=
  if reg_idx = 0 then 0 else s32 (ctx.r reg_idx)

/-- The macro `SET_GPR_U32`: nothing for register 0, else `_mm_set_epi32(0, 0, 0, val)`. -/
def SET_GPR_U32 (ctx : R5900Context) (reg_idx : Nat) (val : Nat) : R5900Context :=
  if reg_idx ≠ 0 then { ctx with r := fun i => if i = reg_idx then u32 val else ctx.r i }
  else ctx

/-- The macro `SET_GPR_S32`: nothing for register 0, else `_mm_set_epi32(0, 0, 0, val)`. -/
def SET_GPR_S32 (ctx : R5900Context) (reg_idx : Nat) (val : Int) : R5900Context :=
  if reg_idx ≠ 0 then { ctx with r := fun i => if i = reg_idx then u32OfInt val else ctx.r i }
  else ctx

/-- The macro `ADD32` with an unsigned left operand and a signed literal on the right. -/
def ADD32 (a : Nat) (b : Int) : Nat := u32OfInt ((a : Int) + b)

/-- The value of a condition expression in a context. -/
def Cond.eval (ctx : R5900Context) : Cond → Bool
  | .cFalse => false
  | .eqU32 rs rt => GPR_U32 ctx rs == GPR_U32 ctx rt
  | .neU32 rs rt => GPR_U32 ctx rs != GPR_U32 ctx rt
  | .lezS32 rs => decide (GPR_S32 ctx rs ≤ 0)
  | .gtzS32 rs => decide (GPR_S32 ctx rs > 0)
  | .ltzS32 rs => decide (GPR_S32 ctx rs < 0)
  | .gezS32 rs => decide (GPR_S32 ctx rs ≥ 0)
  | .fcr31Clear => (ctx.fcr31 &&& 0x800000) == 0
  | .fcr31Set => (ctx.fcr31 &&& 0x800000) != 0
  | .vu0Clear => (ctx.vu0_status &&& 0x1) == 0
  | .vu0Set => (ctx.vu0_status &&& 0x1) != 0

/-- The `OPCODE_ADDIU` case of `translateInstruction` (lines 515-519). -/
def translateADDIU (inst : Instruction) : String :=
  if inst.rt = 0 then "// NOP (addiu $zero, ...)"
  else "SET_GPR_S32(ctx, " ++ toString inst.rt ++ ", ADD32(GPR_U32(ctx, " ++ toString inst.rs ++
    "), " ++ toString inst.simmediate ++ "));"

/-- What the statement emitted for `ADDIU` does to the context when it runs. -/
def execADDIU (inst : Instruction) (ctx : R5900Context) : R5900Context :=
  if inst.rt = 0 then ctx
  else SET_GPR_S32 ctx inst.rt (ADD32 (GPR_U32 ctx inst.rs) inst.simmediate)

/-- The run of the pattern emitted for a non-likely branch, `<delay slot> if (cond) ...`: the
delay-slot statement runs, then the condition is read in the context it leaves. The result is that
context and whether the body of the `if` (the target action) is entered. -/
def runNonLikely (delay : R5900Context → R5900Context) (cond : Cond) (ctx : R5900Context) :
    R5900Context × Bool :=
  let ctx1 := delay ctx
  (ctx1, cond.eval ctx1)

/-- The run of the pattern emitted for a likely branch, `if (cond) ... <delay slot> ...`: the
condition is read first, the delay-slot statement runs only inside the body. -/
def runLikely (delay : R5900Context → R5900Context) (cond : Cond) (ctx : R5900Context) :
    R5900Context × Bool :=
  if cond.eval ctx then (delay ctx, true) else (ctx, false)

/-! ## Sample inputs -/

/-- A code generator with no symbols, no renames and no bootstrap. -/
def sampleGenerator : CodeGenerator :=
  { m_symbols := fun _ => none, m_renamedFunctions := fun _ => none,
    m_bootstrapInfo := ⟨false, 0, 0, 0, 0, ""⟩ }

/-- The instruction `ADDIU $2, $2, 1` at `0x00200008` (word `0x24420001`). -/
def sampleADDIU : Instruction :=
  { address := 0x00200008, raw := 0x24420001, opcode := OPCODE_ADDIU, rs := 2, rt := 2, rd := 0,
    sa := 0, function := 1, immediate := 1, simmediate := 1, target := 0x0420001,
    isBranch := false, hasDelaySlot := false, isMMI := false }

/-- The instruction `BEQ $2, $0, +2` at `0x00200004` (word `0x10400002`), target `0x00200010`. -/
def sampleBEQ : Instruction :=
  { address := 0x00200004, raw := 0x10400002, opcode := OPCODE_BEQ, rs := 2, rt := 0, rd := 0,
    sa := 0, function := 2, immediate := 2, simmediate := 2, target := 0x0400002,
    isBranch := true, hasDelaySlot := true, isMMI := false }

/-- The instruction `BEQL $2, $0, +2` at `0x00200004` (word `0x50400002`). -/
def sampleBEQL : Instruction :=
  { sampleBEQ with raw := 0x50400002, opcode := OPCODE_BEQL }

/-- The function `[0x00200000, 0x00200018)` that holds the sample branches. -/
def sampleFunction : Function :=
  { start := 0x00200000, end_ := 0x00200018, name := "f", isRecompiled := true, isStub := false }

/-- A context whose register 2 holds `0xFFFFFFFF`, every other register and field zero. -/
def sampleContext : R5900Context :=
  { r := fun i => if i = 2 then 0xFFFFFFFF else 0, pc := 0, hi := 0, lo := 0, hi1 := 0,
    lo1 := 0, fcr31 := 0, vu0_status := 0 }

/-- The instruction `J 0x440` at `0x410` (word `0x08000110`), as in scenario S5. -/
def sampleJ : Instruction :=
  { address := 0x410, raw := 0x08000110, opcode := OPCODE_J, rs := 0, rt := 0, rd := 0, sa := 4,
    function := 0x10, immediate := 0x110, simmediate := 0x110, target := 0x110,
    isBranch := true, hasDelaySlot := true, isMMI := false }

/-- The instruction `JAL 0x0` at `0x0010FFFC` (word `0x0C000000`). -/
def sampleJAL : Instruction :=
  { address := 0x0010FFFC, raw := 0x0C000000, opcode := OPCODE_JAL, rs := 0, rt := 0, rd := 0,
    sa := 0, function := 0, immediate := 0, simmediate := 0, target := 0,
    isBranch := true, hasDelaySlot := true, isMMI := false }

/-- The instruction `JR $31` at `0x1000` (word `0x03E00008`), flagged as a branch the way the
decoder flags every jump. -/
def sampleJR : Instruction :=
  { address := 0x1000, raw := 0x03E00008, opcode := OPCODE_SPECIAL, rs := 31, rt := 0, rd := 0,
    sa := 0, function := SPECIAL_JR, immediate := 8, simmediate := 8, target := 0x3E00008,
    isBranch := true, hasDelaySlot := true, isMMI := false }

/-- A `NOP` (word `0`) at the given address. -/
def sampleNOP (address : Nat) : Instruction :=
  { address := address, raw := 0, opcode := OPCODE_SPECIAL, rs := 0, rt := 0, rd := 0, sa := 0,
    function := 0, immediate := 0, simmediate := 0, target := 0,
    isBranch := false, hasDelaySlot := false, isMMI := false }

/-! ## Entry-point discovery (`PS2Recompiler::discoverAdditionalEntryPoints`) -/

/-- The members of `PS2Recompiler` that the entry-point pass reads and writes: the function list
and the map from a function start to its decoded instructions. -/
structure PS2Recompiler where
  m_functions : List Function
  m_decodedFunctions : Nat → Option (List Instruction)

/-- The lambda `getStaticBranchTarget` of `discoverAdditionalEntryPoints`. -/
def getStaticBranchTarget (inst : Instruction) : Option Nat :=
  if inst.opcode = OPCODE_J ∨ inst.opcode = OPCODE_JAL then
    some (decodeAbsoluteJumpTarget inst.address inst.target)
  else if inst.opcode = OPCODE_SPECIAL ∧
      (inst.function = SPECIAL_JR ∨ inst.function = SPECIAL_JALR) then
    none
  else if inst.isBranch then
    some (relativeBranchTarget inst)
  else none

/-- The lambda `findContainingFunction`: the first function of the list whose range holds the
address. -/
def findContainingFunction (functions : List Function) (address : Nat) : Option Function :=
  functions.find? (fun function => decide (address ≥ function.start ∧ address < function.end_))

/-- The local state of the pass: the decoded map as written so far, the set `existingStarts` and
the vector `newEntries`. -/
structure DiscoveryState where
  decoded : Nat → Option (List Instruction)
  existingStarts : List Nat
  newEntries : List Function

/-- The body of the inner loop, for one instruction. `isValidAddress` stands for
`m_elfParser->isValidAddress`, a member of the ELF parser, which is not among the sources. The
slice `[sliceIt, end)` of `std::find_if` is the list from the first instruction at the target on;
it is empty exactly when `find_if` reaches the end. -/
def discoverInstruction (isValidAddress : Nat → Bool) (functions : List Function)
    (st : DiscoveryState) (inst : Instruction) : DiscoveryState :=
  match getStaticBranchTarget inst with
  | none => st
  | some target =>
    if target &&& 0x3 ≠ 0 ∨ isValidAddress target = false then st
    else if target ∈ st.existingStarts then st
    else
      match findContainingFunction functions target with
      | none => st
      | some containingFunction =>
        if containingFunction.isStub = true ∨ containingFunction.isRecompiled = false then st
        else
          match st.decoded containingFunction.start with
          | none => st
          | some containingInstructions =>
            match containingInstructions.dropWhile (fun candidate => candidate.address ≠ target)
              with
            | [] => st
            | first :: rest =>
              { decoded := fun a => if a = target then some (first :: rest) else st.decoded a,
                existingStarts := target :: st.existingStarts,
                newEntries := st.newEntries ++
                  [{ start := target, end_ := containingFunction.end_,
                     name := "entry_" ++ hexLower target,
                     isRecompiled := true, isStub := false }] }

/-- The body of the outer loop, for one function: skipped unless recompiled and not a stub and
decoded; else every instruction of its decoded list is visited. The list is the one stored under
the function's start when the function is reached; the pass writes only under addresses outside
`existingStarts`, so the reference the C++ holds stays equal to it. -/
def discoverFunction (isValidAddress : Nat → Bool) (functions : List Function)
    (st : DiscoveryState) (function : Function) : DiscoveryState :=
  if function.isRecompiled = false ∨ function.isStub = true then st
  else
    match st.decoded function.start with
    | none => st
    | some instructions => instructions.foldl (discoverInstruction isValidAddress functions) st

/-- The two nested loops of `discoverAdditionalEntryPoints`, from the initial local state. -/
def discoveryLoop (isValidAddress : Nat → Bool) (p : PS2Recompiler) : DiscoveryState :=
  p.m_functions.foldl (discoverFunction isValidAddress p.m_functions)
    { decoded := p.m_decodedFunctions,
      existingStarts := p.m_functions.map (fun function => function.start),
      newEntries := [] }

/-- The entries the pass adds: the final `newEntries`. -/
def discoveredEntries (isValidAddress : Nat → Bool) (p : PS2Recompiler) : List Function :=
  (discoveryLoop isValidAddress p).newEntries

/-- The function `PS2Recompiler::discoverAdditionalEntryPoints`: when entries were found they are
appended to `m_functions`, which is then sorted by start (`std::sort`; the order it gives to equal
starts is unspecified and nothing below depends on it). -/
def discoverAdditionalEntryPoints (isValidAddress : Nat → Bool) (p : PS2Recompiler) :
    PS2Recompiler :=
  let st := discoveryLoop isValidAddress p
  { m_functions :=
      if st.newEntries ≠ [] then
        (p.m_functions ++ st.newEntries).insertionSort (fun a b => a.start ≤ b.start)
      else p.m_functions,
    m_decodedFunctions := st.decoded }

/-- Scenario S5: one function `A` over `[0x400, 0x500)`, decoded as `NOP`s with `J 0x440` at
`0x410`. -/
def sampleRecompiler : PS2Recompiler :=
  { m_functions :=
      [{ start := 0x400, end_ := 0x500, name := "A", isRecompiled := true, isStub := false }],
    m_decodedFunctions := fun a =>
      if a = 0x400 then
        some ((List.range 64).map fun k =>
          if k = 4 then sampleJ else sampleNOP (0x400 + 4 * k))
      else none }

/-- What holds of an entry `e` the pass has added, with `decodedNow` the decoded map at the time
of reading: `e` is word-aligned, valid, named `entry_<hex>`, recompiled and not a stub; the
function `c` that `findContainingFunction` returns for its start is a recompiled non-stub function
of the original list whose range holds the start and whose end `e` takes; and the list stored for
`e` is the original decoded list `L` of `c` from index `k` on, where `k` is the first index of an
instruction at the start of `e`. -/
def EntryOK (isValidAddress : Nat → Bool) (p : PS2Recompiler)
    (decodedNow : Nat → Option (List Instruction)) (e : Function) : Prop :=
  e.start % 4 = 0 ∧ isValidAddress e.start = true ∧
  e.name = "entry_" ++ hexLower e.start ∧ e.isRecompiled = true ∧ e.isStub = false ∧
  ∃ (c : Function) (L : List Instruction) (k : Nat) (i : Instruction),
    findContainingFunction p.m_functions e.start = some c ∧ c ∈ p.m_functions ∧
    c.start ≤ e.start ∧ e.start < c.end_ ∧ e.end_ = c.end_ ∧
    c.isRecompiled = true ∧ c.isStub = false ∧
    p.m_decodedFunctions c.start = some L ∧
    L[k]? = some i ∧ i.address = e.start ∧
    (∀ (j : Nat) (i2 : Instruction), j < k → L[j]? = some i2 → i2.address ≠ e.start) ∧
    decodedNow e.start = some (L.drop k) ∧
    (L.drop k).head? = some i

/-- The invariant of the two loops of the pass. -/
structure DiscoveryInv (isValidAddress : Nat → Bool) (p : PS2Recompiler)
    (st : DiscoveryState) : Prop where
  starts : ∀ f ∈ p.m_functions, f.start ∈ st.existingStarts
  frame : ∀ a, (∀ e ∈ st.newEntries, e.start ≠ a) → st.decoded a = p.m_decodedFunctions a
  known : ∀ e ∈ st.newEntries, e.start ∈ st.existingStarts
  fresh : ∀ e ∈ st.newEntries, ∀ f ∈ p.m_functions, f.start ≠ e.start
  nodup : (st.newEntries.map (fun e => e.start)).Nodup
  ok : ∀ e ∈ st.newEntries, EntryOK isValidAddress p st.decoded e

/-- The entry `entry_440` that the pass adds in scenario S5. -/
def sampleEntry : Function :=
  { start := 0x440, end_ := 0x500, name := "entry_440", isRecompiled := true, isStub := false }

/-! ## Registration table (`generateFunctionRegistration`, `PS2Runtime`) -/

/-- The pairs `(function.start, generatedName)` the loop of `generateFunctionRegistration` puts in
`normalFunctions`: the recompiled functions that are not stubs, in list order. -/
def normalFunctions (g : CodeGenerator) (functions : List Function) : List (Nat × String) :=
  (functions.filter (fun function =>
      (function.isRecompiled || function.isStub) && !function.isStub)).map
    (fun function => (function.start, g.getFunctionName function.start))

/-- The pairs the same loop puts in `stubFunctions`: the stubs, in list order. -/
def stubFunctions (g : CodeGenerator) (functions : List Function) : List (Nat × String) :=
  (functions.filter (fun function =>
      (function.isRecompiled || function.isStub) && function.isStub)).map
    (fun function => (function.start, g.getFunctionName function.start))

/-- The bootstrap registration, present when the bootstrap info is valid. -/
def bootstrapRegistration (g : CodeGenerator) : List (Nat × String) :=
  if g.m_bootstrapInfo.valid then
    [(g.m_bootstrapInfo.entry, "entry_" ++ hexLower g.m_bootstrapInfo.entry)]
  else []

/-- The calls `runtime.registerFunction(0x<address>, <name>)` of the emitted
`registerAllFunctions`, in the order of emission: the bootstrap, the recompiled functions, the
stubs (the vectors `systemCallFunctions` and `libraryFunctions` are never filled). -/
def registrationCalls (g : CodeGenerator) (functions : List Function) : List (Nat × String) :=
  bootstrapRegistration g ++ normalFunctions g functions ++ stubFunctions g functions

/-- One emitted registration line. -/
def registrationLine (call : Nat × String) : String :=
  "    runtime.registerFunction(0x" ++ hexLower call.1 ++ ", " ++ call.2 ++ ");\n"

/-- The function `CodeGenerator::generateFunctionRegistration`: the emitted text. The parameter
`stubs` of the source is not read and is left out. -/
def generateFunctionRegistration (g : CodeGenerator) (functions : List Function) : String :=
  "#include \"ps2_runtime.h\"\n" ++
  "#include \"ps2_recompiled_functions.h\"\n" ++
  "#include \"ps2_stubs.h\"\n" ++
  "#include \"ps2_recompiled_stubs.h\"//this will give duplicated erros because runtime maybe has it define already, just delete the TODOS ones\n" ++
  "#include \"ps2_syscalls.h\"\n\n" ++
  "void registerAllFunctions(PS2Runtime& runtime) \x7b\n" ++
  (if g.m_bootstrapInfo.valid then
    "    // Register ELF entry bootstrap\n" ++
    "    runtime.registerFunction(0x" ++ hexLower g.m_bootstrapInfo.entry ++ ", entry_" ++
      hexLower g.m_bootstrapInfo.entry ++ ");\n\n"
   else "") ++
  "    // Register recompiled functions\n" ++
  String.join ((normalFunctions g functions).map registrationLine) ++
  "\n    // Register stub functions\n" ++
  String.join ((stubFunctions g functions).map registrationLine) ++
  "\n    // Register system call stubs\n" ++
  "\n    // Register library stubs\n" ++
  "\x7d\n"

/-- A value of the runtime's type `RecompiledFunction`: a generated function, known by its
identifier, or the `defaultFunction` of `lookupFunction`. -/
inductive RecompiledFunction where
  | generated (identifier : String)
  | defaultFunction
  deriving DecidableEq

/-- The function `PS2Runtime::registerFunction`: `m_functionTable[address] = func`. -/
def registerFunction (m_functionTable : Nat → Option RecompiledFunction) (address : Nat)
    (func : RecompiledFunction) : Nat → Option RecompiledFunction :=
  fun a => if a = address then some func else m_functionTable a

/-- The function `PS2Runtime::lookupFunction`: the registered function, else the default. -/
def lookupFunction (m_functionTable : Nat → Option RecompiledFunction) (address : Nat) :
    RecompiledFunction :=
  match m_functionTable address with
  | some func => func
  | none => RecompiledFunction.defaultFunction

/-- The run of the emitted `registerAllFunctions`: the calls in order, on a function table. -/
def registerAllFunctions (calls : List (Nat × String))
    (m_functionTable : Nat → Option RecompiledFunction) : Nat → Option RecompiledFunction :=
  calls.foldl (fun table call => registerFunction table call.1 (.generated call.2))
    m_functionTable

/-- A generator whose bootstrap is valid with entry `0x100000` and whose rename map names the
function at the entry `_start`. -/
def sampleBootGenerator : CodeGenerator :=
  { m_symbols := fun _ => none,
    m_renamedFunctions := fun a => if a = 0x100000 then some "_start" else none,
    m_bootstrapInfo := ⟨true, 0x100000, 0, 0, 0, "_start"⟩ }

/-- The guest entry function `_start` at `0x100000`. -/
def sampleStart : Function :=
  { start := 0x100000, end_ := 0x100100, name := "_start", isRecompiled := true,
    isStub := false }

/-! ## The rename map of `generateOutput` -/

/-- The lambda `makeName` of `generateOutput`. -/
def makeName (function : Function) : String :=
  let sanitized := sanitizeFunctionName function.name
  if sanitized.data = [] then "func_" ++ hexLower function.start else sanitized

/-- The map `nameCounts` of `generateOutput`: how many recompiled or stub functions have the
name. -/
def nameCounts (functions : List Function) (name : String) : Nat :=
  ((functions.filter (fun function => function.isRecompiled || function.isStub)).map
    makeName).count name

/-- The identifier the second loop of `generateOutput` stores for a function. -/
def finalName (functions : List Function) (function : Function) : String :=
  let sanitized := makeName function
  let isDuplicate : Bool := nameCounts functions sanitized > 1
  if isDuplicate then sanitized ++ "_0x" ++ hexLower function.start else sanitized

/-- The map `m_functionRenames` as `generateOutput` builds it (lines 276-317). -/
def buildFunctionRenames (functions : List Function) : Nat → Option String :=
  (functions.filter (fun function => function.isRecompiled || function.isStub)).foldl
    (fun renames function =>
      fun a => if a = function.start then some (finalName functions function) else renames a)
    (fun _ => none)

/-- Three recompiled functions with distinct starts: two named `foo`, one named `foo_0x10`. -/
def sampleCollidingFunctions : List Function :=
  [{ start := 0x10, end_ := 0x20, name := "foo", isRecompiled := true, isStub := false },
   { start := 0x20, end_ := 0x30, name := "foo", isRecompiled := true, isStub := false },
   { start := 0x30, end_ := 0x40, name := "foo_0x10", isRecompiled := true, isStub := false }]

/-- A string that is already an identifier body: every byte is alphanumeric or `_`, and the first
byte, when there is one, is a letter or `_`. -/
def IsIdentifierBody (s : String) : Prop :=
  (∀ c ∈ s.data, (c.isAlphanum || c == '_') = true) ∧
  (∀ (first : Char) (rest : List Char), s.data = first :: rest →
    (first.isAlpha || first == '_') = true)

/-! ## Wider registers and guest memory (`ps2_runtime_macros.h`, `ps2_runtime.h`) -/

/-- Reduction of an unsigned value to 64 bits. -/
def u64 (n : Nat) : Nat := n % 18446744073709551616

/-- Reduction of a signed value to the `uint64_t` with the same low 64 bits. -/
def u64OfInt (z : Int) : Nat := (z % 18446744073709551616).toNat

/-- The `int64_t` with the bits of a `uint64_t`. -/
def s64 (n : Nat) : Int :=
  if n % 18446744073709551616 < 9223372036854775808 then ((n % 18446744073709551616 : Nat) : Int)
  else ((n % 18446744073709551616 : Nat) : Int) - 18446744073709551616

/-- Reduction of an unsigned value to the 128 bits of an `__m128i`. -/
def u128 (n : Nat) : Nat := n % 340282366920938463463374607431768211456

/-- The macro `GPR_U64`: zero for register 0, else
`static_cast<uint32_t>(_mm_extract_epi64(r, 0))`: the low 64 bits of the register, cast to
`uint32_t` and then widened by the conditional operator. -/
def GPR_U64 (ctx : R5900Context) (reg_idx : Nat) : Nat :=
  if reg_idx = 0 then 0 else u32 (u64 (ctx.r reg_idx))

/-- The macro `GPR_S64`: zero for register 0, else `_mm_extract_epi64(r, 0)`, the low 64 bits of
the register as a signed value. -/
def GPR_S64 (ctx : R5900Context) (reg_idx : Nat) : Int :=
  if reg_idx = 0 then 0 else s64 (ctx.r reg_idx)

/-- The macro `GPR_VEC`: zero for register 0, else the 128 bits of the register. -/
def GPR_VEC (ctx : R5900Context) (reg_idx : Nat) : Nat :=
  if reg_idx = 0 then 0 else u128 (ctx.r reg_idx)

/-- The macro `SET_GPR_U64`: nothing for register 0, else `_mm_set_epi64x(0, val)`. -/
def SET_GPR_U64 (ctx : R5900Context) (reg_idx : Nat) (val : Nat) : R5900Context :=
  if reg_idx ≠ 0 then { ctx with r := fun i => if i = reg_idx then u64 val else ctx.r i }
  else ctx

/-- The macro `SET_GPR_S64`: nothing for register 0, else `_mm_set_epi64x(0, val)`. -/
def SET_GPR_S64 (ctx : R5900Context) (reg_idx : Nat) (val : Int) : R5900Context :=
  if reg_idx ≠ 0 then { ctx with r := fun i => if i = reg_idx then u64OfInt val else ctx.r i }
  else ctx

/-- The macro `SET_GPR_VEC`: nothing for register 0, else the register takes the 128-bit value. -/
def SET_GPR_VEC (ctx : R5900Context) (reg_idx : Nat) (val : Nat) : R5900Context :=
  if reg_idx ≠ 0 then { ctx with r := fun i => if i = reg_idx then u128 val else ctx.r i }
  else ctx

/-- The constant `PS2_RAM_SIZE`: 32 MiB. -/
def PS2_RAM_SIZE : Nat := 32 * 1024 * 1024

/-- The constant `PS2_RAM_MASK`. -/
def PS2_RAM_MASK : Nat := 0x1FFFFFF

/-- The macro `READ8`: the byte of `rdram` at offset `addr & PS2_RAM_MASK`. The buffer `rdram` is
a function from byte offset to byte; a stored value is reduced to a byte when read. -/
def READ8 (rdram : Nat → Nat) (addr : Nat) : Nat :=
  rdram (addr &&& PS2_RAM_MASK) % 256

/-- The macro `READ32`: the `uint32_t` at offset `addr & PS2_RAM_MASK`, which on the little-endian
host the runtime is built for (SSE or NEON intrinsics) is made of the four bytes from that offset
on, lowest byte first. -/
def READ32 (rdram : Nat → Nat) (addr : Nat) : Nat :=
  let o := addr &&& PS2_RAM_MASK
  rdram o % 256 + 256 * (rdram (o + 1) % 256) + 65536 * (rdram (o + 2) % 256) +
    16777216 * (rdram (o + 3) % 256)

/-- The macro `WRITE32`: stores the `uint32_t` value at offset `addr & PS2_RAM_MASK`, lowest byte
first. -/
def WRITE32 (rdram : Nat → Nat) (addr : Nat) (val : Nat) : Nat → Nat :=
  let o := addr &&& PS2_RAM_MASK
  fun off =>
    if off = o then u32 val % 256
    else if off = o + 1 then u32 val / 256 % 256
    else if off = o + 2 then u32 val / 65536 % 256
    else if off = o + 3 then u32 val / 16777216 % 256
    else rdram off

/-! ## Trapping and wrapping arithmetic (`translateInstruction`, `translateSpecialInstruction`)

Each case of the translator is given twice: `translateX` is the text the case returns, `execX` is
what that text does when it runs. A signed sum or difference that leaves its type (`_a + _b` and
`_a - _b` of the overflow macros, `src + imm` of `DADDI`) is undefined in C++: the macros give no
result there, and the run is marked `undefined`. The sum inside `ADD32` on two `int`s is converted
to `uint32_t` at once and is taken to wrap. -/

/-- The constant `INT32_MAX`. -/
def INT32_MAX : Int := 2147483647

/-- The constant `INT32_MIN`. -/
def INT32_MIN : Int := -2147483648

/-- The enumerator `EXCEPTION_INTEGER_OVERFLOW` of `PS2Exception` (`ps2_runtime.h`). -/
def EXCEPTION_INTEGER_OVERFLOW : Nat := 0x0C

/-- The function `PS2Runtime::HandleIntegerOverflow(ctx)` (besides its line on `std::cerr`): it
reads `pc` of `ctx` and writes `cop0_epc`, `cop0_cause` and `pc` of the runtime's member
`m_cpuContext`. -/
def HandleIntegerOverflow (m_cpuContext ctx : R5900Context) : R5900Context :=
  { m_cpuContext with
    cop0_epc := ctx.pc,
    cop0_cause := m_cpuContext.cop0_cause ||| (EXCEPTION_INTEGER_OVERFLOW <<< 2),
    pc := 0x80000000 }

/-- The function `PS2Runtime::SignalException(ctx, exception)`, as the emitted code sees it: the
emitted functions run on `&m_cpuContext` (`PS2Runtime::run` passes it to the entry point and every
call hands `ctx` on), so the context the handler writes is the one the emitted code holds. -/
def SignalException (ctx : R5900Context) (exception : Nat) : R5900Context :=
  if exception = EXCEPTION_INTEGER_OVERFLOW then HandleIntegerOverflow ctx ctx else ctx

/-- The result of running one emitted statement that can call
`runtime->SignalException(ctx, EXCEPTION_INTEGER_OVERFLOW)`: the context the statement leaves and
the number of such calls it made. The flag `undefined` is set when the run evaluated a signed sum
or difference that leaves its type, which C++ leaves undefined: `ctx` and `signals` are then what
a host does that wraps in two's complement and evaluates the test as written (the text compiled
without optimisation), and a compiler may produce something else (for `ADDI` with a negative
immediate g++ at `-O2` drops the test and nothing is signalled). -/
structure Outcome where
  ctx : R5900Context
  signals : Nat
  undefined : Bool := false

/-- The C++ expression `a ^ b` on two `int32_t`: the signed value of the XOR of the two bit
patterns. -/
def xor32 (a b : Int) : Int := s32 (u32OfInt a ^^^ u32OfInt b)

/-- The macro `SUB32_OV(rs, rt, result32, overflow)` for arguments given as 32-bit patterns: the
two outputs, or `none` where `int32_t _r = _a - _b` leaves the range of `int32_t` (undefined). -/
def SUB32_OV (rs rt : Nat) : Option (Nat × Bool) :=
  let _a : Int := s32 rs
  let _b : Int := s32 rt
  if INT32_MIN ≤ _a - _b ∧ _a - _b ≤ INT32_MAX then
    let _r : Int := _a - _b
    let overflow : Bool := decide (xor32 _a _b < 0) && decide (xor32 _a _r < 0)
    let result32 : Nat := u32OfInt _r
    some (result32, overflow)
  else none

/-- The macro `SUB32` on two `uint32_t`. -/
def SUB32 (a b : Nat) : Nat := u32OfInt ((a : Int) - (b : Int))

/-- The macro `ADD32` on two `int` operands, as the code emitted for `ADD` uses it. -/
def ADD32_int (a b : Int) : Nat := u32OfInt (a + b)

/-- The `SPECIAL_ADD` case of `translateSpecialInstruction` (lines 720-734). -/
def translateADD (inst : Instruction) : String :=
  "if (runtime->check_overflow) \x7b " ++
  "    int32_t rs_val = GPR_S32(ctx, " ++ toString inst.rs ++ "); " ++
  "    int32_t rt_val = GPR_S32(ctx, " ++ toString inst.rt ++ "); " ++
  "    int64_t result = (int64_t)rs_val + (int64_t)rt_val; " ++
  "    if (result > INT32_MAX || result < INT32_MIN) \x7b " ++
  "        runtime->SignalException(ctx, EXCEPTION_INTEGER_OVERFLOW); " ++
  "    \x7d else \x7b " ++
  "        SET_GPR_S32(ctx, " ++ toString inst.rd ++ ", (int32_t)result); " ++
  "    \x7d " ++
  "\x7d else \x7b " ++
  "    SET_GPR_S32(ctx, " ++ toString inst.rd ++ ", ADD32(GPR_S32(ctx, " ++ toString inst.rs ++
    "), GPR_S32(ctx, " ++ toString inst.rt ++ "))); " ++
  "\x7d"

/-- What the text emitted for `ADD` does, given the flag `runtime->check_overflow`. -/
def execADD (check_overflow : Bool) (inst : Instruction) (ctx : R5900Context) : Outcome :=
  if check_overflow then
    let rs_val : Int := GPR_S32 ctx inst.rs
    let rt_val : Int := GPR_S32 ctx inst.rt
    let result : Int := rs_val + rt_val
    if result > INT32_MAX ∨ result < INT32_MIN then
      { ctx := SignalException ctx EXCEPTION_INTEGER_OVERFLOW, signals := 1 }
    else { ctx := SET_GPR_S32 ctx inst.rd result, signals := 0 }
  else
    { ctx := SET_GPR_S32 ctx inst.rd
        (ADD32_int (GPR_S32 ctx inst.rs) (GPR_S32 ctx inst.rt)),
      signals := 0 }

/-- The `SPECIAL_ADDU` case of `translateSpecialInstruction` (line 736). -/
def translateADDU (inst : Instruction) : String :=
  "SET_GPR_U32(ctx, " ++ toString inst.rd ++ ", ADD32(GPR_U32(ctx, " ++ toString inst.rs ++
    "), GPR_U32(ctx, " ++ toString inst.rt ++ ")));"

/-- What the text emitted for `ADDU` does. -/
def execADDU (inst : Instruction) (ctx : R5900Context) : R5900Context :=
  SET_GPR_U32 ctx inst.rd (ADD32 (GPR_U32 ctx inst.rs) (GPR_U32 ctx inst.rt))

/-- The `SPECIAL_SUB` case of `translateSpecialInstruction` (lines 737-743). -/
def translateSUB (inst : Instruction) : String :=
  "\x7b uint32_t tmp; bool ov; " ++
  "SUB32_OV(GPR_U32(ctx, " ++ toString inst.rs ++ "), GPR_U32(ctx, " ++ toString inst.rt ++
    "), tmp, ov); " ++
  "if (ov) runtime->SignalException(ctx, EXCEPTION_INTEGER_OVERFLOW); " ++
  "else SET_GPR_S32(ctx, " ++ toString inst.rd ++ ", (int32_t)tmp); \x7d"

/-- What the text emitted for `SUB` does. The flag `runtime->check_overflow` is passed for
comparison with `execADD`; the text emitted for `SUB` does not mention it. Where the macro has no
defined result the run is marked `undefined`. -/
def execSUB (_check_overflow : Bool) (inst : Instruction) (ctx : R5900Context) : Outcome :=
  match SUB32_OV (GPR_U32 ctx inst.rs) (GPR_U32 ctx inst.rt) with
  | some (tmp, ov) =>
    if ov then { ctx := SignalException ctx EXCEPTION_INTEGER_OVERFLOW, signals := 1 }
    else { ctx := SET_GPR_S32 ctx inst.rd (s32 tmp), signals := 0 }
  | none =>
    { ctx := SignalException ctx EXCEPTION_INTEGER_OVERFLOW, signals := 1, undefined := true }

/-- The `SPECIAL_SUBU` case of `translateSpecialInstruction` (line 745). -/
def translateSUBU (inst : Instruction) : String :=
  "SET_GPR_U32(ctx, " ++ toString inst.rd ++ ", SUB32(GPR_U32(ctx, " ++ toString inst.rs ++
    "), GPR_U32(ctx, " ++ toString inst.rt ++ ")));"

/-- What the text emitted for `SUBU` does. -/
def execSUBU (inst : Instruction) (ctx : R5900Context) : R5900Context :=
  SET_GPR_U32 ctx inst.rd (SUB32 (GPR_U32 ctx inst.rs) (GPR_U32 ctx inst.rt))

/-- An instruction record in register format: `rs`, `rt`, `rd` and the function code, with the
word they encode; the immediate fields are read from the low half of the word. -/
def sampleRType (rs rt rd function : Nat) : Instruction :=
  { address := 0x00100000,
    raw := rs * 2097152 + rt * 65536 + rd * 2048 + function,
    opcode := OPCODE_SPECIAL, rs := rs, rt := rt, rd := rd, sa := 0, function := function,
    immediate := rd * 2048 + function, simmediate := ((rd * 2048 + function : Nat) : Int),
    target := rs * 2097152 + rt * 65536 + rd * 2048 + function,
    isBranch := false, hasDelaySlot := false, isMMI := false }

/-- A context whose registers 4 and 5 hold the given values, every other register and field
zero. -/
def contextWith (r4 r5 : Nat) : R5900Context :=
  { r := fun i => if i = 4 then r4 else if i = 5 then r5 else 0, pc := 0, hi := 0, lo := 0,
    hi1 := 0, lo1 := 0, fcr31 := 0, vu0_status := 0 }

/-- An instruction record in immediate format: the primary opcode, `rs`, `rt` and a non-negative
16-bit immediate, with the word they encode. -/
def sampleIType (opcode rs rt imm : Nat) : Instruction :=
  { address := 0x00100000,
    raw := opcode * 67108864 + rs * 2097152 + rt * 65536 + imm,
    opcode := opcode, rs := rs, rt := rt, rd := imm / 2048, sa := imm / 64 % 32,
    function := imm % 64, immediate := imm, simmediate := (imm : Int),
    target := rs * 2097152 + rt * 65536 + imm,
    isBranch := false, hasDelaySlot := false, isMMI := false }

/-! ## Division and unaligned loads (`translateSpecialInstruction`, `translateMMIInstruction`,
`translateInstruction`) -/

/-- The `SPECIAL_DIV` case of `translateSpecialInstruction` (line 717); the five arguments of the
format are `inst.rt, inst.rs, inst.rt, inst.rs, inst.rt`. -/
def translateDIV (inst : Instruction) : String :=
  "\x7b int32_t divisor = GPR_S32(ctx, " ++ toString inst.rt ++ "); if (divisor != 0) \x7b " ++
  "ctx->lo = (uint32_t)(GPR_S32(ctx, " ++ toString inst.rs ++ ") / divisor); " ++
  "ctx->hi = (uint32_t)(GPR_S32(ctx, " ++ toString inst.rt ++ ") % divisor); \x7d else \x7b " ++
  "ctx->lo = (GPR_S32(ctx," ++ toString inst.rs ++ ") < 0) ? 1 : -1; " ++
  "ctx->hi = GPR_S32(ctx," ++ toString inst.rt ++ "); \x7d \x7d"

/-- What the text emitted for `DIV` does: `/` and `%` of C++ truncate toward zero; `lo` and `hi`
are `uint64_t`, so an `int` stored without a cast is sign-extended. The result is `none` for
`INT32_MIN / -1`, where the `int32_t` division is undefined (the host's divide instruction
traps). -/
def execDIV (inst : Instruction) (ctx : R5900Context) : Option R5900Context :=
  let divisor : Int := GPR_S32 ctx inst.rt
  if divisor ≠ 0 then
    if GPR_S32 ctx inst.rs = INT32_MIN ∧ divisor = -1 then none
    else
      some { ctx with
        lo := u32OfInt (Int.tdiv (GPR_S32 ctx inst.rs) divisor),
        hi := u32OfInt (Int.tmod (GPR_S32 ctx inst.rt) divisor) }
  else
    some { ctx with
      lo := u64OfInt (if GPR_S32 ctx inst.rs < 0 then 1 else -1),
      hi := u64OfInt (GPR_S32 ctx inst.rt) }

/-- The `SPECIAL_DIVU` case of `translateSpecialInstruction` (line 719). The format string has
four placeholders and the call passes five arguments, `inst.rt, inst.rs, inst.rt, inst.rs,
inst.rt`: the first four fill the placeholders in order and the fifth is not printed, so the
zero-divisor branch names `rs`. -/
def translateDIVU (inst : Instruction) : String :=
  "\x7b uint32_t divisor = GPR_U32(ctx, " ++ toString inst.rt ++ "); if (divisor != 0) \x7b " ++
  "ctx->lo = GPR_U32(ctx, " ++ toString inst.rs ++ ") / divisor; " ++
  "ctx->hi = GPR_U32(ctx, " ++ toString inst.rt ++ ") % divisor; \x7d else \x7b " ++
  "ctx->lo = 0xFFFFFFFF; " ++
  "ctx->hi = GPR_U32(ctx," ++ toString inst.rs ++ "); \x7d \x7d"

/-- What the text emitted for `DIVU` does. -/
def execDIVU (inst : Instruction) (ctx : R5900Context) : R5900Context :=
  let divisor : Nat := GPR_U32 ctx inst.rt
  if divisor ≠ 0 then
    { ctx with
      lo := GPR_U32 ctx inst.rs / divisor,
      hi := GPR_U32 ctx inst.rt % divisor }
  else
    { ctx with lo := 0xFFFFFFFF, hi := GPR_U32 ctx inst.rs }

/-- The `MMI_DIV1` case of `translateMMIInstruction` (line 1142); `rs` and `rt` are the `uint8_t`
copies of the fields and the arguments of the format are `rt, rs, rt, rs, rt`. -/
def translateDIV1 (inst : Instruction) : String :=
  let rs := inst.rs % 256
  let rt := inst.rt % 256
  "\x7b int32_t divisor = GPR_S32(ctx, " ++ toString rt ++ "); if (divisor != 0) \x7b " ++
  "ctx->lo1 = (uint32_t)(GPR_S32(ctx, " ++ toString rs ++ ") / divisor); " ++
  "ctx->hi1 = (uint32_t)(GPR_S32(ctx, " ++ toString rt ++ ") % divisor); \x7d else \x7b " ++
  "ctx->lo1= (GPR_S32(ctx," ++ toString rs ++ ") < 0) ? 1 : -1; " ++
  "ctx->hi1=GPR_S32(ctx," ++ toString rt ++ "); \x7d \x7d"

/-- What the text emitted for `DIV1` does; `none` for `INT32_MIN / -1`, where the `int32_t`
division is undefined (the host's divide instruction traps). -/
def execDIV1 (inst : Instruction) (ctx : R5900Context) : Option R5900Context :=
  let rs := inst.rs % 256
  let rt := inst.rt % 256
  let divisor : Int := GPR_S32 ctx rt
  if divisor ≠ 0 then
    if GPR_S32 ctx rs = INT32_MIN ∧ divisor = -1 then none
    else
      some { ctx with
        lo1 := u32OfInt (Int.tdiv (GPR_S32 ctx rs) divisor),
        hi1 := u32OfInt (Int.tmod (GPR_S32 ctx rt) divisor) }
  else
    some { ctx with
      lo1 := u64OfInt (if GPR_S32 ctx rs < 0 then 1 else -1),
      hi1 := u64OfInt (GPR_S32 ctx rt) }

/-- The `MMI_DIVU1` case of `translateMMIInstruction` (line 1144). The format string has four
placeholders and the call passes five arguments, `rt, rs, rt, rs, rt`: the fifth is not printed,
so the zero-divisor branch names `rs`. -/
def translateDIVU1 (inst : Instruction) : String :=
  let rs := inst.rs % 256
  let rt := inst.rt % 256
  "\x7b uint32_t divisor = GPR_U32(ctx, " ++ toString rt ++ "); if (divisor != 0) \x7b " ++
  "ctx->lo1 = GPR_U32(ctx, " ++ toString rs ++ ") / divisor; " ++
  "ctx->hi1 = GPR_U32(ctx, " ++ toString rt ++ ") % divisor; \x7d else \x7b " ++
  "ctx->lo1=0xFFFFFFFF; " ++
  "ctx->hi1=GPR_U32(ctx," ++ toString rs ++ "); \x7d \x7d"

/-- What the text emitted for `DIVU1` does. -/
def execDIVU1 (inst : Instruction) (ctx : R5900Context) : R5900Context :=
  let rs := inst.rs % 256
  let rt := inst.rt % 256
  let divisor : Nat := GPR_U32 ctx rt
  if divisor ≠ 0 then
    { ctx with
      lo1 := GPR_U32 ctx rs / divisor,
      hi1 := GPR_U32 ctx rt % divisor }
  else
    { ctx with lo1 := 0xFFFFFFFF, hi1 := GPR_U32 ctx rs }

/-- The C++ expression `~x` on a `uint32_t`. -/
def not32 (x : Nat) : Nat := 0xFFFFFFFF - u32 x

/-- The `OPCODE_LWL` case of `translateInstruction` (lines 610-616). -/
def translateLWL (inst : Instruction) : String :=
  "\x7b uint32_t addr = ADD32(GPR_U32(ctx, " ++ toString inst.rs ++ "), " ++
    toString inst.simmediate ++ "); " ++
  "uint32_t shift = ((~addr) & 3) << 3; /* big-endian */ " ++
  "uint32_t mask  = 0xFFFFFFFF >> shift; " ++
  "uint32_t word  = READ32(addr & ~3); " ++
  "SET_GPR_U32(ctx, " ++ toString inst.rt ++ ", (GPR_U32(ctx," ++ toString inst.rt ++
    ") & ~mask) | ((word >> shift) & mask)); \x7d"

/-- What the text emitted for `LWL` does, on the memory `rdram`. -/
def execLWL (rdram : Nat → Nat) (inst : Instruction) (ctx : R5900Context) : R5900Context :=
  let addr := ADD32 (GPR_U32 ctx inst.rs) inst.simmediate
  let shift := ((not32 addr) &&& 3) <<< 3
  let mask := 0xFFFFFFFF >>> shift
  let word := READ32 rdram (addr &&& 0xFFFFFFFC)
  SET_GPR_U32 ctx inst.rt ((GPR_U32 ctx inst.rt &&& not32 mask) ||| ((word >>> shift) &&& mask))

/-- The `OPCODE_LWR` case of `translateInstruction` (lines 618-624). -/
def translateLWR (inst : Instruction) : String :=
  "\x7b uint32_t addr = ADD32(GPR_U32(ctx, " ++ toString inst.rs ++ "), " ++
    toString inst.simmediate ++ "); " ++
  "uint32_t shift = (addr & 3) << 3; " ++
  "uint32_t mask  = 0xFFFFFFFF << shift; " ++
  "uint32_t word  = READ32(addr & ~3); " ++
  "SET_GPR_U32(ctx, " ++ toString inst.rt ++ ", (GPR_U32(ctx," ++ toString inst.rt ++
    ") & ~mask) | (word << shift)); \x7d"

/-- What the text emitted for `LWR` does, on the memory `rdram`. -/
def execLWR (rdram : Nat → Nat) (inst : Instruction) (ctx : R5900Context) : R5900Context :=
  let addr := ADD32 (GPR_U32 ctx inst.rs) inst.simmediate
  let shift := (addr &&& 3) <<< 3
  let mask := u32 (0xFFFFFFFF <<< shift)
  let word := READ32 rdram (addr &&& 0xFFFFFFFC)
  SET_GPR_U32 ctx inst.rt ((GPR_U32 ctx inst.rt &&& not32 mask) ||| u32 (word <<< shift))

/-- A memory that holds the bytes `00 11 22 33 44 55 66 77` at offsets `0x1000` to `0x1007` and
zero elsewhere. -/
def sampleMemory : Nat → Nat :=
  fun off =>
    if 0x1000 ≤ off then [0x00, 0x11, 0x22, 0x33, 0x44, 0x55, 0x66, 0x77].getD (off - 0x1000) 0
    else 0

/-! ## Unaligned stores (`translateInstruction`) -/

/-- The `OPCODE_SWL` case of `translateInstruction` (lines 626-634). -/
def translateSWL (inst : Instruction) : String :=
  "\x7b uint32_t addr = ADD32(GPR_U32(ctx, " ++ toString inst.rs ++ "), " ++
    toString inst.simmediate ++ "); " ++
  "uint32_t shift = (addr & 3) << 3; " ++
  "uint32_t mask = 0xFFFFFFFF << shift; " ++
  "uint32_t aligned_addr = addr & ~3; " ++
  "uint32_t old_data = READ32(aligned_addr); " ++
  "uint32_t new_data = (old_data & ~mask) | (GPR_U32(ctx, " ++ toString inst.rt ++
    ") & mask); " ++
  "WRITE32(aligned_addr, new_data); \x7d"

/-- What the text emitted for `SWL` does to the memory `rdram`. -/
def execSWL (rdram : Nat → Nat) (inst : Instruction) (ctx : R5900Context) : Nat → Nat :=
  let addr := ADD32 (GPR_U32 ctx inst.rs) inst.simmediate
  let shift := (addr &&& 3) <<< 3
  let mask := u32 (0xFFFFFFFF <<< shift)
  let aligned_addr := addr &&& 0xFFFFFFFC
  let old_data := READ32 rdram aligned_addr
  let new_data := (old_data &&& not32 mask) ||| (GPR_U32 ctx inst.rt &&& mask)
  WRITE32 rdram aligned_addr new_data

/-- The `OPCODE_SWR` case of `translateInstruction` (lines 636-644). -/
def translateSWR (inst : Instruction) : String :=
  "\x7b uint32_t addr = ADD32(GPR_U32(ctx, " ++ toString inst.rs ++ "), " ++
    toString inst.simmediate ++ "); " ++
  "uint32_t shift = ((~addr) & 3) << 3; " ++
  "uint32_t mask = 0xFFFFFFFF >> shift; " ++
  "uint32_t aligned_addr = addr & ~3; " ++
  "uint32_t old_data = READ32(aligned_addr); " ++
  "uint32_t new_data = (old_data & ~mask) | (GPR_U32(ctx, " ++ toString inst.rt ++
    ") & mask); " ++
  "WRITE32(aligned_addr, new_data); \x7d"

/-- What the text emitted for `SWR` does to the memory `rdram`. -/
def execSWR (rdram : Nat → Nat) (inst : Instruction) (ctx : R5900Context) : Nat → Nat :=
  let addr := ADD32 (GPR_U32 ctx inst.rs) inst.simmediate
  let shift := ((not32 addr) &&& 3) <<< 3
  let mask := 0xFFFFFFFF >>> shift
  let aligned_addr := addr &&& 0xFFFFFFFC
  let old_data := READ32 rdram aligned_addr
  let new_data := (old_data &&& not32 mask) ||| (GPR_U32 ctx inst.rt &&& mask)
  WRITE32 rdram aligned_addr new_data

/-! ## Decoding a function (`PS2Recompiler::decodeFunction`) -/

/-- Modelled from the spec: the collaborators of `decodeFunction` that are not among the sources.
`isValidAddress` and `readWord` belong to the ELF reader (`readWord` gives `none` where the C++
call throws), `patches` is `m_config.patches`, `stoul` is `std::stoul(text, nullptr, 0)` (`none`
where it throws, else the `unsigned long` it returns) and `decodeInstruction` is the decoder,
which does not fail. -/
structure DecodeEnv where
  isValidAddress : Nat → Bool
  readWord : Nat → Option Nat
  patches : Nat → Option String
  stoul : String → Option Nat
  decodeInstruction : Nat → Nat → Instruction

/-- The loop of `decodeFunction` (lines 716-757), from `address` on. The result is the vector
`instructions` and the flag `truncated` when the loop ends; `fuel` bounds the number of times the
loop condition is read, and `none` means the bound was reached. The assignment of the
`unsigned long` of `std::stoul` to `rawInstruction` keeps its low 32 bits. -/
def decodeLoop (env : DecodeEnv) : Nat → Nat → Nat → List Instruction →
    Option (List Instruction × Bool)
  | 0, _, _, _ => none
  | fuel + 1, address, end_, instructions =>
    if address < end_ then
      if !env.isValidAddress address then some (instructions, true)
      else
        match env.readWord address with
        | none => some (instructions, true)
        | some word =>
          let rawInstruction :=
            match env.patches address with
            | some text =>
              match env.stoul text with
              | some value => u32 value
              | none => word
            | none => word
          let inst := env.decodeInstruction address rawInstruction
          decodeLoop env fuel (u32 (address + 4)) end_ (instructions ++ [inst])
    else some (instructions, false)

/-- The outcome of `decodeFunction`: the returned flag, the function record (passed by reference)
and the map `m_decodedFunctions`. -/
structure DecodeResult where
  ok : Bool
  function : Function
  m_decodedFunctions : Nat → Option (List Instruction)

/-- The function `PS2Recompiler::decodeFunction`; `none` means the loop did not end within
`fuel` steps. -/
def decodeFunction (env : DecodeEnv) (fuel : Nat)
    (m_decodedFunctions : Nat → Option (List Instruction)) (function : Function) :
    Option DecodeResult :=
  match decodeLoop env fuel function.start function.end_ [] with
  | none => none
  | some (instructions, truncated) =>
    match instructions.getLast? with
    | none => some { ok := false, function := function, m_decodedFunctions := m_decodedFunctions }
    | some back =>
      let function1 :=
        if truncated then { function with end_ := u32 (back.address + 4) } else function
      some { ok := true, function := function1,
             m_decodedFunctions :=
               fun a => if a = function.start then some instructions else m_decodedFunctions a }

/-- An address is readable when the ELF reader accepts it and `readWord` returns a word. -/
def readable (env : DecodeEnv) (address : Nat) : Bool :=
  env.isValidAddress address && (env.readWord address).isSome

/-- The raw word `decodeFunction` hands to the decoder at an address: the parsed patch when the
address has a patch that parses, else the word read (zero where nothing can be read, a case the
loop never reaches). -/
def rawAt (env : DecodeEnv) (address : Nat) : Nat :=
  let word := (env.readWord address).getD 0
  match env.patches address with
  | some text =>
    match env.stoul text with
    | some value => u32 value
    | none => word
  | none => word

/-- A reader that accepts the addresses below `0x100008` and reads the word `0x24420001`
everywhere, with a patch `"0x0"` at `0x100004`; `stoul` knows the text `"0x0"` only, and the
decoder fills in the address and the raw word. -/
def sampleDecodeEnv : DecodeEnv :=
  { isValidAddress := fun a => decide (a < 0x100008),
    readWord := fun _ => some 0x24420001,
    patches := fun a => if a = 0x100004 then some "0x0" else none,
    stoul := fun s => if s = "0x0" then some 0 else none,
    decodeInstruction := fun a w => { sampleNOP a with raw := w } }

/-- A function `[0x100000, 0x100010)`: its last two words are not readable in
`sampleDecodeEnv`. -/
def sampleDecodeFunction : Function :=
  { start := 0x100000, end_ := 0x100010, name := "g", isRecompiled := false, isStub := false }

/-! ## Packed word arithmetic (`translateMMI0Instruction`) -/

/-- The 32-bit lane `i` of a 128-bit value, lane 0 being the low one. -/
def lane32 (v : Nat) (i : Nat) : Nat := v / 2 ^ (32 * i) % 4294967296

/-- The 128-bit value whose four 32-bit lanes are the low 32 bits of `f 0` to `f 3`. -/
def ofLanes32 (f : Nat → Nat) : Nat :=
  u32 (f 0) + 4294967296 * u32 (f 1) + 18446744073709551616 * u32 (f 2) +
    79228162514264337593543950336 * u32 (f 3)

/-- The intrinsic `_mm_set1_epi32`: the `int` in all four lanes. -/
def _mm_set1_epi32 (a : Int) : Nat := ofLanes32 (fun _ => u32OfInt a)

/-- The intrinsic `_mm_add_epi32`: lane-wise 32-bit addition, wrapping. -/
def _mm_add_epi32 (a b : Nat) : Nat := ofLanes32 (fun i => lane32 a i + lane32 b i)

/-- The intrinsic `_mm_sub_epi32`: lane-wise 32-bit subtraction, wrapping. -/
def _mm_sub_epi32 (a b : Nat) : Nat :=
  ofLanes32 (fun i => u32OfInt ((lane32 a i : Int) - (lane32 b i : Int)))

/-- The intrinsic `_mm_max_epi32`: lane-wise maximum of signed 32-bit lanes. -/
def _mm_max_epi32 (a b : Nat) : Nat :=
  ofLanes32 (fun i => if s32 (lane32 a i) < s32 (lane32 b i) then lane32 b i else lane32 a i)

/-- The intrinsic `_mm_min_epi32`: lane-wise minimum of signed 32-bit lanes. -/
def _mm_min_epi32 (a b : Nat) : Nat :=
  ofLanes32 (fun i => if s32 (lane32 b i) < s32 (lane32 a i) then lane32 b i else lane32 a i)

/-- The macro `PS2_PADDW`. -/
def PS2_PADDW (a b : Nat) : Nat := _mm_add_epi32 a b

/-- The macro `PS2_PSUBW`. -/
def PS2_PSUBW (a b : Nat) : Nat := _mm_sub_epi32 a b

/-- The `MMI0_PADDW` case of `translateMMI0Instruction`; `rs`, `rt`, `rd` are the `uint8_t`
copies of the fields. -/
def translatePADDW (inst : Instruction) : String :=
  "SET_GPR_VEC(ctx, " ++ toString (inst.rd % 256) ++ ", PS2_PADDW(GPR_VEC(ctx, " ++
    toString (inst.rs % 256) ++ "), GPR_VEC(ctx, " ++ toString (inst.rt % 256) ++ ")));"

/-- What the text emitted for `PADDW` does. -/
def execPADDW (inst : Instruction) (ctx : R5900Context) : R5900Context :=
  SET_GPR_VEC ctx (inst.rd % 256)
    (PS2_PADDW (GPR_VEC ctx (inst.rs % 256)) (GPR_VEC ctx (inst.rt % 256)))

/-- The `MMI0_PSUBW` case of `translateMMI0Instruction`. -/
def translatePSUBW (inst : Instruction) : String :=
  "SET_GPR_VEC(ctx, " ++ toString (inst.rd % 256) ++ ", PS2_PSUBW(GPR_VEC(ctx, " ++
    toString (inst.rs % 256) ++ "), GPR_VEC(ctx, " ++ toString (inst.rt % 256) ++ ")));"

/-- What the text emitted for `PSUBW` does. -/
def execPSUBW (inst : Instruction) (ctx : R5900Context) : R5900Context :=
  SET_GPR_VEC ctx (inst.rd % 256)
    (PS2_PSUBW (GPR_VEC ctx (inst.rs % 256)) (GPR_VEC ctx (inst.rt % 256)))

/-- The `MMI0_PADDSW` case of `translateMMI0Instruction` (lines 1219-1222). -/
def translatePADDSW (inst : Instruction) : String :=
  "SET_GPR_VEC(ctx, " ++ toString (inst.rd % 256) ++
    ", _mm_min_epi32(_mm_max_epi32(_mm_add_epi32(GPR_VEC(ctx, " ++ toString (inst.rs % 256) ++
    "), GPR_VEC(ctx, " ++ toString (inst.rt % 256) ++ ")), " ++
    "_mm_set1_epi32(INT32_MIN)), _mm_set1_epi32(INT32_MAX)));"

/-- What the text emitted for `PADDSW` does: the wrapped lane sums, then a lane-wise maximum
with `INT32_MIN` and a lane-wise minimum with `INT32_MAX`. -/
def execPADDSW (inst : Instruction) (ctx : R5900Context) : R5900Context :=
  SET_GPR_VEC ctx (inst.rd % 256)
    (_mm_min_epi32
      (_mm_max_epi32 (_mm_add_epi32 (GPR_VEC ctx (inst.rs % 256)) (GPR_VEC ctx (inst.rt % 256)))
        (_mm_set1_epi32 INT32_MIN))
      (_mm_set1_epi32 INT32_MAX))

/-- The `MMI0_PSUBSW` case of `translateMMI0Instruction` (lines 1223-1226). -/
def translatePSUBSW (inst : Instruction) : String :=
  "SET_GPR_VEC(ctx, " ++ toString (inst.rd % 256) ++
    ", _mm_min_epi32(_mm_max_epi32(_mm_sub_epi32(GPR_VEC(ctx, " ++ toString (inst.rs % 256) ++
    "), GPR_VEC(ctx, " ++ toString (inst.rt % 256) ++ ")), " ++
    "_mm_set1_epi32(INT32_MIN)), _mm_set1_epi32(INT32_MAX)));"

/-- What the text emitted for `PSUBSW` does. -/
def execPSUBSW (inst : Instruction) (ctx : R5900Context) : R5900Context :=
  SET_GPR_VEC ctx (inst.rd % 256)
    (_mm_min_epi32
      (_mm_max_epi32 (_mm_sub_epi32 (GPR_VEC ctx (inst.rs % 256)) (GPR_VEC ctx (inst.rt % 256)))
        (_mm_set1_epi32 INT32_MIN))
      (_mm_set1_epi32 INT32_MAX))

/-- An MMI0 instruction record: `rs`, `rt`, `rd` and the sub-function held in the `sa` field,
with the word they encode (primary opcode `0x1C`, function `0x08`). -/
def sampleMMI0 (rs rt rd sa : Nat) : Instruction :=
  { address := 0x00100000,
    raw := 0x70000000 + rs * 2097152 + rt * 65536 + rd * 2048 + sa * 64 + 0x08,
    opcode := 0x1C, rs := rs, rt := rt, rd := rd, sa := sa, function := 0x08,
    immediate := rd * 2048 + sa * 64 + 0x08,
    simmediate := ((rd * 2048 + sa * 64 + 0x08 : Nat) : Int),
    target := rs * 2097152 + rt * 65536 + rd * 2048 + sa * 64 + 0x08,
    isBranch := false, hasDelaySlot := false, isMMI := true }

/-! ## Guest memory accessors of every width (`ps2_runtime_macros.h`) -/

/-- The unsigned value of the `w` bytes of `rdram` from offset `o` on, lowest byte first: what
the host reads through a pointer to a `w`-byte integer at `rdram + o`. -/
def loadLE (rdram : Nat → Nat) (o : Nat) : Nat → Nat
  | 0 => 0
  | w + 1 => rdram o % 256 + 256 * loadLE rdram (o + 1) w

/-- The buffer after the host stores the low `w` bytes of `val` through a pointer to a `w`-byte
integer at `rdram + o`, lowest byte first. -/
def storeLE (rdram : Nat → Nat) (o w val : Nat) : Nat → Nat :=
  fun off => if o ≤ off ∧ off < o + w then val / 256 ^ (off - o) % 256 else rdram off

/-- The macro `READ16`. -/
def READ16 (rdram : Nat → Nat) (addr : Nat) : Nat := loadLE rdram (addr &&& PS2_RAM_MASK) 2

/-- The macro `READ64`. -/
def READ64 (rdram : Nat → Nat) (addr : Nat) : Nat := loadLE rdram (addr &&& PS2_RAM_MASK) 8

/-- The macro `READ128`: a load through a pointer to `__m128i`, which the host does with an
aligned 16-byte move. `base` is the host address the pointer `rdram` holds; the result is `none`
(the load faults, no byte is read) when `rdram + offset` is not a multiple of 16. -/
def READ128 (base : Nat) (rdram : Nat → Nat) (addr : Nat) : Option Nat :=
  if (base + (addr &&& PS2_RAM_MASK)) % 16 = 0 then
    some (loadLE rdram (addr &&& PS2_RAM_MASK) 16)
  else none

/-- The macro `WRITE8`. -/
def WRITE8 (rdram : Nat → Nat) (addr : Nat) (val : Nat) : Nat → Nat :=
  storeLE rdram (addr &&& PS2_RAM_MASK) 1 val

/-- The macro `WRITE16`. -/
def WRITE16 (rdram : Nat → Nat) (addr : Nat) (val : Nat) : Nat → Nat :=
  storeLE rdram (addr &&& PS2_RAM_MASK) 2 val

/-- The macro `WRITE64`. -/
def WRITE64 (rdram : Nat → Nat) (addr : Nat) (val : Nat) : Nat → Nat :=
  storeLE rdram (addr &&& PS2_RAM_MASK) 8 val

/-- The macro `WRITE128`: a store through a pointer to `__m128i`, which the host does with an
aligned 16-byte move (where the header means an unaligned store it calls `_mm_storeu_si128`).
`base` is the host address the pointer `rdram` holds; the result is `none` (the store faults, no
byte is written) when `rdram + offset` is not a multiple of 16. -/
def WRITE128 (base : Nat) (rdram : Nat → Nat) (addr : Nat) (val : Nat) : Option (Nat → Nat) :=
  if (base + (addr &&& PS2_RAM_MASK)) % 16 = 0 then
    some (storeLE rdram (addr &&& PS2_RAM_MASK) 16 val)
  else none

/-- A buffer that is zero everywhere. -/
def zeroMemory : Nat → Nat := fun _ => 0

/-- A buffer whose only non-zero byte, `0x11`, lies at offset `PS2_RAM_SIZE`, the first offset
past the 32 MiB. -/
def pastEndMemory : Nat → Nat := fun off => if off = PS2_RAM_SIZE then 0x11 else 0

/-! ## The bootstrap function (`CodeGenerator::generateBootstrapFunction`) -/

/-- The function `CodeGenerator::generateBootstrapFunction`: the empty string when the bootstrap
info is not valid, `none` where the C++ function throws (no entry name), else the text of the
bootstrap function. -/
def generateBootstrapFunction (g : CodeGenerator) : Option String :=
  let info := g.m_bootstrapInfo
  if !info.valid then some ""
  else
    let ss0 := "// Auto-generated bootstrap for ELF entry point\n" ++
      "void entry_" ++ hexLower info.entry ++
      "(uint8_t* rdram, R5900Context* ctx, PS2Runtime *runtime) \x7b\n"
    let ss1 :=
      if info.bssEnd > info.bssStart then
        ss0 ++ "    const uint32_t bss_start = 0x" ++ hexLower info.bssStart ++ ";\n" ++
          "    const uint32_t bss_end   = 0x" ++ hexLower info.bssEnd ++ ";\n" ++
          "    __m128i zero = _mm_setzero_si128();\n" ++
          "    uint32_t addr = bss_start;\n" ++
          "    for (; (bss_end - addr) >= 16; addr += 16) \x7b\n" ++
          "        WRITE128(addr, zero);\n" ++
          "    \x7d\n" ++
          "    for (; (bss_end - addr) >= 4; addr += 4) \x7b\n" ++
          "        WRITE32(addr, 0);\n" ++
          "    \x7d\n" ++
          "    for (; addr < bss_end; ++addr) \x7b\n" ++
          "        WRITE8(addr, 0);\n" ++
          "    \x7d\n\n"
      else ss0
    let ss2 :=
      if info.gp ≠ 0 then ss1 ++ "    SET_GPR_U32(ctx, 28, 0x" ++ hexLower info.gp ++ ");\n"
      else ss1
    let ss3 :=
      if info.bssEnd > info.bssStart then ss2 ++ "    SET_GPR_U32(ctx, 29, bss_end);\n"
      else ss2
    if info.entryName ≠ "" then
      some (ss3 ++ "    " ++ info.entryName ++ "(rdram, ctx, runtime);\n" ++ "\x7d\n")
    else none

/-- The end of a run of emitted text that stores through `__m128i` pointers: it is done with a
result, or it faults at a misaligned store, or the `fuel` given to its loops is used up. -/
inductive Run (α : Type) where
  | done (result : α)
  | fault
  | outOfFuel

/-- The emitted loop `for (; (bss_end - addr) >= 16; addr += 16) WRITE128(addr, zero);` in
`uint32_t` arithmetic, for the host address `base` of the buffer: the final `addr` and the memory;
a fault at the first store whose host address is not a multiple of 16; out of fuel when `fuel`
tests of the loop condition do not reach its end. -/
def zeroLoop128 (base : Nat) : Nat → Nat → Nat → (Nat → Nat) → Run (Nat × (Nat → Nat))
  | 0, _, _, _ => Run.outOfFuel
  | fuel + 1, bss_end, addr, rdram =>
    if SUB32 bss_end addr ≥ 16 then
      match WRITE128 base rdram addr 0 with
      | some rdram1 => zeroLoop128 base fuel bss_end (u32 (addr + 16)) rdram1
      | none => Run.fault
    else Run.done (addr, rdram)

/-- The emitted loop `for (; (bss_end - addr) >= 4; addr += 4) WRITE32(addr, 0);`; `none` when
`fuel` tests of the loop condition do not reach its end. -/
def zeroLoop32 : Nat → Nat → Nat → (Nat → Nat) → Option (Nat × (Nat → Nat))
  | 0, _, _, _ => none
  | fuel + 1, bss_end, addr, rdram =>
    if SUB32 bss_end addr ≥ 4 then
      zeroLoop32 fuel bss_end (u32 (addr + 4)) (WRITE32 rdram addr 0)
    else some (addr, rdram)

/-- The emitted loop `for (; addr < bss_end; ++addr) WRITE8(addr, 0);`. -/
def zeroLoop8 : Nat → Nat → Nat → (Nat → Nat) → Option (Nat × (Nat → Nat))
  | 0, _, _, _ => none
  | fuel + 1, bss_end, addr, rdram =>
    if addr < bss_end then
      zeroLoop8 fuel bss_end (u32 (addr + 1)) (WRITE8 rdram addr 0)
    else some (addr, rdram)

/-- What the emitted bootstrap function does before it calls the entry function, for the host
address `base` of the buffer: the three zeroing loops when the info has a BSS range, then the
writes of registers 28 and 29. The result is the memory and the context at the call; a fault when
a 16-byte store is misaligned; out of fuel when a loop does not end within `fuel` tests of its
condition. -/
def execBootstrap (base : Nat) (info : BootstrapInfo) (fuel : Nat) (rdram : Nat → Nat)
    (ctx : R5900Context) : Run ((Nat → Nat) × R5900Context) :=
  let bss_start := u32 info.bssStart
  let bss_end := u32 info.bssEnd
  let zeroed : Run (Nat → Nat) :=
    if info.bssEnd > info.bssStart then
      match zeroLoop128 base fuel bss_end bss_start rdram with
      | Run.outOfFuel => Run.outOfFuel
      | Run.fault => Run.fault
      | Run.done (addr1, rdram1) =>
        match zeroLoop32 fuel bss_end addr1 rdram1 with
        | none => Run.outOfFuel
        | some (addr2, rdram2) =>
          match zeroLoop8 fuel bss_end addr2 rdram2 with
          | none => Run.outOfFuel
          | some (_, rdram3) => Run.done rdram3
    else Run.done rdram
  match zeroed with
  | Run.outOfFuel => Run.outOfFuel
  | Run.fault => Run.fault
  | Run.done rdram1 =>
    let ctx1 := if info.gp ≠ 0 then SET_GPR_U32 ctx 28 info.gp else ctx
    let ctx2 := if info.bssEnd > info.bssStart then SET_GPR_U32 ctx1 29 bss_end else ctx1
    Run.done (rdram1, ctx2)

/-- A code generator whose bootstrap info has the entry `0x100008`, the BSS range
`[0x1003, 0x1020)`, `gp = 0x7FF0` and the entry name `main`. -/
def sampleBssGenerator : CodeGenerator :=
  { m_symbols := fun _ => none, m_renamedFunctions := fun _ => none,
    m_bootstrapInfo :=
      { valid := true, entry := 0x100008, bssStart := 0x1003, bssEnd := 0x1020, gp := 0x7FF0,
        entryName := "main" } }

/-- A code generator whose bootstrap info has the BSS range `[0x1000, 0x1020)`, which starts at
a multiple of 16, and otherwise the fields of `sampleBssGenerator`. -/
def sampleAlignedBssGenerator : CodeGenerator :=
  { m_symbols := fun _ => none, m_renamedFunctions := fun _ => none,
    m_bootstrapInfo :=
      { valid := true, entry := 0x100008, bssStart := 0x1000, bssEnd := 0x1020, gp := 0x7FF0,
        entryName := "main" } }

/-- A buffer that holds `0xAB` in every byte. -/
def filledMemory : Nat → Nat := fun _ => 0xAB

/-! ## A generated function (`CodeGenerator::generateFunction`, `translateInstruction`) -/

/-- Modelled from the spec: primary opcode of `ADDI` (`instructions.h` is absent). -/
def OPCODE_ADDI : Nat := 0x08
/-- Modelled from the spec: primary opcode of `ORI` (`instructions.h` is absent). -/
def OPCODE_ORI : Nat := 0x0D
/-- Modelled from the spec: primary opcode of `LUI` (`instructions.h` is absent). -/
def OPCODE_LUI : Nat := 0x0F

/-- The macro `OR32`. -/
def OR32 (a b : Nat) : Nat := u32 (a ||| b)

/-- The `OPCODE_ORI` case of `translateInstruction`. -/
def translateORI (inst : Instruction) : String :=
  "SET_GPR_U32(ctx, " ++ toString inst.rt ++ ", OR32(GPR_U32(ctx, " ++ toString inst.rs ++
    "), " ++ toString inst.immediate ++ "));"

/-- What the statement emitted for `ORI` does. -/
def execORI (inst : Instruction) (ctx : R5900Context) : R5900Context :=
  SET_GPR_U32 ctx inst.rt (OR32 (GPR_U32 ctx inst.rs) inst.immediate)

/-- The `OPCODE_LUI` case of `translateInstruction`. -/
def translateLUI (inst : Instruction) : String :=
  "SET_GPR_U32(ctx, " ++ toString inst.rt ++ ", ((uint32_t)" ++ toString inst.immediate ++
    " << 16));"

/-- What the statement emitted for `LUI` does. -/
def execLUI (inst : Instruction) (ctx : R5900Context) : R5900Context :=
  SET_GPR_U32 ctx inst.rt (u32 (u32 inst.immediate <<< 16))

/-- The `OPCODE_J` case of `translateInstruction`: a comment. -/
def translateJ (inst : Instruction) : String :=
  "// J 0x" ++ hexUpper (buildAbsoluteJumpTarget inst.address inst.target) ++
    " - Handled by branch logic"

/-- The `OPCODE_JAL` case of `translateInstruction`: a comment. -/
def translateJAL (inst : Instruction) : String :=
  "// JAL 0x" ++ hexUpper (buildAbsoluteJumpTarget inst.address inst.target) ++
    " - Handled by branch logic"

/-- The case shared by `OPCODE_BEQ`, `BNE`, `BLEZ`, `BGTZ` and their likely forms in
`translateInstruction`: a comment. -/
def translateBranch (inst : Instruction) : String :=
  "// Likely branch instruction at 0x" ++ hexUpper inst.address ++ " - Handled by branch logic"

/-- The `SPECIAL_JR` case of `translateSpecialInstruction`: a comment. -/
def translateJR (inst : Instruction) : String :=
  "// JR $" ++ toString inst.rs ++ " - Handled by branch logic"

/-- The `SPECIAL_JALR` case of `translateSpecialInstruction`: a comment. -/
def translateJALR (inst : Instruction) : String :=
  "// JALR $" ++ toString inst.rd ++ ", $" ++ toString inst.rs ++ " - Handled by branch logic"

/-- The dispatch of `CodeGenerator::translateInstruction`, restricted to the cases used below:
`ADDIU`, `ORI`, `LUI`, the comments for `J`, `JAL` and the eight primary-opcode branches, and in
the SPECIAL class `JR` and `JALR`. The result is `none` for every case that is not embedded
(MMI instructions among them). -/
def translateInstruction (inst : Instruction) : Option String :=
  if inst.isMMI then none
  else if inst.opcode = OPCODE_SPECIAL then
    if inst.function = SPECIAL_JR then some (translateJR inst)
    else if inst.function = SPECIAL_JALR then some (translateJALR inst)
    else none
  else if inst.opcode = OPCODE_ADDIU then some (translateADDIU inst)
  else if inst.opcode = OPCODE_ORI then some (translateORI inst)
  else if inst.opcode = OPCODE_LUI then some (translateLUI inst)
  else if inst.opcode = OPCODE_J then some (translateJ inst)
  else if inst.opcode = OPCODE_JAL then some (translateJAL inst)
  else if inst.opcode = OPCODE_BEQ ∨ inst.opcode = OPCODE_BNE ∨ inst.opcode = OPCODE_BLEZ ∨
      inst.opcode = OPCODE_BGTZ ∨ inst.opcode = OPCODE_BEQL ∨ inst.opcode = OPCODE_BNEL ∨
      inst.opcode = OPCODE_BLEZL ∨ inst.opcode = OPCODE_BGTZL then some (translateBranch inst)
  else none

/-- The text of `translateInstruction` on the embedded cases, the empty string elsewhere. -/
def translateEmbedded (inst : Instruction) : String := (translateInstruction inst).getD ""

/-- What the text `translateInstruction` gives for an instruction does when it runs, for the same
cases: the three statements change a register, a comment changes nothing. -/
def execInstruction (inst : Instruction) (ctx : R5900Context) : Option R5900Context :=
  if inst.isMMI then none
  else if inst.opcode = OPCODE_SPECIAL then
    if inst.function = SPECIAL_JR then some ctx
    else if inst.function = SPECIAL_JALR then some ctx
    else none
  else if inst.opcode = OPCODE_ADDIU then some (execADDIU inst ctx)
  else if inst.opcode = OPCODE_ORI then some (execORI inst ctx)
  else if inst.opcode = OPCODE_LUI then some (execLUI inst ctx)
  else if inst.opcode = OPCODE_J then some ctx
  else if inst.opcode = OPCODE_JAL then some ctx
  else if inst.opcode = OPCODE_BEQ ∨ inst.opcode = OPCODE_BNE ∨ inst.opcode = OPCODE_BLEZ ∨
      inst.opcode = OPCODE_BGTZ ∨ inst.opcode = OPCODE_BEQL ∨ inst.opcode = OPCODE_BNEL ∨
      inst.opcode = OPCODE_BLEZL ∨ inst.opcode = OPCODE_BGTZL then some ctx
  else none

/-- The static set `systemCallNames` of `generateFunction`. -/
def systemCallNames : List String :=
  ["FlushCache", "ResetEE", "SetMemoryMode",
   "CreateThread", "DeleteThread", "StartThread", "ExitThread", "ExitDeleteThread",
   "TerminateThread", "SuspendThread", "ResumeThread", "GetThreadId", "ReferThreadStatus",
   "SleepThread", "WakeupThread", "iWakeupThread", "ChangeThreadPriority",
   "RotateThreadReadyQueue", "ReleaseWaitThread", "iReleaseWaitThread",
   "CreateSema", "DeleteSema", "SignalSema", "iSignalSema", "WaitSema", "PollSema",
   "iPollSema", "ReferSemaStatus", "iReferSemaStatus", "CreateEventFlag",
   "DeleteEventFlag", "SetEventFlag", "iSetEventFlag", "ClearEventFlag",
   "iClearEventFlag", "WaitEventFlag", "PollEventFlag", "iPollEventFlag",
   "ReferEventFlagStatus", "iReferEventFlagStatus", "SetAlarm", "iSetAlarm",
   "CancelAlarm", "iCancelAlarm", "EnableIntc", "DisableIntc", "EnableDmac",
   "DisableDmac", "SifStopModule", "SifLoadModule", "SifInitRpc", "SifBindRpc",
   "SifCallRpc", "SifRegisterRpc", "SifCheckStatRpc", "SifSetRpcQueue",
   "SifRemoveRpcQueue", "SifRemoveRpc", "fioOpen", "fioClose", "fioRead", "fioWrite",
   "fioLseek", "fioMkdir", "fioChdir", "fioRmdir", "fioGetstat", "fioRemove",
   "GsSetCrt", "GsGetIMR", "GsPutIMR", "GsSetVideoMode", "GetOsdConfigParam",
   "SetOsdConfigParam", "GetRomName", "sceSifLoadModule",
   "SifSetDChain"]

/-- One thing the loop of `generateFunction` (lines 436-476) puts into the stream: a label line,
the address comment, the line of a translated instruction, or the text `handleBranchDelaySlots`
returns for an instruction and its delay slot. -/
inductive Emitted where
  | label (address : Nat)
  | comment (address raw : Nat)
  | plain (inst : Instruction)
  | delayed (inst delaySlot : Instruction)
  deriving DecidableEq

/-- The label line the loop emits for an address in `internalTargets`, if any. -/
def labelFor (internalTargets : List Nat) (address : Nat) : List Emitted :=
  if internalTargets.contains address then [Emitted.label address] else []

/-- The loop of `generateFunction` over `instructions`: an instruction flagged `hasDelaySlot`
that has a successor goes to `handleBranchDelaySlots` together with it and the successor is
skipped; every other instruction goes to `translateInstruction`. -/
def emitFunctionBody (internalTargets : List Nat) : List Instruction → List Emitted
  | [] => []
  | [inst] =>
    labelFor internalTargets inst.address ++
      [Emitted.comment inst.address inst.raw, Emitted.plain inst]
  | inst :: delaySlot :: rest =>
    if inst.hasDelaySlot then
      labelFor internalTargets inst.address ++ [Emitted.comment inst.address inst.raw] ++
        labelFor internalTargets delaySlot.address ++ [Emitted.delayed inst delaySlot] ++
        emitFunctionBody internalTargets rest
    else
      labelFor internalTargets inst.address ++
        [Emitted.comment inst.address inst.raw, Emitted.plain inst] ++
        emitFunctionBody internalTargets (delaySlot :: rest)

/-- The text the loop writes for one emitted thing. -/
def Emitted.render (g : CodeGenerator) (translateInstruction : Instruction → String)
    (function : Function) (internalTargets : List Nat) : Emitted → String
  | .label address => "label_" ++ hexLower address ++ ":\n"
  | .comment address raw => "    // 0x" ++ hexLower address ++ ": 0x" ++ hexLower raw ++ "\n"
  | .plain inst => "    " ++ translateInstruction inst ++ "\n"
  | .delayed inst delaySlot =>
    handleBranchDelaySlots g translateInstruction inst delaySlot function internalTargets

/-- The identifier of the definition `generateFunction` emits for a function: for a name in
`systemCallNames` the sanitized guest name, else `getFunctionName(function.start)`, replaced by
`Errorfunc_<hex>` when that is empty. -/
def definitionName (g : CodeGenerator) (function : Function) : String :=
  if systemCallNames.contains function.name then sanitizeFunctionName function.name
  else
    let sanitizedName := g.getFunctionName function.start
    if sanitizedName = "" then "Errorfunc_" ++ hexLower function.start else sanitizedName

/-- The things `generateFunction` emits between the opening line and the closing brace: nothing
for a system-call wrapper, else the loop over the instructions with the internal targets of
`collectInternalBranchTargets`. -/
def functionBody (function : Function) (instructions : List Instruction) : List Emitted :=
  if systemCallNames.contains function.name then []
  else emitFunctionBody (collectInternalBranchTargets function instructions) instructions

/-- The function `CodeGenerator::generateFunction`: the emitted text. The text of a translated
instruction comes from `translateInstruction`, a parameter here. -/
def generateFunction (g : CodeGenerator) (translateInstruction : Instruction → String)
    (function : Function) (instructions : List Instruction) (useHeaders : Bool) : String :=
  if systemCallNames.contains function.name then
    "// System call wrapper for " ++ function.name ++ "\n" ++
    "void " ++ definitionName g function ++
      "(uint8_t* rdram, R5900Context* ctx, PS2Runtime *runtime) \x7b\n" ++
    "    ps2_syscalls::" ++ function.name ++ "(rdram, ctx, runtime);\n" ++
    "\x7d\n"
  else
    let internalTargets := collectInternalBranchTargets function instructions
    (if useHeaders then
      "#include \"ps2_runtime_macros.h\"\n" ++
      "#include \"ps2_runtime.h\"\n" ++
      "#include \"ps2_recompiled_functions.h\"\n" ++
      "#include \"ps2_recompiled_stubs.h\"\n\n"
     else "") ++
    "// Function: " ++ function.name ++ "\n" ++
    "// Address: 0x" ++ hexLower function.start ++ " - 0x" ++ hexLower function.end_ ++ "\n" ++
    "void " ++ definitionName g function ++
      "(uint8_t* rdram, R5900Context* ctx, PS2Runtime *runtime) \x7b\n\n" ++
    String.join ((functionBody function instructions).map
      (Emitted.render g translateInstruction function internalTargets)) ++
    "\x7d\n"

/-- The target of the `goto` in the text `handleBranchDelaySlots` returns for a branch: present
when the branch reaches the conditional case (not `J`/`JAL`, not `JR`/`JALR`, flagged `isBranch`)
and its destination is in `internalTargets`. -/
def gotoTarget (internalTargets : List Nat) (branchInst : Instruction) : Option Nat :=
  if branchInst.opcode = OPCODE_J ∨ branchInst.opcode = OPCODE_JAL then none
  else if branchInst.opcode = OPCODE_SPECIAL ∧
      (branchInst.function = SPECIAL_JR ∨ branchInst.function = SPECIAL_JALR) then none
  else if branchInst.isBranch then
    if internalTargets.contains (relativeBranchTarget branchInst) then
      some (relativeBranchTarget branchInst)
    else none
  else none

/-- The addresses of the label lines among the emitted things, in order of emission. -/
def emittedLabels (body : List Emitted) : List Nat :=
  body.filterMap (fun e => match e with
    | .label address => some address
    | _ => none)

/-- The targets of the `goto` statements among the emitted things, in order of emission. -/
def emittedGotos (internalTargets : List Nat) (body : List Emitted) : List Nat :=
  body.filterMap (fun e => match e with
    | .delayed inst _ => gotoTarget internalTargets inst
    | _ => none)

/-- The run of the text `handleBranchDelaySlots` returns for `JR` or `JALR` with its delay slot:
the link register is written, the delay slot runs when its word is not zero, `pc` takes the low
32 bits of register `rs` and the function returns. The other kinds of branch are not embedded
(`none`). -/
def runDelayed (inst delaySlot : Instruction) (ctx : R5900Context) : Option R5900Context :=
  if inst.opcode = OPCODE_J ∨ inst.opcode = OPCODE_JAL then none
  else if inst.opcode = OPCODE_SPECIAL ∧
      (inst.function = SPECIAL_JR ∨ inst.function = SPECIAL_JALR) then
    let rs_reg := inst.rs % 256
    let rd_reg := inst.rd % 256
    let link_reg :=
      if inst.function = SPECIAL_JALR then (if rd_reg = 0 then 31 else rd_reg) else 0
    let ctx1 := if link_reg ≠ 0 then SET_GPR_U32 ctx link_reg (u32 (inst.address + 8)) else ctx
    let ctx2 := if delaySlot.raw ≠ 0 then execInstruction delaySlot ctx1 else some ctx1
    ctx2.map (fun c => { c with pc := GPR_U32 c rs_reg })
  else none

/-- The run of an emitted body from a context: the context at the end and whether the end was
reached by a `return` statement (`true`) or by falling off the closing brace (`false`); `none`
when a case that is not embedded is met. -/
def runEmitted : List Emitted → R5900Context → Option (R5900Context × Bool)
  | [], ctx => some (ctx, false)
  | .label _ :: rest, ctx => runEmitted rest ctx
  | .comment _ _ :: rest, ctx => runEmitted rest ctx
  | .plain inst :: rest, ctx =>
    match execInstruction inst ctx with
    | none => none
    | some ctx1 => runEmitted rest ctx1
  | .delayed inst delaySlot :: _, ctx =>
    (runDelayed inst delaySlot ctx).map (fun c => (c, true))

/-- The function `f` of scenario S1, `[0x00100000, 0x00100014)`. -/
def sampleS1Function : Function :=
  { start := 0x00100000, end_ := 0x00100014, name := "f", isRecompiled := true,
    isStub := false }

/-- The instruction `LUI $2, 0x0001` at `0x00100000` (word `0x3C020001`). -/
def sampleLUI : Instruction :=
  { address := 0x00100000, raw := 0x3C020001, opcode := OPCODE_LUI, rs := 0, rt := 2, rd := 0,
    sa := 0, function := 1, immediate := 0x0001, simmediate := 1, target := 0x0020001,
    isBranch := false, hasDelaySlot := false, isMMI := false }

/-- The instruction `ORI $2, $2, 0x2345` at `0x00100004` (word `0x34422345`). -/
def sampleORI : Instruction :=
  { address := 0x00100004, raw := 0x34422345, opcode := OPCODE_ORI, rs := 2, rt := 2, rd := 4,
    sa := 13, function := 5, immediate := 0x2345, simmediate := 0x2345, target := 0x0422345,
    isBranch := false, hasDelaySlot := false, isMMI := false }

/-- The instruction `ADDIU $3, $2, -1` at `0x00100008` (word `0x2443FFFF`). -/
def sampleADDIUm1 : Instruction :=
  { address := 0x00100008, raw := 0x2443FFFF, opcode := OPCODE_ADDIU, rs := 2, rt := 3,
    rd := 31, sa := 31, function := 63, immediate := 0xFFFF, simmediate := -1,
    target := 0x043FFFF, isBranch := false, hasDelaySlot := false, isMMI := false }

/-- The instruction `JR $31` at `0x0010000C` (word `0x03E00008`). -/
def sampleJR31 : Instruction := { sampleJR with address := 0x0010000C }

/-- The instructions of scenario S1: `LUI $2, 0x0001`, `ORI $2, $2, 0x2345`,
`ADDIU $3, $2, -1`, `JR $31`, `NOP`. -/
def sampleS1 : List Instruction :=
  [sampleLUI, sampleORI, sampleADDIUm1, sampleJR31, sampleNOP 0x00100010]

/-- A code generator whose rename map is the one `generateOutput` builds for the function of
scenario S1 alone. -/
def sampleS1Generator : CodeGenerator :=
  { m_symbols := fun _ => none, m_renamedFunctions := buildFunctionRenames [sampleS1Function],
    m_bootstrapInfo := ⟨false, 0, 0, 0, 0, ""⟩ }

/-- A context whose register 31 holds `0x00200000`, every other register and field zero. -/
def sampleReturnContext : R5900Context :=
  { r := fun i => if i = 31 then 0x00200000 else 0, pc := 0, hi := 0, lo := 0, hi1 := 0,
    lo1 := 0, fcr31 := 0, vu0_status := 0 }

/-- Scenario S1 cut after the jump: the function `[0x00100000, 0x00100010)` ends with
`JR $31` and the list holds no delay slot for it. -/
def sampleCutFunction : Function :=
  { sampleS1Function with end_ := 0x00100010 }

/-- Two recompiled functions that both carry the guest name `FlushCache`. -/
def sampleFlushCacheFunctions : List Function :=
  [{ start := 0x100000, end_ := 0x100010, name := "FlushCache", isRecompiled := true,
     isStub := false },
   { start := 0x100010, end_ := 0x100020, name := "FlushCache", isRecompiled := true,
     isStub := false }]

/-- A code generator whose rename map is the one `generateOutput` builds for the two functions
named `FlushCache`. -/
def sampleFlushCacheGenerator : CodeGenerator :=
  { m_symbols := fun _ => none,
    m_renamedFunctions := buildFunctionRenames sampleFlushCacheFunctions,
    m_bootstrapInfo := ⟨false, 0, 0, 0, 0, ""⟩ }

/-- The instructions of scenario S2 in the function `[0x00200000, 0x00200018)`:
`ADDIU $2, $0, 3`, `BEQ $2, $0, +2` (to `0x00200010`), `ADDIU $2, $2, 1` in the delay slot,
`ADDIU $2, $2, 10`, `JR $31`, `NOP`. -/
def sampleS2 : List Instruction :=
  [{ sampleADDIU with
       address := 0x00200000, raw := 0x24020003, rs := 0, function := 3,
       immediate := 3, simmediate := 3, target := 0x0020003 },
   sampleBEQ,
   sampleADDIU,
   { sampleADDIU with
       address := 0x0020000C, raw := 0x2442000A, function := 10,
       immediate := 10, simmediate := 10, target := 0x042000A },
   { sampleJR with address := 0x00200010 },
   sampleNOP 0x00200014]

/-- The value of a hexadecimal digit character in lower case (zero for any other character). -/
def hexDigitValue (c : Char) : Nat :=
  if c = '0' then 0 else if c = '1' then 1 else if c = '2' then 2 else if c = '3' then 3
  else if c = '4' then 4 else if c = '5' then 5 else if c = '6' then 6 else if c = '7' then 7
  else if c = '8' then 8 else if c = '9' then 9 else if c = 'a' then 10 else if c = 'b' then 11
  else if c = 'c' then 12 else if c = 'd' then 13 else if c = 'e' then 14
  else if c = 'f' then 15 else 0

/-- The number a list of hexadecimal digits denotes, most significant digit first. -/
def hexValue (digits : List Char) : Nat :=
  digits.foldl (fun acc c => 16 * acc + hexDigitValue c) 0

/-! ## File modes (`ps2_syscalls.cpp`, `ps2_runtime.h`) -/

/-- The constant `PS2_FIO_O_RDONLY`. -/
def PS2_FIO_O_RDONLY : Nat := 0x0001

/-- The constant `PS2_FIO_O_WRONLY`. -/
def PS2_FIO_O_WRONLY : Nat := 0x0002

/-- The constant `PS2_FIO_O_RDWR`. -/
def PS2_FIO_O_RDWR : Nat := 0x0003

/-- The constant `PS2_FIO_O_APPEND`. -/
def PS2_FIO_O_APPEND : Nat := 0x0100

/-- The constant `PS2_FIO_O_CREAT`. -/
def PS2_FIO_O_CREAT : Nat := 0x0200

/-- The constant `PS2_FIO_O_TRUNC`. -/
def PS2_FIO_O_TRUNC : Nat := 0x0400

/-- The function `translateFioMode` of `ps2_syscalls.cpp`; `ps2Flags` is the bit pattern of the
`int` argument, and an `int` converts to `true` when it is not zero. -/
def translateFioMode (ps2Flags : Nat) : String :=
  let read : Bool :=
    (ps2Flags &&& PS2_FIO_O_RDONLY) != 0 || (ps2Flags &&& PS2_FIO_O_RDWR) != 0
  let write : Bool :=
    (ps2Flags &&& PS2_FIO_O_WRONLY) != 0 || (ps2Flags &&& PS2_FIO_O_RDWR) != 0
  let append : Bool := (ps2Flags &&& PS2_FIO_O_APPEND) != 0
  let create : Bool := (ps2Flags &&& PS2_FIO_O_CREAT) != 0
  let truncate : Bool := (ps2Flags &&& PS2_FIO_O_TRUNC) != 0
  if read && write then
    if create && truncate then "w+b"
    else if create then "a+b"
    else "r+b"
  else if write then
    if append then "ab"
    else if create && truncate then "wb"
    else if create then "wx"
    else "r+b"
  else if read then "rb"
  else "rb"

/-! ## Theorems -/

set_option maxRecDepth 8000

/-- C1: for a conditional branch handled by `handleBranchDelaySlots` (not J/JAL, not JR/JALR, flagged
`isBranch`) with a non-zero delay-slot word, a likely branch has the delay slot's translation inside
the body of the emitted `if (cond)`, right before the target action, and a non-likely branch has it
before the `if (cond)`, whose body then holds the target action only. The likely branches are the
forms BEQL, BNEL, BLEZL, BGTZL, REGIMM BLTZL/BGEZL/BLTZALL/BGEZALL, COP1 BC1FL/BC1TL and COP2
BC2FL/BC2TL. -/
theorem C1_delay_slot_placement (g : CodeGenerator) (tr : Instruction → String)
    (b d : Instruction) (f : Function) (it : List Nat)
    (hJ : ¬(b.opcode = OPCODE_J ∨ b.opcode = OPCODE_JAL))
    (hJR : ¬(b.opcode = OPCODE_SPECIAL ∧
      (b.function = SPECIAL_JR ∨ b.function = SPECIAL_JALR)))
    (hB : b.isBranch = true) (hD : d.raw ≠ 0) :
    (isLikely b = true ↔
      (b.opcode = OPCODE_BEQL ∨ b.opcode = OPCODE_BNEL ∨ b.opcode = OPCODE_BLEZL ∨
       b.opcode = OPCODE_BGTZL ∨
       (b.opcode = OPCODE_REGIMM ∧ (b.rt = REGIMM_BLTZL ∨ b.rt = REGIMM_BGEZL ∨
          b.rt = REGIMM_BLTZALL ∨ b.rt = REGIMM_BGEZALL)) ∨
       (b.opcode = OPCODE_COP1 ∧ b.rs = COP1_BC ∧
          (b.rt = COP1_BC_BCFL ∨ b.rt = COP1_BC_BCTL)) ∨
       (b.opcode = OPCODE_COP2 ∧ b.rs = COP2_BC ∧
          (b.rt = COP2_BC_BCFL ∨ b.rt = COP2_BC_BCTL)))) ∧
    (isLikely b = true →
      handleBranchDelaySlots g tr b d f it =
        (if branchLinkCode b ≠ "" then "    " ++ branchLinkCode b ++ "\n" else "") ++
          "    if (" ++ (branchCond b).render ++ ") \x7b\n" ++
          "        " ++ tr d ++ "\n" ++
          "        " ++ branchTargetAction g b it ++ "\n" ++ "    \x7d\n") ∧
    (isLikely b = false →
      handleBranchDelaySlots g tr b d f it =
        (if branchLinkCode b ≠ "" then "    " ++ branchLinkCode b ++ "\n" else "") ++
          "    " ++ tr d ++ "\n" ++
          "    if (" ++ (branchCond b).render ++ ") \x7b\n" ++
          "        " ++ branchTargetAction g b it ++ "\n" ++ "    \x7d\n") := by
  refine ⟨?_, ?_, ?_⟩
  · simp only [isLikely, Bool.or_eq_true, Bool.and_eq_true, decide_eq_true_eq, or_assoc,
      and_assoc]
  · intro hL
    unfold handleBranchDelaySlots
    simp only [hJ, hJR, hB, hD, hL, if_true, if_false, ne_eq, not_false_eq_true, decide_True,
      and_false, false_and]
  · intro hL
    unfold handleBranchDelaySlots
    simp [hJ, hJR, hB, hD, hL]

/-- C1 at `BEQL $2, $0, +2` with delay slot `ADDIU $2, $2, 1`: the hypotheses hold and the emitted
text has the delay slot inside the braces. -/
theorem C1_delay_slot_placement_witness :
    ¬(sampleBEQL.opcode = OPCODE_J ∨ sampleBEQL.opcode = OPCODE_JAL) ∧
    ¬(sampleBEQL.opcode = OPCODE_SPECIAL ∧
      (sampleBEQL.function = SPECIAL_JR ∨ sampleBEQL.function = SPECIAL_JALR)) ∧
    sampleBEQL.isBranch = true ∧ sampleADDIU.raw ≠ 0 ∧ isLikely sampleBEQL = true ∧
    handleBranchDelaySlots sampleGenerator translateADDIU sampleBEQL sampleADDIU sampleFunction
        [0x00200010] =
      "    if (GPR_U32(ctx, 2) == GPR_U32(ctx, 0)) \x7b\n" ++
      "        SET_GPR_S32(ctx, 2, ADD32(GPR_U32(ctx, 2), 1));\n" ++
      "        goto label_200010;\n" ++ "    \x7d\n" :=
  ⟨by decide, by decide, by decide, by decide, by decide,
    ((C1_delay_slot_placement sampleGenerator translateADDIU sampleBEQL sampleADDIU
      sampleFunction [0x00200010] (by decide) (by decide) (by decide) (by decide)).2.1
        (by decide)).trans (by decide)⟩

/-- C2, the code at its failing input: for `BEQ $2, $0, T` with delay slot `ADDIU $2, $2, 1` the
emitted text runs the delay slot before the `if`; started with `r2 = 0xFFFFFFFF` the branch
condition is false on the registers before the branch, the delay slot then makes `r2` zero, and the
emitted `if` enters its body: the branch is taken. -/
theorem C2_beq_reads_registers_after_delay_slot :
    handleBranchDelaySlots sampleGenerator translateADDIU sampleBEQ sampleADDIU sampleFunction
        [] =
      "    SET_GPR_S32(ctx, 2, ADD32(GPR_U32(ctx, 2), 1));\n" ++
      "    if (GPR_U32(ctx, 2) == GPR_U32(ctx, 0)) \x7b\n" ++
      "        ctx->pc = 0x200010; return;\n" ++ "    \x7d\n" ∧
    translateADDIU sampleADDIU = "SET_GPR_S32(ctx, 2, ADD32(GPR_U32(ctx, 2), 1));" ∧
    branchCond sampleBEQ = Cond.eqU32 2 0 ∧
    GPR_U32 sampleContext 2 = 0xFFFFFFFF ∧
    (branchCond sampleBEQ).eval sampleContext = false ∧
    GPR_U32 (runNonLikely (execADDIU sampleADDIU) (branchCond sampleBEQ) sampleContext).1 2 = 0 ∧
    (runNonLikely (execADDIU sampleADDIU) (branchCond sampleBEQ) sampleContext).2 = true := by
  refine ⟨by decide, by decide, by decide, by decide, by decide, by decide, by decide⟩

/-- An `unsigned` value below `2^32` is unchanged by the reduction to 32 bits. -/
theorem u32_of_lt {n : Nat} (h : n < 4294967296) : u32 n = n := by
  unfold u32; omega

/-- A natural number is a multiple of four exactly when its two low bits are clear. -/
theorem mod_four_eq_zero_iff_testBit (a : Nat) :
    a % 4 = 0 ↔ a.testBit 0 = false ∧ a.testBit 1 = false := by
  rw [Nat.testBit_to_div_mod, Nat.testBit_to_div_mod]
  simp only [decide_eq_false_iff_not, pow_zero, pow_one, Nat.div_one]
  omega

/-- The absolute-jump destination is word-aligned. -/
theorem buildAbsoluteJumpTarget_aligned (address target : Nat) :
    buildAbsoluteJumpTarget address target % 4 = 0 := by
  rw [mod_four_eq_zero_iff_testBit]
  unfold buildAbsoluteJumpTarget u32
  have h0 : (target <<< 2 % 4294967296).testBit 0 = false := by
    rw [Nat.testBit_to_div_mod, Nat.shiftLeft_eq]; simp; omega
  have h1 : (target <<< 2 % 4294967296).testBit 1 = false := by
    rw [Nat.testBit_to_div_mod, Nat.shiftLeft_eq]; simp; omega
  have k0 : (0xF0000000 : Nat).testBit 0 = false := by decide
  have k1 : (0xF0000000 : Nat).testBit 1 = false := by decide
  constructor
  · rw [Nat.testBit_or, Nat.testBit_and, h0, k0, Bool.and_false, Bool.or_false]
  · rw [Nat.testBit_or, Nat.testBit_and, h1, k1, Bool.and_false, Bool.or_false]

/-- The PC-relative destination of an instruction at a word-aligned address is word-aligned. -/
theorem relativeBranchTarget_aligned (inst : Instruction) (h : inst.address % 4 = 0) :
    relativeBranchTarget inst % 4 = 0 := by
  unfold relativeBranchTarget u32OfInt
  omega

/-- Every address `collectInternalBranchTargets` returns lies in `[start, end)` and, when the
instruction addresses are word-aligned, is word-aligned. -/
theorem collectInternalBranchTargets_range_aligned (f : Function) (instructions : List Instruction)
    (hA : ∀ i ∈ instructions, i.address % 4 = 0) :
    ∀ a ∈ collectInternalBranchTargets f instructions,
      f.start ≤ a ∧ a < f.end_ ∧ a % 4 = 0 := by
  unfold collectInternalBranchTargets
  suffices H : ∀ (l : List Instruction) (acc : List Nat), (∀ i ∈ l, i.address % 4 = 0) →
      (∀ a ∈ acc, f.start ≤ a ∧ a < f.end_ ∧ a % 4 = 0) →
      ∀ a ∈ l.foldl (fun targets inst =>
        let isStaticJump : Bool := inst.opcode = OPCODE_J || inst.opcode = OPCODE_JAL
        if inst.isBranch ∧ inst.opcode ≠ OPCODE_J ∧ inst.opcode ≠ OPCODE_JAL then
          let target := relativeBranchTarget inst
          if target ≥ f.start ∧ target < f.end_ then targets ++ [target] else targets
        else if isStaticJump then
          let target := buildAbsoluteJumpTarget inst.address inst.target
          if target ≥ f.start ∧ target < f.end_ then targets ++ [target] else targets
        else targets) acc, f.start ≤ a ∧ a < f.end_ ∧ a % 4 = 0 from
    H instructions [] hA (by simp)
  intro l
  induction l with
  | nil => intro acc _ hacc; simpa using hacc
  | cons i l ih =>
    intro acc hl hacc
    rw [List.foldl_cons]
    apply ih _ (fun j hj => hl j (List.mem_cons_of_mem _ hj))
    have hi : i.address % 4 = 0 := hl i (List.mem_cons_self _ _)
    intro a ha
    simp only at ha
    split_ifs at ha with c1 c2 c3 c4
    · rcases List.mem_append.1 ha with h | h
      · exact hacc a h
      · rw [List.mem_singleton] at h
        subst h
        exact ⟨c2.1, c2.2, relativeBranchTarget_aligned i hi⟩
    · exact hacc a ha
    · rcases List.mem_append.1 ha with h | h
      · exact hacc a h
      · rw [List.mem_singleton] at h
        subst h
        exact ⟨c4.1, c4.2, buildAbsoluteJumpTarget_aligned _ _⟩
    · exact hacc a ha
    · exact hacc a ha

/-- C3, counterexample: `J 0x440` at `0x410` with `0x440` in the internal-targets set and no known
function at `0x440` is not emitted as `goto label_440;` but as a write of `pc` and a return; and
once `0x440` is a known function (the entry `entry_440` of scenario S5) it is emitted as a call of
that function. -/
theorem C3_jump_to_internal_target_is_not_goto :
    buildAbsoluteJumpTarget sampleJ.address sampleJ.target = 0x440 ∧
    (0x440 : Nat) ∈ [0x440] ∧
    sampleGenerator.getFunctionName 0x440 = "" ∧
    handleBranchDelaySlots sampleGenerator translateADDIU sampleJ (sampleNOP 0x414)
        { start := 0x400, end_ := 0x500, name := "A", isRecompiled := true, isStub := false }
        [0x440] = "    ctx->pc = 0x440; return;\n" ∧
    handleBranchDelaySlots
        { sampleGenerator with
          m_renamedFunctions := fun a => if a = 0x440 then some "entry_440" else none }
        translateADDIU sampleJ (sampleNOP 0x414)
        { start := 0x400, end_ := 0x500, name := "A", isRecompiled := true, isStub := false }
        [0x440] = "    entry_440(rdram, ctx, runtime); return;\n" := by
  refine ⟨by decide, by decide, by decide, by decide, by decide⟩

/-- C3 as amended: a conditional branch ends its emitted `if` body with the target action, which
is `goto label_<hex>;` for a target in the internal-targets set, else a call of the known function
followed by `return;`, else `ctx->pc = 0x<HEX>; return;`. A `J`/`JAL` ends with a direct call of
the known function (`J` adds `return;`) or else with `ctx->pc = 0x<hex>; return;`, whatever the
internal-targets set holds. -/
theorem C3_target_action (g : CodeGenerator) (tr : Instruction → String)
    (b d : Instruction) (f : Function) (it : List Nat) :
    (¬(b.opcode = OPCODE_J ∨ b.opcode = OPCODE_JAL) →
      ¬(b.opcode = OPCODE_SPECIAL ∧ (b.function = SPECIAL_JR ∨ b.function = SPECIAL_JALR)) →
      b.isBranch = true →
      ∃ pre, handleBranchDelaySlots g tr b d f it =
        pre ++ "        " ++ branchTargetAction g b it ++ "\n" ++ "    \x7d\n") ∧
    (relativeBranchTarget b ∈ it →
      branchTargetAction g b it = "goto label_" ++ hexLower (relativeBranchTarget b) ++ ";") ∧
    (relativeBranchTarget b ∉ it → g.getFunctionName (relativeBranchTarget b) ≠ "" →
      branchTargetAction g b it =
        g.getFunctionName (relativeBranchTarget b) ++ "(rdram, ctx, runtime); return;") ∧
    (relativeBranchTarget b ∉ it → g.getFunctionName (relativeBranchTarget b) = "" →
      branchTargetAction g b it =
        "ctx->pc = 0x" ++ hexUpper (relativeBranchTarget b) ++ "; return;") ∧
    (b.opcode = OPCODE_J ∨ b.opcode = OPCODE_JAL →
      ∃ pre, handleBranchDelaySlots g tr b d f it =
        pre ++
          (if g.getFunctionName (buildAbsoluteJumpTarget b.address b.target) ≠ "" then
            (if b.opcode = OPCODE_J then
              "    " ++ g.getFunctionName (buildAbsoluteJumpTarget b.address b.target) ++
                "(rdram, ctx, runtime); return;\n"
            else
              "    " ++ g.getFunctionName (buildAbsoluteJumpTarget b.address b.target) ++
                "(rdram, ctx, runtime);\n")
          else
            "    ctx->pc = 0x" ++ hexLower (buildAbsoluteJumpTarget b.address b.target) ++
              "; return;\n")) := by
  refine ⟨?_, ?_, ?_, ?_, ?_⟩
  · intro hJ hJR hB
    unfold handleBranchDelaySlots
    simp only [hJ, hJR, hB, if_true, if_false]
    split_ifs
    all_goals exact ⟨_, rfl⟩
  · intro h
    simp [branchTargetAction, h]
  · intro h hn
    simp [branchTargetAction, h, hn]
  · intro h hn
    simp [branchTargetAction, h, hn]
  · intro hJ
    unfold handleBranchDelaySlots
    simp only [hJ, if_true]
    split_ifs
    all_goals first
      | exact ⟨_, rfl⟩
      | (simp only [← String.append_assoc]; exact ⟨_, rfl⟩)

/-- C3 as amended, at `BEQ $2, $0, +2` with its target in the internal-targets set: the hypotheses
of the conditional form hold and the emitted action is the `goto`. -/
theorem C3_target_action_witness :
    ¬(sampleBEQ.opcode = OPCODE_J ∨ sampleBEQ.opcode = OPCODE_JAL) ∧
    ¬(sampleBEQ.opcode = OPCODE_SPECIAL ∧
      (sampleBEQ.function = SPECIAL_JR ∨ sampleBEQ.function = SPECIAL_JALR)) ∧
    sampleBEQ.isBranch = true ∧
    relativeBranchTarget sampleBEQ ∈ [0x00200010] ∧
    branchTargetAction sampleGenerator sampleBEQ [0x00200010] = "goto label_200010;" :=
  ⟨by decide, by decide, by decide, by decide,
    ((C3_target_action sampleGenerator translateADDIU sampleBEQ sampleADDIU sampleFunction
      [0x00200010]).2.1 (by decide)).trans (by decide)⟩

/-- C4: for a 26-bit jump field both `buildAbsoluteJumpTarget` and `decodeAbsoluteJumpTarget` give
`((A + 4) mod 2^32 AND 0xF0000000) OR (T << 2)`; the text emitted for a `JAL` at `A` starts with
the write of `A + 8` (as a 32-bit value) to register 31, followed by the delay slot (when its
word is not zero) and then the call (or the `pc` exit when the target is not a known function);
running that write leaves `A + 8` in the low 32 bits of register 31. -/
theorem C4_absolute_jump_and_link (A T : Nat) (hT : T < 2 ^ 26) :
    buildAbsoluteJumpTarget A T = (((A + 4) % 2 ^ 32) &&& 0xF0000000) ||| (T <<< 2) ∧
    decodeAbsoluteJumpTarget A T = (((A + 4) % 2 ^ 32) &&& 0xF0000000) ||| (T <<< 2) ∧
    (∀ (g : CodeGenerator) (tr : Instruction → String) (b d : Instruction) (f : Function)
        (it : List Nat),
      b.opcode = OPCODE_JAL → b.address = A → b.target = T →
      handleBranchDelaySlots g tr b d f it =
        "    SET_GPR_U32(ctx, 31, 0x" ++ hexLower (u32 (A + 8)) ++ ");\n" ++
        (if d.raw ≠ 0 then "    " ++ tr d ++ "\n" else "") ++
        (if g.getFunctionName (buildAbsoluteJumpTarget A T) ≠ "" then
          "    " ++ g.getFunctionName (buildAbsoluteJumpTarget A T) ++ "(rdram, ctx, runtime);\n"
        else
          "    ctx->pc = 0x" ++ hexLower (buildAbsoluteJumpTarget A T) ++ "; return;\n")) ∧
    (∀ ctx : R5900Context, GPR_U32 (SET_GPR_U32 ctx 31 (u32 (A + 8))) 31 = (A + 8) % 2 ^ 32) ∧
    (A + 8 < 2 ^ 32 → u32 (A + 8) = A + 8) := by
  have hs : u32 (T <<< 2) = T <<< 2 := by
    apply u32_of_lt
    rw [Nat.shiftLeft_eq]
    omega
  refine ⟨?_, ?_, ?_, ?_, ?_⟩
  · unfold buildAbsoluteJumpTarget
    rw [hs]; rfl
  · unfold decodeAbsoluteJumpTarget
    rw [hs]; rfl
  · intro g tr b d f it hop hA hTt
    have hJ : OPCODE_JAL ≠ OPCODE_J := by decide
    unfold handleBranchDelaySlots
    simp only [hop, hA, hTt, hJ, or_true, if_true, if_false, ne_eq, decide_not,
      Bool.not_eq_true', decide_eq_false_iff_not]
    split_ifs
    all_goals simp only [String.append_assoc, String.append_empty]
  · intro ctx
    simp [GPR_U32, SET_GPR_U32, u32]
  · intro h
    exact u32_of_lt h

/-- C4 at the `JAL` at `0x0010FFFC` with field `0`: the field is 26-bit, the destination is
`0x00000000` and the emitted text links `0x110004` before the delay slot and the transfer. -/
theorem C4_absolute_jump_and_link_witness :
    (0 : Nat) < 2 ^ 26 ∧
    buildAbsoluteJumpTarget 0x0010FFFC 0 = 0x00000000 ∧
    decodeAbsoluteJumpTarget 0x0010FFFC 0 = 0x00000000 ∧
    GPR_U32 (SET_GPR_U32 sampleContext 31 (u32 (0x0010FFFC + 8))) 31 = 0x00110004 ∧
    handleBranchDelaySlots sampleGenerator translateADDIU sampleJAL sampleADDIU sampleFunction
        [] =
      "    SET_GPR_U32(ctx, 31, 0x110004);\n" ++
      "    SET_GPR_S32(ctx, 2, ADD32(GPR_U32(ctx, 2), 1));\n" ++
      "    ctx->pc = 0x0; return;\n" :=
  ⟨by decide,
   (C4_absolute_jump_and_link 0x0010FFFC 0 (by decide)).1.trans (by decide),
   (C4_absolute_jump_and_link 0x0010FFFC 0 (by decide)).2.1.trans (by decide),
   ((C4_absolute_jump_and_link 0x0010FFFC 0 (by decide)).2.2.2.1 sampleContext).trans
     (by decide),
   ((C4_absolute_jump_and_link 0x0010FFFC 0 (by decide)).2.2.1 sampleGenerator translateADDIU
     sampleJAL sampleADDIU sampleFunction [] (by decide) (by decide) (by decide)).trans
     (by decide)⟩

/-- C5, the code at its failing input: for the function `[0x1000, 0x1100)` whose list is
`JR $31; NOP`, the `JR` (flagged `isBranch`, immediate field 8) passes the test for PC-relative
branches and `collectInternalBranchTargets` returns the address `0x1024`, while the sibling
`getStaticBranchTarget` of the entry-point pass yields no target for the same instruction. -/
theorem C5_register_jump_yields_internal_target :
    sampleJR.opcode = OPCODE_SPECIAL ∧ sampleJR.function = SPECIAL_JR ∧
    getStaticBranchTarget sampleJR = none ∧
    collectInternalBranchTargets
        { start := 0x1000, end_ := 0x1100, name := "f", isRecompiled := true, isStub := false }
        [sampleJR, sampleNOP 0x1004] = [0x1024] := by
  refine ⟨by decide, by decide, by decide, by decide⟩

/-! ### Entry-point discovery -/

/-- A non-empty result of the `find_if` slice starts at the first instruction with the wanted
address and is the list from that index on. -/
theorem dropWhile_address_spec (t : Nat) (L : List Instruction) (first : Instruction)
    (rest : List Instruction)
    (h : L.dropWhile (fun candidate => candidate.address ≠ t) = first :: rest) :
    ∃ k, L[k]? = some first ∧ first.address = t ∧
      (∀ (j : Nat) (i2 : Instruction), j < k → L[j]? = some i2 → i2.address ≠ t) ∧
      first :: rest = L.drop k := by
  induction L with
  | nil => simp at h
  | cons x xs ih =>
    by_cases hx : x.address = t
    · have h2 : (x :: xs).dropWhile (fun candidate => candidate.address ≠ t) = x :: xs := by
        simp [List.dropWhile, hx]
      rw [h2] at h
      injection h with h3 h4
      subst h3; subst h4
      refine ⟨0, by simp, hx, ?_, by simp⟩
      intro j i2 hj
      omega
    · have h2 : (x :: xs).dropWhile (fun candidate => candidate.address ≠ t) =
          xs.dropWhile (fun candidate => candidate.address ≠ t) := by
        simp [List.dropWhile, hx]
      rw [h2] at h
      obtain ⟨k, hk1, hk2, hk3, hk4⟩ := ih h
      refine ⟨k + 1, by simpa using hk1, hk2, ?_, by simpa using hk4⟩
      intro j i2 hj hget
      cases j with
      | zero =>
        simp at hget
        subst hget
        exact hx
      | succ j =>
        simp at hget
        exact hk3 j i2 (by omega) hget

/-- The test `(target & 0x3) != 0` of the pass is the test for word alignment. -/
theorem and_three_eq_mod_four (t : Nat) : t &&& 0x3 = t % 4 :=
  Nat.and_pow_two_sub_one_eq_mod t 2

/-- A function returned by `findContainingFunction` is in the list and its range holds the
address. -/
theorem findContainingFunction_spec {functions : List Function} {address : Nat} {c : Function}
    (h : findContainingFunction functions address = some c) :
    c ∈ functions ∧ c.start ≤ address ∧ address < c.end_ := by
  unfold findContainingFunction at h
  have h1 := List.find?_some h
  have h2 := List.mem_of_find?_eq_some h
  simp only [ge_iff_le, decide_eq_true_eq] at h1
  exact ⟨h2, h1.1, h1.2⟩

/-- One instruction of the inner loop keeps the invariant of the pass. -/
theorem discoverInstruction_inv (isValidAddress : Nat → Bool) (p : PS2Recompiler)
    (st : DiscoveryState) (inst : Instruction)
    (hinv : DiscoveryInv isValidAddress p st) :
    DiscoveryInv isValidAddress p (discoverInstruction isValidAddress p.m_functions st inst) := by
  unfold discoverInstruction
  split
  · exact hinv
  · rename_i target _
    split_ifs with h1 h2
    · exact hinv
    · exact hinv
    · split
      · exact hinv
      · rename_i c hc
        split_ifs with h3
        · exact hinv
        · split
          · exact hinv
          · rename_i L hL
            split
            · exact hinv
            · rename_i first rest hdrop
              obtain ⟨hcmem, hcs, hce⟩ := findContainingFunction_spec hc
              obtain ⟨k, hk1, hk2, hk3, hk4⟩ := dropWhile_address_spec target L first rest hdrop
              have hcnew : ∀ e ∈ st.newEntries, e.start ≠ c.start :=
                fun e he => (hinv.fresh e he c hcmem).symm
              have hLp : p.m_decodedFunctions c.start = some L := by
                rw [← hinv.frame c.start hcnew]; exact hL
              have htnew : ∀ e ∈ st.newEntries, e.start ≠ target := by
                intro e he heq
                exact h2 (heq ▸ hinv.known e he)
              have hvalid : target % 4 = 0 ∧ isValidAddress target = true := by
                have := and_three_eq_mod_four target
                constructor
                · by_contra hne
                  exact h1 (Or.inl (by rw [this]; exact hne))
                · cases hv : isValidAddress target
                  · exact absurd (Or.inr hv) h1
                  · rfl
              constructor
              · intro f hf
                exact List.mem_cons_of_mem _ (hinv.starts f hf)
              · intro a ha
                have hat : a ≠ target := by
                  intro heq
                  exact ha _ (List.mem_append_right _ (List.mem_singleton.2 rfl)) heq.symm
                simp only [hat, if_false]
                exact hinv.frame a (fun e he => ha e (List.mem_append_left _ he))
              · intro e he
                rcases List.mem_append.1 he with h | h
                · exact List.mem_cons_of_mem _ (hinv.known e h)
                · rw [List.mem_singleton] at h
                  subst h
                  exact List.mem_cons_self _ _
              · intro e he f hf
                rcases List.mem_append.1 he with h | h
                · exact hinv.fresh e h f hf
                · rw [List.mem_singleton] at h
                  subst h
                  intro heq
                  have heq2 : f.start = target := heq
                  exact h2 (heq2 ▸ hinv.starts f hf)
              · rw [List.map_append, List.nodup_append]
                refine ⟨hinv.nodup, by simp, ?_⟩
                intro a ha hb
                simp only [List.map_cons, List.map_nil, List.mem_singleton] at hb
                obtain ⟨e, he, hea⟩ := List.mem_map.1 ha
                exact htnew e he (hea.trans hb)
              · intro e he
                rcases List.mem_append.1 he with h | h
                · obtain ⟨a1, a2, a3, a4, a5, c2, L2, k2, i2, b1, b2, b3, b4, b5, b6, b7, b8, b9,
                    b10, b11, b12, b13⟩ := hinv.ok e h
                  refine ⟨a1, a2, a3, a4, a5, c2, L2, k2, i2, b1, b2, b3, b4, b5, b6, b7, b8, b9,
                    b10, b11, ?_, b13⟩
                  simp only [htnew e h, if_false]
                  exact b12
                · rw [List.mem_singleton] at h
                  subst h
                  refine ⟨hvalid.1, hvalid.2, rfl, rfl, rfl, c, L, k, first, hc, hcmem, hcs, hce,
                    rfl, ?_, ?_, hLp, hk1, hk2, hk3, ?_, ?_⟩
                  · cases hr : c.isRecompiled
                    · exact absurd (Or.inr hr) h3
                    · rfl
                  · cases hs : c.isStub
                    · rfl
                    · exact absurd (Or.inl hs) h3
                  · simp only [if_true]
                    rw [hk4]
                  · rw [← hk4]; rfl

/-- One function of the outer loop keeps the invariant of the pass. -/
theorem discoverFunction_inv (isValidAddress : Nat → Bool) (p : PS2Recompiler)
    (st : DiscoveryState) (function : Function)
    (hinv : DiscoveryInv isValidAddress p st) :
    DiscoveryInv isValidAddress p (discoverFunction isValidAddress p.m_functions st function) := by
  unfold discoverFunction
  split_ifs
  · exact hinv
  · split
    · exact hinv
    · rename_i instructions _
      clear * - hinv
      induction instructions generalizing st with
      | nil => exact hinv
      | cons i l ih =>
        rw [List.foldl_cons]
        exact ih _ (discoverInstruction_inv isValidAddress p st i hinv)

/-- The invariant holds when the two loops of the pass are done. -/
theorem discoveryLoop_inv (isValidAddress : Nat → Bool) (p : PS2Recompiler) :
    DiscoveryInv isValidAddress p (discoveryLoop isValidAddress p) := by
  unfold discoveryLoop
  have h0 : DiscoveryInv isValidAddress p
      { decoded := p.m_decodedFunctions,
        existingStarts := p.m_functions.map (fun function => function.start),
        newEntries := [] } := by
    constructor
    · intro f hf
      exact List.mem_map.2 ⟨f, hf, rfl⟩
    · intro a _
      rfl
    · intro e he
      simp at he
    · intro e he
      simp at he
    · simp
    · intro e he
      simp at he
  suffices H : ∀ (l : List Function) (st : DiscoveryState), DiscoveryInv isValidAddress p st →
      DiscoveryInv isValidAddress p (l.foldl (discoverFunction isValidAddress p.m_functions) st)
    from H _ _ h0
  intro l
  induction l with
  | nil => intro st h; exact h
  | cons f l ih =>
    intro st h
    rw [List.foldl_cons]
    exact ih _ (discoverFunction_inv isValidAddress p st f h)

/-- The function list after the pass holds exactly the functions present before and the added
entries. -/
theorem mem_discoverAdditionalEntryPoints (isValidAddress : Nat → Bool) (p : PS2Recompiler)
    (f : Function) :
    f ∈ (discoverAdditionalEntryPoints isValidAddress p).m_functions ↔
      f ∈ p.m_functions ∨ f ∈ discoveredEntries isValidAddress p := by
  unfold discoverAdditionalEntryPoints discoveredEntries
  simp only
  split_ifs with h
  · rw [(List.perm_insertionSort _ _).mem_iff, List.mem_append]
  · have h2 : (discoveryLoop isValidAddress p).newEntries = [] := by
      by_contra hne
      exact h hne
    rw [h2]
    simp

/-- C6: every entry `e` that `discoverAdditionalEntryPoints` adds lies in the range of a function
`c` of the original list (the one `findContainingFunction` returns), and the instruction list
stored for `e` after the pass is the decoded list `L` of `c` from index `k` on, where `k` is the
first index with `L[k].address = e.start`; the first instruction of the stored list is that
instruction, at address `e.start`; the list of `c` is still `L` after the pass. -/
theorem C6_discovered_entry_is_suffix (isValidAddress : Nat → Bool) (p : PS2Recompiler)
    (e : Function) (he : e ∈ discoveredEntries isValidAddress p) :
    e ∈ (discoverAdditionalEntryPoints isValidAddress p).m_functions ∧
    ∃ (c : Function) (L : List Instruction) (k : Nat) (i : Instruction),
      findContainingFunction p.m_functions e.start = some c ∧ c ∈ p.m_functions ∧
      c.start ≤ e.start ∧ e.start < c.end_ ∧
      p.m_decodedFunctions c.start = some L ∧
      (discoverAdditionalEntryPoints isValidAddress p).m_decodedFunctions c.start = some L ∧
      L[k]? = some i ∧ i.address = e.start ∧
      (∀ (j : Nat) (i2 : Instruction), j < k → L[j]? = some i2 → i2.address ≠ e.start) ∧
      (discoverAdditionalEntryPoints isValidAddress p).m_decodedFunctions e.start =
        some (L.drop k) ∧
      (L.drop k).head? = some i := by
  have hinv := discoveryLoop_inv isValidAddress p
  refine ⟨(mem_discoverAdditionalEntryPoints isValidAddress p e).2 (Or.inr he), ?_⟩
  obtain ⟨_, _, _, _, _, c, L, k, i, b1, b2, b3, b4, _, _, _, b8, b9, b10, b11, b12, b13⟩ :=
    hinv.ok e he
  refine ⟨c, L, k, i, b1, b2, b3, b4, b8, ?_, b9, b10, b11, b12, b13⟩
  have hfr := hinv.frame c.start (fun e2 he2 => (hinv.fresh e2 he2 c b2).symm)
  show (discoveryLoop isValidAddress p).decoded c.start = some L
  rw [hfr]; exact b8

/-- C6 in scenario S5: `entry_440` is added, and its stored list is the decoded list of `A` from
index 16 on. -/
theorem C6_discovered_entry_is_suffix_witness :
    sampleEntry ∈ discoveredEntries (fun _ => true) sampleRecompiler ∧
    (sampleRecompiler.m_decodedFunctions 0x400).map (fun L => L.drop 16) =
      (discoverAdditionalEntryPoints (fun _ => true) sampleRecompiler).m_decodedFunctions 0x440 ∧
    ∃ (c : Function) (L : List Instruction) (k : Nat) (i : Instruction),
      findContainingFunction sampleRecompiler.m_functions sampleEntry.start = some c ∧
      c ∈ sampleRecompiler.m_functions ∧
      c.start ≤ sampleEntry.start ∧ sampleEntry.start < c.end_ ∧
      sampleRecompiler.m_decodedFunctions c.start = some L ∧
      (discoverAdditionalEntryPoints (fun _ => true) sampleRecompiler).m_decodedFunctions
        c.start = some L ∧
      L[k]? = some i ∧ i.address = sampleEntry.start ∧
      (∀ (j : Nat) (i2 : Instruction), j < k → L[j]? = some i2 →
        i2.address ≠ sampleEntry.start) ∧
      (discoverAdditionalEntryPoints (fun _ => true) sampleRecompiler).m_decodedFunctions
        sampleEntry.start = some (L.drop k) ∧
      (L.drop k).head? = some i :=
  ⟨by decide, by decide,
    (C6_discovered_entry_is_suffix (fun _ => true) sampleRecompiler sampleEntry (by decide)).2⟩

/-- C7: every entry the pass adds is word-aligned, valid, distinct from the start of every
function present before, named `entry_<hex start>`, ends where its containing function ends (so
`start < end`), is recompiled and not a stub, and is in the function list after the pass; the
added entries have pairwise distinct starts; the function list after the pass holds exactly the
functions present before (as they were) and the added entries; and every function present before
keeps its decoded instruction list. -/
theorem C7_discovery_frame (isValidAddress : Nat → Bool) (p : PS2Recompiler) :
    (∀ e ∈ discoveredEntries isValidAddress p,
      e.start % 4 = 0 ∧ isValidAddress e.start = true ∧
      (∀ f ∈ p.m_functions, f.start ≠ e.start) ∧
      e.name = "entry_" ++ hexLower e.start ∧
      (∃ c ∈ p.m_functions, findContainingFunction p.m_functions e.start = some c ∧
        c.start ≤ e.start ∧ e.start < c.end_ ∧ e.end_ = c.end_ ∧
        c.isRecompiled = true ∧ c.isStub = false) ∧
      e.start < e.end_ ∧ e.isRecompiled = true ∧ e.isStub = false ∧
      e ∈ (discoverAdditionalEntryPoints isValidAddress p).m_functions) ∧
    ((discoveredEntries isValidAddress p).map (fun e => e.start)).Nodup ∧
    (∀ f, f ∈ (discoverAdditionalEntryPoints isValidAddress p).m_functions ↔
      f ∈ p.m_functions ∨ f ∈ discoveredEntries isValidAddress p) ∧
    (∀ f ∈ p.m_functions,
      (discoverAdditionalEntryPoints isValidAddress p).m_decodedFunctions f.start =
        p.m_decodedFunctions f.start) := by
  have hinv := discoveryLoop_inv isValidAddress p
  refine ⟨?_, hinv.nodup, mem_discoverAdditionalEntryPoints isValidAddress p, ?_⟩
  · intro e he
    obtain ⟨a1, a2, a3, a4, a5, c, L, k, i, b1, b2, b3, b4, b5, b6, b7, _⟩ := hinv.ok e he
    refine ⟨a1, a2, hinv.fresh e he, a3, ⟨c, b2, b1, b3, b4, b5, b6, b7⟩, ?_, a4, a5,
      (mem_discoverAdditionalEntryPoints isValidAddress p e).2 (Or.inr he)⟩
    rw [b5]; exact b4
  · intro f hf
    exact hinv.frame f.start (fun e he => (hinv.fresh e he f hf).symm)

/-- C7 in scenario S5: the pass adds exactly `entry_440`, so the statement speaks of an entry, and
the function list afterwards is `A` followed by `entry_440`. -/
theorem C7_discovery_frame_witness :
    discoveredEntries (fun _ => true) sampleRecompiler = [sampleEntry] ∧
    (discoverAdditionalEntryPoints (fun _ => true) sampleRecompiler).m_functions =
      sampleRecompiler.m_functions ++ [sampleEntry] ∧
    (sampleEntry.start % 4 = 0 ∧ sampleEntry.start < sampleEntry.end_ ∧
      sampleEntry.name = "entry_" ++ hexLower sampleEntry.start) ∧
    (∀ f ∈ sampleRecompiler.m_functions,
      (discoverAdditionalEntryPoints (fun _ => true) sampleRecompiler).m_decodedFunctions
        f.start = sampleRecompiler.m_decodedFunctions f.start) :=
  ⟨by decide, by decide,
    ⟨((C7_discovery_frame (fun _ => true) sampleRecompiler).1 sampleEntry (by decide)).1,
     ((C7_discovery_frame (fun _ => true) sampleRecompiler).1 sampleEntry
        (by decide)).2.2.2.2.2.1,
     ((C7_discovery_frame (fun _ => true) sampleRecompiler).1 sampleEntry
        (by decide)).2.2.2.1⟩,
    (C7_discovery_frame (fun _ => true) sampleRecompiler).2.2.2⟩

/-! ### Registration table -/

/-- Running registration calls that all give the name `n` to the address `a` leaves `n` at `a`,
when there is such a call or the table held `n` at `a` before. -/
theorem registerAllFunctions_eq (a : Nat) (n : String) (calls : List (Nat × String)) :
    ∀ (table : Nat → Option RecompiledFunction),
      (∀ c ∈ calls, c.1 = a → c.2 = n) →
      ((∃ c ∈ calls, c.1 = a) ∨ table a = some (.generated n)) →
      registerAllFunctions calls table a = some (.generated n) := by
  induction calls with
  | nil =>
    intro table _ h
    rcases h with ⟨c, hc, _⟩ | h
    · simp at hc
    · exact h
  | cons c cs ih =>
    intro table hall h
    unfold registerAllFunctions
    rw [List.foldl_cons]
    apply ih
    · intro c2 hc2
      exact hall c2 (List.mem_cons_of_mem _ hc2)
    · by_cases hex : ∃ c2 ∈ cs, c2.1 = a
      · exact Or.inl hex
      · right
        unfold registerFunction
        by_cases hca : c.1 = a
        · have := hall c (List.mem_cons_self _ _) hca
          simp [hca, this]
        · rcases h with ⟨c2, hc2, hc2a⟩ | h
          · rcases List.mem_cons.1 hc2 with h3 | h3
            · subst h3; exact absurd hc2a hca
            · exact absurd ⟨c2, h3, hc2a⟩ hex
          · have hne : a ≠ c.1 := fun h4 => hca h4.symm
            simp [hne, h]

/-- The registration calls that follow the bootstrap's all carry `getFunctionName` of their
address, and there is one for every recompiled or stub function. -/
theorem registration_calls_spec (g : CodeGenerator) (functions : List Function) :
    (∀ c ∈ normalFunctions g functions ++ stubFunctions g functions,
      c.2 = g.getFunctionName c.1 ∧
      ∃ f ∈ functions, (f.isRecompiled = true ∨ f.isStub = true) ∧ f.start = c.1) ∧
    (∀ f ∈ functions, (f.isRecompiled = true ∨ f.isStub = true) →
      ∃ c ∈ normalFunctions g functions ++ stubFunctions g functions, c.1 = f.start) := by
  constructor
  · intro c hc
    rcases List.mem_append.1 hc with h | h
    · unfold normalFunctions at h
      obtain ⟨f, hf, rfl⟩ := List.mem_map.1 h
      rw [List.mem_filter] at hf
      refine ⟨rfl, f, hf.1, ?_, rfl⟩
      have := hf.2
      simp only [Bool.and_eq_true, Bool.or_eq_true] at this
      exact this.1
    · unfold stubFunctions at h
      obtain ⟨f, hf, rfl⟩ := List.mem_map.1 h
      rw [List.mem_filter] at hf
      refine ⟨rfl, f, hf.1, ?_, rfl⟩
      have := hf.2
      simp only [Bool.and_eq_true, Bool.or_eq_true] at this
      exact this.1
  · intro f hf hflag
    cases hs : f.isStub
    · refine ⟨(f.start, g.getFunctionName f.start), List.mem_append_left _ ?_, rfl⟩
      unfold normalFunctions
      refine List.mem_map.2 ⟨f, List.mem_filter.2 ⟨hf, ?_⟩, rfl⟩
      rcases hflag with h | h
      · simp [h, hs]
      · rw [hs] at h; exact absurd h (by decide)
    · refine ⟨(f.start, g.getFunctionName f.start), List.mem_append_right _ ?_, rfl⟩
      unfold stubFunctions
      refine List.mem_map.2 ⟨f, List.mem_filter.2 ⟨hf, ?_⟩, rfl⟩
      simp [hs]

/-- After the emitted registration calls have run in order, on any function table,
`lookupFunction(f.start)` is the function registered under the name `getFunctionName(f.start)`
for every recompiled or stub function `f`; and when the bootstrap is valid and no recompiled or
stub function starts at the entry address, `lookupFunction(entry)` is the bootstrap
`entry_<hex entry>`. -/
theorem lookup_after_registration (g : CodeGenerator) (functions : List Function)
    (table : Nat → Option RecompiledFunction) :
    (∀ f ∈ functions, (f.isRecompiled = true ∨ f.isStub = true) →
      lookupFunction (registerAllFunctions (registrationCalls g functions) table) f.start =
        RecompiledFunction.generated (g.getFunctionName f.start)) ∧
    (g.m_bootstrapInfo.valid = true →
      (∀ f ∈ functions, (f.isRecompiled = true ∨ f.isStub = true) →
        f.start ≠ g.m_bootstrapInfo.entry) →
      lookupFunction (registerAllFunctions (registrationCalls g functions) table)
          g.m_bootstrapInfo.entry =
        RecompiledFunction.generated ("entry_" ++ hexLower g.m_bootstrapInfo.entry)) := by
  obtain ⟨hspec1, hspec2⟩ := registration_calls_spec g functions
  have hsplit : registerAllFunctions (registrationCalls g functions) table =
      registerAllFunctions (normalFunctions g functions ++ stubFunctions g functions)
        (registerAllFunctions (bootstrapRegistration g) table) := by
    unfold registrationCalls registerAllFunctions
    rw [List.append_assoc, List.foldl_append]
  constructor
  · intro f hf hflag
    rw [hsplit]
    unfold lookupFunction
    rw [registerAllFunctions_eq f.start (g.getFunctionName f.start) _ _
      (fun c hc hca => by rw [(hspec1 c hc).1, hca]) (Or.inl (hspec2 f hf hflag))]
  · intro hvalid hnone
    rw [hsplit]
    unfold lookupFunction
    rw [registerAllFunctions_eq g.m_bootstrapInfo.entry
      ("entry_" ++ hexLower g.m_bootstrapInfo.entry) _ _ ?_ (Or.inr ?_)]
    · intro c hc hca
      obtain ⟨_, f, hf, hflag, hfs⟩ := hspec1 c hc
      exact absurd (hfs.trans hca) (hnone f hf hflag)
    · unfold bootstrapRegistration
      simp [hvalid, registerAllFunctions, registerFunction]

/-- When the bootstrap is valid and a recompiled or stub function starts at the entry address,
which is the function the bootstrap calls, `lookupFunction(entry)` after the emitted registration
calls is that function and not the bootstrap, on any function table and for any list of
functions. -/
theorem bootstrap_registration_overwritten (g : CodeGenerator) (functions : List Function)
    (table : Nat → Option RecompiledFunction) (f : Function) (hf : f ∈ functions)
    (hflag : f.isRecompiled = true ∨ f.isStub = true)
    (hstart : f.start = g.m_bootstrapInfo.entry) :
    lookupFunction (registerAllFunctions (registrationCalls g functions) table)
        g.m_bootstrapInfo.entry =
      RecompiledFunction.generated (g.getFunctionName g.m_bootstrapInfo.entry) := by
  rw [← hstart]
  exact (lookup_after_registration g functions table).1 f hf hflag

/-- C8, the code at its failing input: a valid bootstrap at entry `0x100000` and the recompiled
function `_start` at the same address, the guest entry function the bootstrap calls. The emitted
`registerAllFunctions` registers `entry_100000` under `0x100000` below the comment
`Register ELF entry bootstrap` and then registers `_start` under the same address; executed in
that order on an empty table, the calls leave `_start` in the slot, so `lookupFunction(0x100000)`
is `_start` and not the bootstrap `entry_100000`. -/
theorem C8_bootstrap_registration_is_overwritten :
    sampleBootGenerator.m_bootstrapInfo.valid = true ∧
    sampleBootGenerator.m_bootstrapInfo.entry = 0x100000 ∧
    sampleBootGenerator.m_bootstrapInfo.entryName = sampleStart.name ∧
    sampleStart.start = 0x100000 ∧ sampleStart.isRecompiled = true ∧
    generateFunctionRegistration sampleBootGenerator [sampleStart] =
      "#include \"ps2_runtime.h\"\n" ++
      "#include \"ps2_recompiled_functions.h\"\n" ++
      "#include \"ps2_stubs.h\"\n" ++
      "#include \"ps2_recompiled_stubs.h\"//this will give duplicated erros because runtime maybe has it define already, just delete the TODOS ones\n" ++
      "#include \"ps2_syscalls.h\"\n\n" ++
      "void registerAllFunctions(PS2Runtime& runtime) \x7b\n" ++
      "    // Register ELF entry bootstrap\n" ++
      "    runtime.registerFunction(0x100000, entry_100000);\n\n" ++
      "    // Register recompiled functions\n" ++
      "    runtime.registerFunction(0x100000, _start);\n" ++
      "\n    // Register stub functions\n" ++
      "\n    // Register system call stubs\n" ++
      "\n    // Register library stubs\n" ++
      "\x7d\n" ∧
    registrationCalls sampleBootGenerator [sampleStart] =
      [(0x100000, "entry_100000"), (0x100000, "_start")] ∧
    lookupFunction
        (registerAllFunctions (registrationCalls sampleBootGenerator [sampleStart])
          (fun _ => none)) sampleBootGenerator.m_bootstrapInfo.entry =
      RecompiledFunction.generated "_start" ∧
    lookupFunction
        (registerAllFunctions (registrationCalls sampleBootGenerator [sampleStart])
          (fun _ => none)) sampleBootGenerator.m_bootstrapInfo.entry ≠
      RecompiledFunction.generated
        ("entry_" ++ hexLower sampleBootGenerator.m_bootstrapInfo.entry) := by
  refine ⟨by decide, by decide, by decide, by decide, by decide, by decide, by decide,
    by decide, by decide⟩

/-! ### Name arbitration -/

/-- C9, the code at its failing input: three recompiled functions with distinct starts, named
`foo` (at `0x10`), `foo` (at `0x20`) and `foo_0x10` (at `0x30`). The two `foo` are counted as
duplicates and get their suffix, `foo_0x10` is counted once and is kept, and the rename map gives
the identifier `foo_0x10` to both `0x10` and `0x30`. -/
theorem C9_suffixed_name_collides :
    (sampleCollidingFunctions.map (fun f => f.start)).Nodup ∧
    (∀ f ∈ sampleCollidingFunctions, f.isRecompiled = true) ∧
    nameCounts sampleCollidingFunctions "foo" = 2 ∧
    nameCounts sampleCollidingFunctions "foo_0x10" = 1 ∧
    buildFunctionRenames sampleCollidingFunctions 0x10 = some "foo_0x10" ∧
    buildFunctionRenames sampleCollidingFunctions 0x20 = some "foo_0x20" ∧
    buildFunctionRenames sampleCollidingFunctions 0x30 = some "foo_0x10" := by
  refine ⟨by decide, by decide, by decide, by decide, by decide, by decide, by decide⟩

/-- The byte `sanitizeChar` returns is alphanumeric or `_`. -/
theorem sanitizeChar_legal (c : Char) :
    ((sanitizeChar c).isAlphanum || sanitizeChar c == '_') = true := by
  unfold sanitizeChar
  split_ifs with h
  · exact h
  · decide

/-- A byte that is alphanumeric or `_` is kept by `sanitizeChar`. -/
theorem sanitizeChar_of_legal (c : Char) (h : (c.isAlphanum || c == '_') = true) :
    sanitizeChar c = c := by
  unfold sanitizeChar
  rw [if_pos h]

/-- The result of `sanitizeIdentifierBody` is an identifier body. -/
theorem sanitizeIdentifierBody_isIdentifierBody (name : String) :
    IsIdentifierBody (sanitizeIdentifierBody name) := by
  have hall : ∀ c ∈ name.data.map sanitizeChar, (c.isAlphanum || c == '_') = true := by
    intro c hc
    obtain ⟨d, _, rfl⟩ := List.mem_map.1 hc
    exact sanitizeChar_legal d
  unfold sanitizeIdentifierBody
  simp only
  generalize name.data.map sanitizeChar = l at hall
  cases l with
  | nil =>
    constructor
    · intro c hc; simp at hc
    · intro first rest h; simp at h
  | cons first rest =>
    simp only
    split_ifs with h
    · constructor
      · intro c hc
        rcases List.mem_cons.1 hc with h2 | h2
        · subst h2; decide
        · exact hall c h2
      · intro f r hfr
        injection hfr with h3 _
        subst h3; decide
    · constructor
      · exact hall
      · intro f r hfr
        injection hfr with h3 _
        subst h3
        cases hb : (first.isAlpha || first == '_')
        · rw [hb] at h
          exact absurd rfl h
        · rfl

/-- The function `sanitizeIdentifierBody` leaves an identifier body unchanged. -/
theorem sanitizeIdentifierBody_of_isIdentifierBody (s : String) (h : IsIdentifierBody s) :
    sanitizeIdentifierBody s = s := by
  have hmap : s.data.map sanitizeChar = s.data := by
    conv_rhs => rw [← List.map_id s.data]
    apply List.map_congr_left
    intro c hc
    exact sanitizeChar_of_legal c (h.1 c hc)
  unfold sanitizeIdentifierBody
  simp only [hmap]
  cases hd : s.data with
  | nil =>
    simp only
    exact String.ext (by rw [hd])
  | cons first rest =>
    simp only
    have := h.2 first rest hd
    rw [this]
    simp only [Bool.not_true, Bool.false_eq_true, if_false]
    exact String.ext (by rw [hd])

/-- Putting `ps2_` in front of an identifier body gives an identifier body. -/
theorem isIdentifierBody_ps2 (s : String) (h : IsIdentifierBody s) :
    IsIdentifierBody ("ps2_" ++ s) := by
  have hd : ("ps2_" ++ s).data = 'p' :: 's' :: '2' :: '_' :: s.data := by
    rw [String.data_append]; rfl
  constructor
  · intro c hc
    rw [hd] at hc
    simp only [List.mem_cons] at hc
    rcases hc with h1 | h1 | h1 | h1 | h1
    · subst h1; decide
    · subst h1; decide
    · subst h1; decide
    · subst h1; decide
    · exact h.1 c h1
  · intro f r hfr
    rw [hd] at hfr
    injection hfr with h3 _
    subst h3; decide

/-- No member of `kKeywords` has the byte `2` at index 2, as every string `ps2_...` has. -/
theorem kKeywords_not_ps2 (s : String) : kKeywords.contains ("ps2_" ++ s) = false := by
  have hk : ∀ k ∈ kKeywords, k.data[2]? ≠ some '2' := by decide
  have hd : ("ps2_" ++ s).data = 'p' :: 's' :: '2' :: '_' :: s.data := by
    rw [String.data_append]; rfl
  by_contra hc
  have hmem : ("ps2_" ++ s) ∈ kKeywords := by
    simpa using hc
  have := hk _ hmem
  rw [hd] at this
  exact this rfl

/-- An identifier body that is not empty, not `main`, not a keyword and not reserved is a fixed
point of `sanitizeFunctionName`. -/
theorem sanitizeFunctionName_fixed (s : String) (h : IsIdentifierBody s)
    (hmain : s ≠ "main")
    (hkw : (kKeywords.contains s || isReservedCxxIdentifier s) = false) :
    sanitizeFunctionName s = s := by
  unfold sanitizeFunctionName
  simp only [sanitizeIdentifierBody_of_isIdentifierBody s h, hmain, hkw, if_false,
    Bool.false_eq_true]
  split_ifs <;> rfl

/-- C10: `sanitizeFunctionName` is idempotent on every name. -/
theorem C10_sanitizeFunctionName_idempotent (n : String) :
    sanitizeFunctionName (sanitizeFunctionName n) = sanitizeFunctionName n := by
  have hB := sanitizeIdentifierBody_isIdentifierBody n
  by_cases h1 : (sanitizeIdentifierBody n).data = []
  · have hres : sanitizeFunctionName n = sanitizeIdentifierBody n := by
      unfold sanitizeFunctionName
      simp only [h1, if_true]
    have hempty : sanitizeIdentifierBody n = "" := String.ext h1
    rw [hres, hempty]
    decide
  · by_cases h2 : sanitizeIdentifierBody n = "main"
    · have hres : sanitizeFunctionName n = "ps2_main" := by
        unfold sanitizeFunctionName
        dsimp only
        rw [if_neg h1, if_pos h2]
      rw [hres]
      decide
    · by_cases h3 : (kKeywords.contains (sanitizeIdentifierBody n) ||
          isReservedCxxIdentifier (sanitizeIdentifierBody n)) = true
      · have hres : sanitizeFunctionName n = "ps2_" ++ sanitizeIdentifierBody n := by
          unfold sanitizeFunctionName
          simp only [h1, h2, h3, if_true, if_false]
        rw [hres]
        have hd : ("ps2_" ++ sanitizeIdentifierBody n).data =
            'p' :: 's' :: '2' :: '_' :: (sanitizeIdentifierBody n).data := by
          rw [String.data_append]; rfl
        apply sanitizeFunctionName_fixed _ (isIdentifierBody_ps2 _ hB)
        · intro heq
          have := congrArg String.data heq
          rw [hd] at this
          injection this with h4 _
          exact absurd h4 (by decide)
        · rw [kKeywords_not_ps2]
          unfold isReservedCxxIdentifier
          rw [hd]
          rfl
      · have h3f : (kKeywords.contains (sanitizeIdentifierBody n) ||
            isReservedCxxIdentifier (sanitizeIdentifierBody n)) = false := by
          simpa using h3
        have hres : sanitizeFunctionName n = sanitizeIdentifierBody n := by
          unfold sanitizeFunctionName
          simp only [h1, h2, h3f, if_false, Bool.false_eq_true]
        rw [hres]
        exact sanitizeFunctionName_fixed _ hB h2 h3f

/-- The four ways `sanitizeFunctionName` returns, by the body `B` of the name: the empty body;
`ps2_main` for the body `main`; `ps2_` in front of a keyword or reserved body; else the body. -/
theorem sanitizeFunctionName_cases (n : String) :
    ((sanitizeIdentifierBody n).data = [] ∧ sanitizeFunctionName n = sanitizeIdentifierBody n) ∨
    ((sanitizeIdentifierBody n).data ≠ [] ∧ sanitizeIdentifierBody n = "main" ∧
      sanitizeFunctionName n = "ps2_main") ∨
    ((sanitizeIdentifierBody n).data ≠ [] ∧ sanitizeIdentifierBody n ≠ "main" ∧
      (kKeywords.contains (sanitizeIdentifierBody n) ||
        isReservedCxxIdentifier (sanitizeIdentifierBody n)) = true ∧
      sanitizeFunctionName n = "ps2_" ++ sanitizeIdentifierBody n) ∨
    ((sanitizeIdentifierBody n).data ≠ [] ∧ sanitizeIdentifierBody n ≠ "main" ∧
      (kKeywords.contains (sanitizeIdentifierBody n) ||
        isReservedCxxIdentifier (sanitizeIdentifierBody n)) = false ∧
      sanitizeFunctionName n = sanitizeIdentifierBody n) := by
  by_cases h1 : (sanitizeIdentifierBody n).data = []
  · left
    refine ⟨h1, ?_⟩
    unfold sanitizeFunctionName
    simp only [h1, if_true]
  · right
    by_cases h2 : sanitizeIdentifierBody n = "main"
    · left
      refine ⟨h1, h2, ?_⟩
      unfold sanitizeFunctionName
      dsimp only
      rw [if_neg h1, if_pos h2]
    · right
      by_cases h3 : (kKeywords.contains (sanitizeIdentifierBody n) ||
          isReservedCxxIdentifier (sanitizeIdentifierBody n)) = true
      · left
        refine ⟨h1, h2, h3, ?_⟩
        unfold sanitizeFunctionName
        simp only [h1, h2, h3, if_true, if_false]
      · right
        have h3f : (kKeywords.contains (sanitizeIdentifierBody n) ||
            isReservedCxxIdentifier (sanitizeIdentifierBody n)) = false := by
          simpa using h3
        refine ⟨h1, h2, h3f, ?_⟩
        unfold sanitizeFunctionName
        simp only [h1, h2, h3f, if_false, Bool.false_eq_true]

/-- The body of a name is at least as long as the name, and empty only for the empty name. -/
theorem sanitizeIdentifierBody_length (n : String) :
    n.data.length ≤ (sanitizeIdentifierBody n).data.length ∧
    (n.data ≠ [] → (sanitizeIdentifierBody n).data ≠ []) := by
  unfold sanitizeIdentifierBody
  simp only
  cases hn : n.data with
  | nil => simp
  | cons c cs =>
    simp only [List.map_cons]
    split_ifs <;> simp

/-- The string `ps2_` followed by anything is not `main`, not a keyword and not of a reserved
form. -/
theorem ps2_prefixed_not_special (s : String) :
    "ps2_" ++ s ≠ "main" ∧ kKeywords.contains ("ps2_" ++ s) = false ∧
    isReservedCxxIdentifier ("ps2_" ++ s) = false := by
  have hd : ("ps2_" ++ s).data = 'p' :: 's' :: '2' :: '_' :: s.data := by
    rw [String.data_append]; rfl
  refine ⟨?_, kKeywords_not_ps2 s, ?_⟩
  · intro heq
    have := congrArg String.data heq
    rw [hd] at this
    injection this with h4 _
    exact absurd h4 (by decide)
  · unfold isReservedCxxIdentifier
    rw [hd]
    rfl

/-- C11: for a non-empty name `sanitizeFunctionName` returns a non-empty string at least as long
as the name, all of whose bytes are alphanumeric or `_`, whose first byte is a letter or `_`, that
is not `main`, not in `kKeywords`, and does not begin with `__` or `_` and an upper-case letter; a
name with all these properties is returned unchanged; the empty name gives the empty string. -/
theorem C11_sanitizeFunctionName_shape (name : String) :
    (name.data ≠ [] →
      (sanitizeFunctionName name).data ≠ [] ∧
      name.data.length ≤ (sanitizeFunctionName name).data.length ∧
      (∀ c ∈ (sanitizeFunctionName name).data, c.isAlphanum = true ∨ c = '_') ∧
      (∃ first rest, (sanitizeFunctionName name).data = first :: rest ∧
        (first.isAlpha = true ∨ first = '_')) ∧
      sanitizeFunctionName name ≠ "main" ∧
      sanitizeFunctionName name ∉ kKeywords ∧
      (∀ c0 c1 rest, (sanitizeFunctionName name).data = c0 :: c1 :: rest →
        ¬(c0 = '_' ∧ (c1 = '_' ∨ c1.isUpper = true)))) ∧
    ((∀ c ∈ name.data, c.isAlphanum = true ∨ c = '_') →
      (∀ first rest, name.data = first :: rest → (first.isAlpha = true ∨ first = '_')) →
      name ≠ "main" → name ∉ kKeywords →
      (∀ c0 c1 rest, name.data = c0 :: c1 :: rest →
        ¬(c0 = '_' ∧ (c1 = '_' ∨ c1.isUpper = true))) →
      sanitizeFunctionName name = name) ∧
    sanitizeFunctionName "" = "" := by
  refine ⟨?_, ?_, by decide⟩
  · intro hne
    -- every result is a non-empty identifier body that is not special
    have key : ∀ r : String, r.data ≠ [] → IsIdentifierBody r → r ≠ "main" →
        (kKeywords.contains r || isReservedCxxIdentifier r) = false →
        name.data.length ≤ r.data.length →
        r.data ≠ [] ∧ name.data.length ≤ r.data.length ∧
        (∀ c ∈ r.data, c.isAlphanum = true ∨ c = '_') ∧
        (∃ first rest, r.data = first :: rest ∧ (first.isAlpha = true ∨ first = '_')) ∧
        r ≠ "main" ∧ r ∉ kKeywords ∧
        (∀ c0 c1 rest, r.data = c0 :: c1 :: rest →
          ¬(c0 = '_' ∧ (c1 = '_' ∨ c1.isUpper = true))) := by
      intro r hr hid hmain hkw hlen
      rw [Bool.or_eq_false_iff] at hkw
      refine ⟨hr, hlen, ?_, ?_, hmain, ?_, ?_⟩
      · intro c hc
        simpa using hid.1 c hc
      · cases hd : r.data with
        | nil => exact absurd hd hr
        | cons first rest =>
          exact ⟨first, rest, rfl, by simpa using hid.2 first rest hd⟩
      · intro hmem
        have : kKeywords.contains r = true := by simpa using hmem
        rw [hkw.1] at this
        exact absurd this (by decide)
      · intro c0 c1 rest hd hbad
        have hres := hkw.2
        unfold isReservedCxxIdentifier at hres
        rw [hd] at hres
        rcases hbad with ⟨h0, h1 | h1⟩
        · subst h0; subst h1
          simp at hres
        · subst h0
          simp [h1] at hres
    have hB := sanitizeIdentifierBody_isIdentifierBody name
    obtain ⟨hlen, hnonempty⟩ := sanitizeIdentifierBody_length name
    rcases sanitizeFunctionName_cases name with ⟨h1, _⟩ | ⟨_, h2, hr⟩ | ⟨h1, _, _, hr⟩ |
      ⟨h1, h2, h3, hr⟩
    · exact absurd h1 (hnonempty hne)
    · rw [hr]
      have hl : name.data.length ≤ 4 := by
        have := hlen
        rw [h2] at this
        exact this
      have hid : IsIdentifierBody "ps2_main" := by
        have := isIdentifierBody_ps2 _ hB
        rw [h2] at this
        exact this
      exact key "ps2_main" (by decide) hid (by decide) (by decide)
        (le_trans hl (by decide))
    · rw [hr]
      obtain ⟨p1, p2, p3⟩ := ps2_prefixed_not_special (sanitizeIdentifierBody name)
      have hd : ("ps2_" ++ sanitizeIdentifierBody name).data =
          'p' :: 's' :: '2' :: '_' :: (sanitizeIdentifierBody name).data := by
        rw [String.data_append]; rfl
      refine key _ (by rw [hd]; simp) (isIdentifierBody_ps2 _ hB) p1 (by rw [p2, p3]; rfl) ?_
      rw [hd]
      simp only [List.length_cons]
      omega
    · rw [hr]
      exact key _ h1 hB h2 h3 hlen
  · intro hall hhead hmain hkw hres
    apply sanitizeFunctionName_fixed name
    · constructor
      · intro c hc
        simpa using hall c hc
      · intro first rest hd
        simpa using hhead first rest hd
    · exact hmain
    · rw [Bool.or_eq_false_iff]
      constructor
      · by_contra hc
        have : name ∈ kKeywords := by simpa using hc
        exact hkw this
      · unfold isReservedCxxIdentifier
        cases hd : name.data with
        | nil => rfl
        | cons c0 t =>
          cases ht : t with
          | nil => rfl
          | cons c1 rest =>
            have := hres c0 c1 rest (by rw [hd, ht])
            simp only
            by_contra hne
            apply this
            simp only [Bool.not_eq_false, Bool.or_eq_true, Bool.and_eq_true, beq_iff_eq] at hne
            rcases hne with ⟨h0, h1⟩ | ⟨h0, h1⟩
            · exact ⟨h0, Or.inl h1⟩
            · exact ⟨h0, Or.inr h1⟩

/-- C11 at the name `1a-b`: it is not empty, it becomes `_1a_b`, and the result is not `main`. -/
theorem C11_sanitizeFunctionName_shape_witness :
    ("1a-b" : String).data ≠ [] ∧ sanitizeFunctionName "1a-b" = "_1a_b" ∧
    (sanitizeFunctionName "1a-b").data ≠ [] ∧
    ("1a-b" : String).data.length ≤ (sanitizeFunctionName "1a-b").data.length ∧
    sanitizeFunctionName "1a-b" ≠ "main" :=
  ⟨by decide, by decide,
    ((C11_sanitizeFunctionName_shape "1a-b").1 (by decide)).1,
    ((C11_sanitizeFunctionName_shape "1a-b").1 (by decide)).2.1,
    ((C11_sanitizeFunctionName_shape "1a-b").1 (by decide)).2.2.2.2.1⟩

/-! ### Register macros and guest memory -/

/-- C12: every `SET_GPR_*` on register index 0 leaves the context as it is, every `GPR_*` on
index 0 is zero whatever `r[0]` holds, and for an index other than 0 a `SET_GPR_*` gives the
context with `r[i]` replaced and nothing else changed. -/
theorem C12_register_zero (ctx : R5900Context) (v : Nat) (w : Int) :
    (SET_GPR_U32 ctx 0 v = ctx ∧ SET_GPR_S32 ctx 0 w = ctx ∧ SET_GPR_U64 ctx 0 v = ctx ∧
      SET_GPR_S64 ctx 0 w = ctx ∧ SET_GPR_VEC ctx 0 v = ctx) ∧
    (GPR_U32 ctx 0 = 0 ∧ GPR_S32 ctx 0 = 0 ∧ GPR_U64 ctx 0 = 0 ∧ GPR_S64 ctx 0 = 0 ∧
      GPR_VEC ctx 0 = 0) ∧
    (∀ i : Nat, i ≠ 0 →
      (SET_GPR_U32 ctx i v = { ctx with r := fun j => if j = i then u32 v else ctx.r j }) ∧
      (SET_GPR_S32 ctx i w = { ctx with r := fun j => if j = i then u32OfInt w else ctx.r j }) ∧
      (SET_GPR_U64 ctx i v = { ctx with r := fun j => if j = i then u64 v else ctx.r j }) ∧
      (SET_GPR_S64 ctx i w = { ctx with r := fun j => if j = i then u64OfInt w else ctx.r j }) ∧
      (SET_GPR_VEC ctx i v = { ctx with r := fun j => if j = i then u128 v else ctx.r j }) ∧
      (∀ j : Nat, j ≠ i →
        (SET_GPR_U32 ctx i v).r j = ctx.r j ∧ (SET_GPR_S32 ctx i w).r j = ctx.r j ∧
        (SET_GPR_U64 ctx i v).r j = ctx.r j ∧ (SET_GPR_S64 ctx i w).r j = ctx.r j ∧
        (SET_GPR_VEC ctx i v).r j = ctx.r j)) := by
  refine ⟨⟨rfl, rfl, rfl, rfl, rfl⟩, ⟨rfl, rfl, rfl, rfl, rfl⟩, ?_⟩
  intro i hi
  refine ⟨?_, ?_, ?_, ?_, ?_, ?_⟩
  · simp [SET_GPR_U32, hi]
  · simp [SET_GPR_S32, hi]
  · simp [SET_GPR_U64, hi]
  · simp [SET_GPR_S64, hi]
  · simp [SET_GPR_VEC, hi]
  · intro j hj
    simp [SET_GPR_U32, SET_GPR_S32, SET_GPR_U64, SET_GPR_S64, SET_GPR_VEC, hi, hj]

/-- C12 at register 3 of the sample context and the value 7: register 2 keeps `0xFFFFFFFF`. -/
theorem C12_register_zero_witness :
    (3 : Nat) ≠ 0 ∧ (2 : Nat) ≠ 3 ∧
    (SET_GPR_U64 sampleContext 3 7).r 2 = 0xFFFFFFFF ∧
    GPR_U32 (SET_GPR_U32 sampleContext 0 7) 0 = 0 :=
  ⟨by decide, by decide,
    (((C12_register_zero sampleContext 7 7).2.2 3 (by decide)).2.2.2.2.2 2
      (by decide)).2.2.1.trans (by decide),
    (congrArg (fun c => GPR_U32 c 0) (C12_register_zero sampleContext 7 7).1.1).trans
      (C12_register_zero sampleContext 7 7).2.1.1⟩

/-- C13, the code at its failing input: after `SET_GPR_U64(ctx, 1, 0x100000000)` the register
holds the value in its low 64 bits with the upper 64 bits zero and `GPR_S64` returns it, but
`GPR_U64`, which casts the extracted 64 bits to `uint32_t`, returns 0. -/
theorem C13_GPR_U64_truncates :
    (SET_GPR_U64 sampleContext 1 0x100000000).r 1 = 0x100000000 ∧
    (SET_GPR_U64 sampleContext 1 0x100000000).r 1 / 2 ^ 64 = 0 ∧
    GPR_S64 (SET_GPR_U64 sampleContext 1 0x100000000) 1 = 0x100000000 ∧
    GPR_U64 (SET_GPR_U64 sampleContext 1 0x100000000) 1 = 0 ∧
    GPR_U64 (SET_GPR_U64 sampleContext 1 0x100000000) 1 ≠ 0x100000000 := by
  refine ⟨by decide, by decide, by decide, by decide, by decide⟩

/-- After `SET_GPR_U64` on a register other than 0, `GPR_U64` returns the value reduced to 32
bits. -/
theorem GPR_U64_SET_GPR_U64 (ctx : R5900Context) (i v : Nat) (hi : i ≠ 0) :
    GPR_U64 (SET_GPR_U64 ctx i v) i = v % 4294967296 := by
  simp only [GPR_U64, SET_GPR_U64, hi, ne_eq, not_false_eq_true, if_true, if_false, u32, u64]
  omega

/-- The mask of the memory macros keeps the low 25 bits of an address. -/
theorem and_PS2_RAM_MASK (x : Nat) : x &&& PS2_RAM_MASK = x % 33554432 :=
  Nat.and_pow_two_sub_one_eq_mod x 25

/-- A value below `2^32` is the sum of its four bytes, lowest first. -/
theorem bytes_of_u32 (v : Nat) (hv : v < 4294967296) :
    v % 256 % 256 + 256 * (v / 256 % 256 % 256) + 65536 * (v / 65536 % 256 % 256) +
      16777216 * (v / 16777216 % 256 % 256) = v := by
  omega

/-- C14: for a 32-bit address `a` whose masked offset is at most `PS2_RAM_SIZE - 4` and a 32-bit
value `v`: `READ32(a)` after `WRITE32(a, v)` is `v`, and so is `READ32(b)` for every `b` with the
same masked offset; `READ8(a)`, `READ8(a+1)`, `READ8(a+2)`, `READ8(a+3)` are the bytes of `v`,
lowest first; and `WRITE32(a, v)` leaves every byte outside the four masked offsets as it was. -/
theorem C14_write32_read32 (rdram : Nat → Nat) (a v : Nat) (ha : a < 2 ^ 32) (hv : v < 2 ^ 32)
    (hoff : a &&& PS2_RAM_MASK ≤ PS2_RAM_SIZE - 4) :
    READ32 (WRITE32 rdram a v) a = v ∧
    (∀ b : Nat, b &&& PS2_RAM_MASK = a &&& PS2_RAM_MASK → READ32 (WRITE32 rdram a v) b = v) ∧
    (READ8 (WRITE32 rdram a v) a = v % 256 ∧
      READ8 (WRITE32 rdram a v) (u32 (a + 1)) = v / 256 % 256 ∧
      READ8 (WRITE32 rdram a v) (u32 (a + 2)) = v / 65536 % 256 ∧
      READ8 (WRITE32 rdram a v) (u32 (a + 3)) = v / 16777216 % 256) ∧
    (∀ off : Nat, (off < (a &&& PS2_RAM_MASK) ∨ (a &&& PS2_RAM_MASK) + 3 < off) →
      WRITE32 rdram a v off = rdram off) := by
  have hv2 : v < 4294967296 := by simpa using hv
  have ha2 : a < 4294967296 := by simpa using ha
  have huv : u32 v = v := u32_of_lt hv2
  have hread : ∀ b : Nat, b &&& PS2_RAM_MASK = a &&& PS2_RAM_MASK →
      READ32 (WRITE32 rdram a v) b = v := by
    intro b hb
    unfold READ32 WRITE32
    simp only [hb, huv]
    split_ifs <;> omega
  have hmask := and_PS2_RAM_MASK a
  have hsize : PS2_RAM_SIZE = 33554432 := by decide
  rw [hsize, hmask] at hoff
  refine ⟨hread a rfl, hread, ⟨?_, ?_, ?_, ?_⟩, ?_⟩
  · unfold READ8 WRITE32
    simp only [huv, if_true]
    omega
  · have hk : u32 (a + 1) &&& PS2_RAM_MASK = (a &&& PS2_RAM_MASK) + 1 := by
      rw [and_PS2_RAM_MASK, and_PS2_RAM_MASK]; unfold u32; omega
    unfold READ8 WRITE32
    simp only [hk, huv]
    have h1 : (a &&& PS2_RAM_MASK) + 1 ≠ a &&& PS2_RAM_MASK := by omega
    simp only [h1, if_false, if_true]
    omega
  · have hk : u32 (a + 2) &&& PS2_RAM_MASK = (a &&& PS2_RAM_MASK) + 2 := by
      rw [and_PS2_RAM_MASK, and_PS2_RAM_MASK]; unfold u32; omega
    unfold READ8 WRITE32
    simp only [hk, huv]
    have h1 : (a &&& PS2_RAM_MASK) + 2 ≠ a &&& PS2_RAM_MASK := by omega
    have h2 : (a &&& PS2_RAM_MASK) + 2 ≠ (a &&& PS2_RAM_MASK) + 1 := by omega
    simp only [h1, h2, if_false, if_true]
    omega
  · have hk : u32 (a + 3) &&& PS2_RAM_MASK = (a &&& PS2_RAM_MASK) + 3 := by
      rw [and_PS2_RAM_MASK, and_PS2_RAM_MASK]; unfold u32; omega
    unfold READ8 WRITE32
    simp only [hk, huv]
    have h1 : (a &&& PS2_RAM_MASK) + 3 ≠ a &&& PS2_RAM_MASK := by omega
    have h2 : (a &&& PS2_RAM_MASK) + 3 ≠ (a &&& PS2_RAM_MASK) + 1 := by omega
    have h3 : (a &&& PS2_RAM_MASK) + 3 ≠ (a &&& PS2_RAM_MASK) + 2 := by omega
    simp only [h1, h2, h3, if_false, if_true]
    omega
  · intro off hoff2
    unfold WRITE32
    have h0 : off ≠ a &&& PS2_RAM_MASK := by omega
    have h1 : off ≠ (a &&& PS2_RAM_MASK) + 1 := by omega
    have h2 : off ≠ (a &&& PS2_RAM_MASK) + 2 := by omega
    have h3 : off ≠ (a &&& PS2_RAM_MASK) + 3 := by omega
    simp only [h0, h1, h2, h3, if_false]

/-- C14 at `a = 0x02001001` (a mirror of offset `0x1001`) and `v = 0x44332211` on zeroed memory:
the hypotheses hold, the word reads back at the mirror `0x1001`, and the second byte is `0x22`. -/
theorem C14_write32_read32_witness :
    (0x02001001 : Nat) < 2 ^ 32 ∧ (0x44332211 : Nat) < 2 ^ 32 ∧
    0x02001001 &&& PS2_RAM_MASK ≤ PS2_RAM_SIZE - 4 ∧
    0x1001 &&& PS2_RAM_MASK = 0x02001001 &&& PS2_RAM_MASK ∧
    READ32 (WRITE32 (fun _ => 0) 0x02001001 0x44332211) 0x1001 = 0x44332211 ∧
    READ8 (WRITE32 (fun _ => 0) 0x02001001 0x44332211) (u32 (0x02001001 + 1)) = 0x22 :=
  ⟨by decide, by decide, by decide, by decide,
    (C14_write32_read32 (fun _ => 0) 0x02001001 0x44332211 (by decide) (by decide)
      (by decide)).2.1 0x1001 (by decide),
    ((C14_write32_read32 (fun _ => 0) 0x02001001 0x44332211 (by decide) (by decide)
      (by decide)).2.2.1.2.1).trans (by decide)⟩

/-! ### Trapping and wrapping arithmetic -/

/-- The signed reading of a 32-bit pattern lies in the `int32_t` range. -/
theorem s32_bounds (n : Nat) : -2147483648 ≤ s32 n ∧ s32 n < 2147483648 := by
  unfold s32
  split_ifs <;> omega

/-- A value in the `int32_t` range is the signed reading of its own pattern. -/
theorem s32_u32OfInt (z : Int) (h : -2147483648 ≤ z ∧ z < 2147483648) :
    s32 (u32OfInt z) = z := by
  unfold s32 u32OfInt
  split_ifs <;> omega

/-- The pattern of the signed reading of `n` is `n` reduced to 32 bits. -/
theorem u32OfInt_s32 (n : Nat) : u32OfInt (s32 n) = n % 4294967296 := by
  unfold s32 u32OfInt
  split_ifs <;> omega

/-- Wrapping to `int32_t`: the signed reading of the pattern of `z` differs from `z` by a
multiple of `2^32`. -/
theorem s32_u32OfInt_wrap (z : Int) :
    ∃ k : Int, s32 (u32OfInt z) = z + 4294967296 * k := by
  unfold s32 u32OfInt
  split_ifs
  · exact ⟨-(z / 4294967296), by omega⟩
  · exact ⟨-(z / 4294967296) - 1, by omega⟩

/-- The `int32_t` reading of `GPR_U32` is `GPR_S32`. -/
theorem s32_GPR_U32 (ctx : R5900Context) (i : Nat) : s32 (GPR_U32 ctx i) = GPR_S32 ctx i := by
  unfold GPR_U32 GPR_S32
  split_ifs
  · rfl
  · unfold s32 u32
    simp only [Nat.mod_mod]

/-- Wrapping to `int64_t`: the signed reading of the pattern of `z` differs from `z` by a
multiple of `2^64`. -/
theorem s64_u64OfInt_wrap (z : Int) :
    ∃ k : Int, s64 (u64OfInt z) = z + 18446744073709551616 * k := by
  unfold s64 u64OfInt
  split_ifs
  · exact ⟨-(z / 18446744073709551616), by omega⟩
  · exact ⟨-(z / 18446744073709551616) - 1, by omega⟩

/-- The macro `GPR_S32` returns a value in the `int32_t` range. -/
theorem GPR_S32_bounds (ctx : R5900Context) (i : Nat) :
    -2147483648 ≤ GPR_S32 ctx i ∧ GPR_S32 ctx i < 2147483648 := by
  unfold GPR_S32
  split_ifs
  · omega
  · exact s32_bounds _

/-- After `SET_GPR_S32` on a register other than 0, `GPR_S32` returns a value of the `int32_t`
range as it was written. -/
theorem GPR_S32_SET_GPR_S32 (ctx : R5900Context) (i : Nat) (z : Int) (hi : i ≠ 0)
    (hz : -2147483648 ≤ z ∧ z < 2147483648) :
    GPR_S32 (SET_GPR_S32 ctx i z) i = z := by
  simp only [GPR_S32, SET_GPR_S32, hi, ne_eq, not_false_eq_true, if_true, if_false]
  exact s32_u32OfInt z hz

/-- The handler of the integer-overflow exception writes `cop0_epc`, `cop0_cause` and `pc` and no
other field of the context. -/
theorem SignalException_overflow (ctx : R5900Context) :
    SignalException ctx EXCEPTION_INTEGER_OVERFLOW =
      { ctx with
        cop0_epc := ctx.pc, cop0_cause := ctx.cop0_cause ||| 0x30, pc := 0x80000000 } := by
  rfl

/-- The call of `SignalException` leaves every general-purpose register as it was. -/
theorem SignalException_r (ctx : R5900Context) (exception : Nat) :
    (SignalException ctx exception).r = ctx.r := by
  unfold SignalException HandleIntegerOverflow
  split_ifs <;> rfl

/-- The text emitted for `ADD` with `check_overflow` set: the exception exactly when the exact
sum leaves the `int32_t` range, else the write of the sum. -/
theorem execADD_checked_spec (ctx : R5900Context) (inst : Instruction) :
    ((GPR_S32 ctx inst.rs + GPR_S32 ctx inst.rt < -2147483648 ∨
        2147483647 < GPR_S32 ctx inst.rs + GPR_S32 ctx inst.rt) →
      execADD true inst ctx =
        { ctx := SignalException ctx EXCEPTION_INTEGER_OVERFLOW, signals := 1 }) ∧
    ((-2147483648 ≤ GPR_S32 ctx inst.rs + GPR_S32 ctx inst.rt ∧
        GPR_S32 ctx inst.rs + GPR_S32 ctx inst.rt ≤ 2147483647) →
      execADD true inst ctx =
        { ctx := SET_GPR_S32 ctx inst.rd (GPR_S32 ctx inst.rs + GPR_S32 ctx inst.rt),
          signals := 0 }) := by
  constructor
  · intro hov
    have hc : GPR_S32 ctx inst.rs + GPR_S32 ctx inst.rt > INT32_MAX ∨
        GPR_S32 ctx inst.rs + GPR_S32 ctx inst.rt < INT32_MIN := by
      unfold INT32_MAX INT32_MIN; omega
    unfold execADD
    simp only [if_true]
    rw [if_pos hc]
  · intro hin
    have hc : ¬(GPR_S32 ctx inst.rs + GPR_S32 ctx inst.rt > INT32_MAX ∨
        GPR_S32 ctx inst.rs + GPR_S32 ctx inst.rt < INT32_MIN) := by
      unfold INT32_MAX INT32_MIN; omega
    unfold execADD
    simp only [if_true]
    rw [if_neg hc]

/-- The text emitted for `ADDU` writes the pattern of the sum of the two signed register
values. -/
theorem execADDU_eq (ctx : R5900Context) (inst : Instruction) :
    execADDU inst ctx =
      SET_GPR_S32 ctx inst.rd (GPR_S32 ctx inst.rs + GPR_S32 ctx inst.rt) := by
  have h1 := u32OfInt_s32 (GPR_U32 ctx inst.rs)
  have h2 := u32OfInt_s32 (GPR_U32 ctx inst.rt)
  rw [s32_GPR_U32] at h1 h2
  have hval : u32 (ADD32 (GPR_U32 ctx inst.rs) (GPR_U32 ctx inst.rt)) =
      u32OfInt (GPR_S32 ctx inst.rs + GPR_S32 ctx inst.rt) := by
    unfold ADD32 u32 u32OfInt at *
    omega
  unfold execADDU SET_GPR_U32 SET_GPR_S32
  rw [hval]

/-- The text emitted for `SUBU` writes the pattern of the difference of the two signed register
values. -/
theorem execSUBU_eq (ctx : R5900Context) (inst : Instruction) :
    execSUBU inst ctx =
      SET_GPR_S32 ctx inst.rd (GPR_S32 ctx inst.rs - GPR_S32 ctx inst.rt) := by
  have h1 := u32OfInt_s32 (GPR_U32 ctx inst.rs)
  have h2 := u32OfInt_s32 (GPR_U32 ctx inst.rt)
  rw [s32_GPR_U32] at h1 h2
  have hval : u32 (SUB32 (GPR_U32 ctx inst.rs) (GPR_U32 ctx inst.rt)) =
      u32OfInt (GPR_S32 ctx inst.rs - GPR_S32 ctx inst.rt) := by
    unfold SUB32 u32 u32OfInt at *
    omega
  unfold execSUBU SET_GPR_U32 SET_GPR_S32
  rw [hval]

/-- C15: the `SPECIAL_ADD` and `SPECIAL_ADDU` cases emit the two texts given here, and for the
text emitted for `ADD rd, rs, rt` with `rd` other than 0 and `x`, `y` the signed 32-bit values of
`rs` and `rt`: with `check_overflow` set and `x + y` in `[-2^31, 2^31 - 1]` it leaves the context
the text emitted for `ADDU` leaves and signals nothing; with `check_overflow` set and `x + y`
outside the range it calls `SignalException` once, which writes `pc`, `cop0_epc` and `cop0_cause`,
and every general-purpose register (so `rd`) is as before; with `check_overflow` clear it signals
nothing, leaves the context of `ADDU`, and the low 32 bits of `rd` are `(x + y) mod 2^32`. -/
theorem C15_add_overflow (ctx : R5900Context) (inst : Instruction) (hrd : inst.rd ≠ 0) :
    translateADD inst =
      "if (runtime->check_overflow) \x7b " ++
      "    int32_t rs_val = GPR_S32(ctx, " ++ toString inst.rs ++ "); " ++
      "    int32_t rt_val = GPR_S32(ctx, " ++ toString inst.rt ++ "); " ++
      "    int64_t result = (int64_t)rs_val + (int64_t)rt_val; " ++
      "    if (result > INT32_MAX || result < INT32_MIN) \x7b " ++
      "        runtime->SignalException(ctx, EXCEPTION_INTEGER_OVERFLOW); " ++
      "    \x7d else \x7b " ++
      "        SET_GPR_S32(ctx, " ++ toString inst.rd ++ ", (int32_t)result); " ++
      "    \x7d " ++
      "\x7d else \x7b " ++
      "    SET_GPR_S32(ctx, " ++ toString inst.rd ++ ", ADD32(GPR_S32(ctx, " ++
        toString inst.rs ++ "), GPR_S32(ctx, " ++ toString inst.rt ++ "))); " ++
      "\x7d" ∧
    translateADDU inst =
      "SET_GPR_U32(ctx, " ++ toString inst.rd ++ ", ADD32(GPR_U32(ctx, " ++ toString inst.rs ++
        "), GPR_U32(ctx, " ++ toString inst.rt ++ ")));" ∧
    ((-2147483648 ≤ GPR_S32 ctx inst.rs + GPR_S32 ctx inst.rt ∧
        GPR_S32 ctx inst.rs + GPR_S32 ctx inst.rt ≤ 2147483647) →
      execADD true inst ctx = { ctx := execADDU inst ctx, signals := 0 } ∧
      GPR_S32 (execADD true inst ctx).ctx inst.rd =
        GPR_S32 ctx inst.rs + GPR_S32 ctx inst.rt) ∧
    ((GPR_S32 ctx inst.rs + GPR_S32 ctx inst.rt < -2147483648 ∨
        2147483647 < GPR_S32 ctx inst.rs + GPR_S32 ctx inst.rt) →
      execADD true inst ctx =
        { ctx := SignalException ctx EXCEPTION_INTEGER_OVERFLOW, signals := 1 } ∧
      (execADD true inst ctx).ctx.r = ctx.r ∧
      (execADD true inst ctx).ctx.pc = 0x80000000 ∧
      (execADD true inst ctx).ctx.cop0_epc = ctx.pc ∧
      (execADD true inst ctx).ctx.cop0_cause = ctx.cop0_cause ||| 0x30) ∧
    (execADD false inst ctx = { ctx := execADDU inst ctx, signals := 0 } ∧
      GPR_U32 (execADD false inst ctx).ctx inst.rd =
        ((GPR_S32 ctx inst.rs + GPR_S32 ctx inst.rt) % 4294967296).toNat) := by
  obtain ⟨hov, hin⟩ := execADD_checked_spec ctx inst
  have hoff : execADD false inst ctx = { ctx := execADDU inst ctx, signals := 0 } := by
    rw [execADDU_eq]
    unfold execADD ADD32_int SET_GPR_S32
    have : u32OfInt ((u32OfInt (GPR_S32 ctx inst.rs + GPR_S32 ctx inst.rt) : Nat) : Int) =
        u32OfInt (GPR_S32 ctx inst.rs + GPR_S32 ctx inst.rt) := by
      unfold u32OfInt; omega
    simp only [Bool.false_eq_true, if_false, this]
  refine ⟨rfl, rfl, ?_, ?_, hoff, ?_⟩
  · intro h
    rw [hin h, execADDU_eq]
    exact ⟨rfl, GPR_S32_SET_GPR_S32 ctx inst.rd _ hrd (by omega)⟩
  · intro h
    rw [hov h]
    exact ⟨rfl, rfl, rfl, rfl, rfl⟩
  · rw [hoff, execADDU_eq]
    simp only [GPR_U32, SET_GPR_S32, hrd, ne_eq, not_false_eq_true, if_true, if_false]
    unfold u32 u32OfInt
    omega

/-- C15 at `ADD $6, $4, $5` with `r4 = 0x7FFFFFFF` and `r5 = 1`: the destination is not register
0 and the sum leaves the range; the two emitted texts are the ones given; with the flag set there
is one signal, `r6` stays 0 and `pc` becomes `0x80000000`; with the flag clear there is no signal
and `r6` becomes `0x80000000`. -/
theorem C15_add_overflow_witness :
    (sampleRType 4 5 6 0x20).rd ≠ 0 ∧
    (GPR_S32 (contextWith 0x7FFFFFFF 1) (sampleRType 4 5 6 0x20).rs +
        GPR_S32 (contextWith 0x7FFFFFFF 1) (sampleRType 4 5 6 0x20).rt < -2147483648 ∨
      2147483647 < GPR_S32 (contextWith 0x7FFFFFFF 1) (sampleRType 4 5 6 0x20).rs +
        GPR_S32 (contextWith 0x7FFFFFFF 1) (sampleRType 4 5 6 0x20).rt) ∧
    translateADD (sampleRType 4 5 6 0x20) =
      "if (runtime->check_overflow) \x7b " ++
      "    int32_t rs_val = GPR_S32(ctx, 4); " ++
      "    int32_t rt_val = GPR_S32(ctx, 5); " ++
      "    int64_t result = (int64_t)rs_val + (int64_t)rt_val; " ++
      "    if (result > INT32_MAX || result < INT32_MIN) \x7b " ++
      "        runtime->SignalException(ctx, EXCEPTION_INTEGER_OVERFLOW); " ++
      "    \x7d else \x7b " ++
      "        SET_GPR_S32(ctx, 6, (int32_t)result); " ++
      "    \x7d " ++
      "\x7d else \x7b " ++
      "    SET_GPR_S32(ctx, 6, ADD32(GPR_S32(ctx, 4), GPR_S32(ctx, 5))); " ++
      "\x7d" ∧
    translateADDU (sampleRType 4 5 6 0x21) =
      "SET_GPR_U32(ctx, 6, ADD32(GPR_U32(ctx, 4), GPR_U32(ctx, 5)));" ∧
    (execADD true (sampleRType 4 5 6 0x20) (contextWith 0x7FFFFFFF 1)).signals = 1 ∧
    GPR_U32 (execADD true (sampleRType 4 5 6 0x20) (contextWith 0x7FFFFFFF 1)).ctx 6 = 0 ∧
    (execADD true (sampleRType 4 5 6 0x20) (contextWith 0x7FFFFFFF 1)).ctx.pc = 0x80000000 ∧
    (execADD false (sampleRType 4 5 6 0x20) (contextWith 0x7FFFFFFF 1)).signals = 0 ∧
    GPR_U32 (execADD false (sampleRType 4 5 6 0x20) (contextWith 0x7FFFFFFF 1)).ctx 6 =
      0x80000000 :=
  ⟨by decide, by decide,
    ((C15_add_overflow (contextWith 0x7FFFFFFF 1) (sampleRType 4 5 6 0x20)
      (by decide)).1).trans (by decide),
    ((C15_add_overflow (contextWith 0x7FFFFFFF 1) (sampleRType 4 5 6 0x21)
      (by decide)).2.1).trans (by decide),
    congrArg Outcome.signals ((C15_add_overflow (contextWith 0x7FFFFFFF 1)
      (sampleRType 4 5 6 0x20) (by decide)).2.2.2.1 (by decide)).1,
    (congrArg (fun o => GPR_U32 o.ctx 6) ((C15_add_overflow (contextWith 0x7FFFFFFF 1)
      (sampleRType 4 5 6 0x20) (by decide)).2.2.2.1 (by decide)).1).trans (by decide),
    ((C15_add_overflow (contextWith 0x7FFFFFFF 1)
      (sampleRType 4 5 6 0x20) (by decide)).2.2.2.1 (by decide)).2.2.1,
    congrArg Outcome.signals (C15_add_overflow (contextWith 0x7FFFFFFF 1)
      (sampleRType 4 5 6 0x20) (by decide)).2.2.2.2.1,
    ((C15_add_overflow (contextWith 0x7FFFFFFF 1)
      (sampleRType 4 5 6 0x20) (by decide)).2.2.2.2.2).trans (by decide)⟩

/-- C17, the code at its failing input: `SUB $6, $4, $5` with `r4 = 0x80000000`, `r5 = 1` and
`check_overflow` clear. The emitted text has no test of `check_overflow`; it calls
`SignalException` once and leaves `r6` at 0, while the text emitted for `SUBU` writes
`0x7FFFFFFF`. -/
theorem C17_sub_ignores_check_overflow :
    translateSUB (sampleRType 4 5 6 0x22) =
      "\x7b uint32_t tmp; bool ov; SUB32_OV(GPR_U32(ctx, 4), GPR_U32(ctx, 5), tmp, ov); " ++
      "if (ov) runtime->SignalException(ctx, EXCEPTION_INTEGER_OVERFLOW); " ++
      "else SET_GPR_S32(ctx, 6, (int32_t)tmp); \x7d" ∧
    (execSUB false (sampleRType 4 5 6 0x22) (contextWith 0x80000000 1)).signals = 1 ∧
    GPR_U32 (execSUB false (sampleRType 4 5 6 0x22) (contextWith 0x80000000 1)).ctx 6 = 0 ∧
    GPR_U32 (execSUBU (sampleRType 4 5 6 0x23) (contextWith 0x80000000 1)) 6 = 0x7FFFFFFF ∧
    (execADD false (sampleRType 4 5 6 0x20) (contextWith 0x80000000 0xFFFFFFFF)).signals = 0 := by
  refine ⟨by decide, by decide, by decide, by decide, by decide⟩

/-! ### Division and unaligned loads -/

/-- The text emitted for `DIVU` takes the remainder of the divisor register by itself: for every
non-zero divisor it leaves `hi = 0`. -/
theorem execDIVU_hi (inst : Instruction) (ctx : R5900Context)
    (h : GPR_U32 ctx inst.rt ≠ 0) : (execDIVU inst ctx).hi = 0 := by
  unfold execDIVU
  simp only
  rw [if_pos h]
  simp

/-- The text emitted for `DIVU` with a zero divisor leaves `lo = 0xFFFFFFFF` and the dividend,
the low 32 bits of `rs`, in `hi`. -/
theorem execDIVU_zero_divisor (inst : Instruction) (ctx : R5900Context)
    (h : GPR_U32 ctx inst.rt = 0) :
    (execDIVU inst ctx).lo = 0xFFFFFFFF ∧ (execDIVU inst ctx).hi = GPR_U32 ctx inst.rs := by
  unfold execDIVU
  simp only [h, ne_eq, not_true_eq_false, if_false, and_self]

/-- The text emitted for `DIV` takes the remainder of the divisor register by itself: away from
`INT32_MIN / -1` it has a result, and it leaves `hi = 0` whatever the dividend is. -/
theorem execDIV_hi (inst : Instruction) (ctx : R5900Context)
    (h : ¬(GPR_S32 ctx inst.rs = INT32_MIN ∧ GPR_S32 ctx inst.rt = -1)) :
    ∃ c, execDIV inst ctx = some c ∧ c.hi = 0 := by
  unfold execDIV
  by_cases h0 : GPR_S32 ctx inst.rt ≠ 0
  · simp only [h0, ne_eq, not_false_eq_true, if_true, h, if_false]
    exact ⟨_, rfl, by simp [Int.tmod_self, u32OfInt]⟩
  · have h0 : GPR_S32 ctx inst.rt = 0 := by simpa using h0
    simp only [h0, ne_eq, not_true_eq_false, if_false]
    exact ⟨_, rfl, by simp [u64OfInt]⟩

/-- C18, the code at its failing input: with `rs = 5` and `rt = 0` (registers 4 and 5), the text
emitted for `DIV` stores the `int` value `-1` in the `uint64_t` field `lo`, which becomes
`0xFFFFFFFFFFFFFFFF`, and stores the divisor register in `hi`, which becomes 0 and not the
dividend 5; with `rs = -5` it leaves `lo = 1` and again `hi = 0`. -/
theorem C18_divide_by_zero_fill :
    GPR_U32 (contextWith 5 0) 4 = 5 ∧ GPR_U32 (contextWith 5 0) 5 = 0 ∧
    translateDIV (sampleRType 4 5 0 0x1A) =
      "\x7b int32_t divisor = GPR_S32(ctx, 5); if (divisor != 0) \x7b " ++
      "ctx->lo = (uint32_t)(GPR_S32(ctx, 4) / divisor); " ++
      "ctx->hi = (uint32_t)(GPR_S32(ctx, 5) % divisor); \x7d else \x7b " ++
      "ctx->lo = (GPR_S32(ctx,4) < 0) ? 1 : -1; ctx->hi = GPR_S32(ctx,5); \x7d \x7d" ∧
    (execDIV (sampleRType 4 5 0 0x1A) (contextWith 5 0)).map (fun c => c.lo) =
      some 0xFFFFFFFFFFFFFFFF ∧
    (execDIV (sampleRType 4 5 0 0x1A) (contextWith 5 0)).map (fun c => c.hi) = some 0 ∧
    GPR_S32 (contextWith 0xFFFFFFFB 0) 4 = -5 ∧
    (execDIV (sampleRType 4 5 0 0x1A) (contextWith 0xFFFFFFFB 0)).map (fun c => c.lo) =
      some 1 ∧
    (execDIV (sampleRType 4 5 0 0x1A) (contextWith 0xFFFFFFFB 0)).map (fun c => c.hi) =
      some 0 := by
  refine ⟨by decide, by decide, by decide, by decide, by decide, by decide, by decide,
    by decide⟩

/-- C19, the code at its failing input: with `rs = 7` and `rt = 2` (registers 4 and 5), the text
emitted for `DIVU`, `DIV`, `DIVU1` and `DIV1` leaves the quotient 3 in `lo` (or `lo1`) but the
remainder of the divisor by itself, 0, in `hi` (or `hi1`), where `7 - 2 * 3 = 1` is due. -/
theorem C19_remainder_of_divisor :
    GPR_U32 (contextWith 7 2) 4 = 7 ∧ GPR_U32 (contextWith 7 2) 5 = 2 ∧
    (execDIVU (sampleRType 4 5 0 0x1B) (contextWith 7 2)).lo = 3 ∧
    (execDIVU (sampleRType 4 5 0 0x1B) (contextWith 7 2)).hi = 0 ∧
    (execDIV (sampleRType 4 5 0 0x1A) (contextWith 7 2)).map (fun c => c.lo) = some 3 ∧
    (execDIV (sampleRType 4 5 0 0x1A) (contextWith 7 2)).map (fun c => c.hi) = some 0 ∧
    (execDIVU1 (sampleRType 4 5 0 0x1B) (contextWith 7 2)).lo1 = 3 ∧
    (execDIVU1 (sampleRType 4 5 0 0x1B) (contextWith 7 2)).hi1 = 0 ∧
    (execDIV1 (sampleRType 4 5 0 0x1A) (contextWith 7 2)).map (fun c => c.lo1) = some 3 ∧
    (execDIV1 (sampleRType 4 5 0 0x1A) (contextWith 7 2)).map (fun c => c.hi1) = some 0 := by
  refine ⟨by decide, by decide, by decide, by decide, by decide, by decide, by decide,
    by decide, by decide, by decide⟩

/-- C20, the code at its failing input: memory holds `00 11 22 33 44 55 66 77` at `0x1000`,
register 4 holds `a = 0x1001`, register 5 (`rt`) holds `0xAABBCCDD`. The four bytes at `a` form
`0x44332211`, but the text emitted for `LWR $5, 0($4)` followed by `LWL $5, 3($4)`, in either
order, leaves `0x22110077` in `rt`. At the aligned address `0x1000` the emitted `LWR` loads the
whole word and the emitted `LWL` replaces the low byte of `rt` by the byte at `0x1003`. -/
theorem C20_unaligned_load_pair :
    (READ8 sampleMemory 0x1001 = 0x11 ∧ READ8 sampleMemory 0x1002 = 0x22 ∧
      READ8 sampleMemory 0x1003 = 0x33 ∧ READ8 sampleMemory 0x1004 = 0x44) ∧
    GPR_U32 (contextWith 0x1001 0xAABBCCDD) 4 = 0x1001 ∧
    GPR_U32 (execLWL sampleMemory (sampleIType 0x22 4 5 3)
      (execLWR sampleMemory (sampleIType 0x26 4 5 0) (contextWith 0x1001 0xAABBCCDD))) 5 =
        0x22110077 ∧
    GPR_U32 (execLWR sampleMemory (sampleIType 0x26 4 5 0)
      (execLWL sampleMemory (sampleIType 0x22 4 5 3) (contextWith 0x1001 0xAABBCCDD))) 5 =
        0x22110077 ∧
    GPR_U32 (execLWR sampleMemory (sampleIType 0x26 4 5 0) (contextWith 0x1000 0xAABBCCDD)) 5 =
      0x33221100 ∧
    GPR_U32 (execLWL sampleMemory (sampleIType 0x22 4 5 0) (contextWith 0x1000 0xAABBCCDD)) 5 =
      0xAABBCC33 := by
  refine ⟨⟨by decide, by decide, by decide, by decide⟩, by decide, by decide, by decide,
    by decide, by decide⟩

/-! ### Unaligned stores -/

/-- C21, the code at its failing input: memory holds `00 11 22 33 44 55 66 77` at `0x1000`,
register 4 holds `a = 0x1001` and register 5 (`rt`) holds `0xAABBCCDD`. After the text emitted for
`SWR $5, 0($4)` and `SWL $5, 3($4)`, in either order, the bytes at `a .. a+3` are `CC 22 33 DD`
and not `DD CC BB AA`, while the bytes at `0x1000`, `0x1005`, `0x1006` and `0x1007`, outside
`a .. a+3`, have changed to `DD`, `CC`, `BB` and `AA`. At the aligned address `0x1000` the pair
stores `DD 11 22 AA`. -/
theorem C21_unaligned_store_pair :
    translateSWR (sampleIType 0x2E 4 5 0) =
      "\x7b uint32_t addr = ADD32(GPR_U32(ctx, 4), 0); uint32_t shift = ((~addr) & 3) << 3; " ++
      "uint32_t mask = 0xFFFFFFFF >> shift; uint32_t aligned_addr = addr & ~3; " ++
      "uint32_t old_data = READ32(aligned_addr); " ++
      "uint32_t new_data = (old_data & ~mask) | (GPR_U32(ctx, 5) & mask); " ++
      "WRITE32(aligned_addr, new_data); \x7d" ∧
    translateSWL (sampleIType 0x2A 4 5 3) =
      "\x7b uint32_t addr = ADD32(GPR_U32(ctx, 4), 3); uint32_t shift = (addr & 3) << 3; " ++
      "uint32_t mask = 0xFFFFFFFF << shift; uint32_t aligned_addr = addr & ~3; " ++
      "uint32_t old_data = READ32(aligned_addr); " ++
      "uint32_t new_data = (old_data & ~mask) | (GPR_U32(ctx, 5) & mask); " ++
      "WRITE32(aligned_addr, new_data); \x7d" ∧
    GPR_U32 (contextWith 0x1001 0xAABBCCDD) 4 = 0x1001 ∧
    GPR_U32 (contextWith 0x1001 0xAABBCCDD) 5 = 0xAABBCCDD ∧
    (List.range 8).map (fun k => READ8 sampleMemory (0x1000 + k)) =
      [0x00, 0x11, 0x22, 0x33, 0x44, 0x55, 0x66, 0x77] ∧
    (List.range 8).map (fun k => READ8
      (execSWL (execSWR sampleMemory (sampleIType 0x2E 4 5 0) (contextWith 0x1001 0xAABBCCDD))
        (sampleIType 0x2A 4 5 3) (contextWith 0x1001 0xAABBCCDD)) (0x1000 + k)) =
      [0xDD, 0xCC, 0x22, 0x33, 0xDD, 0xCC, 0xBB, 0xAA] ∧
    (List.range 8).map (fun k => READ8
      (execSWR (execSWL sampleMemory (sampleIType 0x2A 4 5 3) (contextWith 0x1001 0xAABBCCDD))
        (sampleIType 0x2E 4 5 0) (contextWith 0x1001 0xAABBCCDD)) (0x1000 + k)) =
      [0xDD, 0xCC, 0x22, 0x33, 0xDD, 0xCC, 0xBB, 0xAA] ∧
    (List.range 8).map (fun k => READ8
      (execSWL (execSWR sampleMemory (sampleIType 0x2E 4 5 0) (contextWith 0x1000 0xAABBCCDD))
        (sampleIType 0x2A 4 5 3) (contextWith 0x1000 0xAABBCCDD)) (0x1000 + k)) =
      [0xDD, 0x11, 0x22, 0xAA, 0x44, 0x55, 0x66, 0x77] := by
  refine ⟨by decide, by decide, by decide, by decide, by decide, by decide, by decide,
    by decide⟩

/-! ### Decoding a function -/

/-- The loop of `decodeFunction` ends when `fuel` exceeds the number `n` of words left: it appends
the decoded words of the first `k` addresses, all readable, and stops either at the end of the
range (`k = n`, not truncated) or at the first address that is not readable (`k < n`,
truncated). -/
theorem decodeLoop_spec (env : DecodeEnv) (end_ : Nat) (hend : end_ < 4294967296) :
    ∀ (n fuel address : Nat) (acc : List Instruction),
      address + 4 * n = end_ → n + 1 ≤ fuel →
      ∃ k, k ≤ n ∧
        decodeLoop env fuel address end_ acc =
          some (acc ++ (List.range k).map (fun i =>
            env.decodeInstruction (address + 4 * i) (rawAt env (address + 4 * i))),
            decide (k < n)) ∧
        (∀ i, i < k → readable env (address + 4 * i) = true) ∧
        (k < n → readable env (address + 4 * k) = false) := by
  intro n
  induction n with
  | zero =>
    intro fuel address acc h hf
    obtain ⟨fuel, rfl⟩ : ∃ m, fuel = m + 1 := ⟨fuel - 1, by omega⟩
    refine ⟨0, le_refl _, ?_, ?_, ?_⟩
    · unfold decodeLoop
      rw [if_neg (by omega)]
      simp
    · intro i hi; omega
    · intro hk; omega
  | succ n ih =>
    intro fuel address acc h hf
    obtain ⟨fuel, rfl⟩ : ∃ m, fuel = m + 1 := ⟨fuel - 1, by omega⟩
    have hlt : address < end_ := by omega
    by_cases hv : env.isValidAddress address = true
    · cases hr : env.readWord address with
      | none =>
        refine ⟨0, by omega, ?_, ?_, ?_⟩
        · unfold decodeLoop
          rw [if_pos hlt]
          simp [hv, hr]
        · intro i hi; omega
        · intro _
          simp [readable, hr]
      | some word =>
        have hnext : u32 (address + 4) = address + 4 := by unfold u32; omega
        obtain ⟨k, hk, hloop, hread, hstop⟩ :=
          ih fuel (address + 4)
            (acc ++ [env.decodeInstruction address (rawAt env address)]) (by omega) (by omega)
        refine ⟨k + 1, by omega, ?_, ?_, ?_⟩
        · have hraw : (match env.patches address with
              | some text =>
                match env.stoul text with
                | some value => u32 value
                | none => word
              | none => word) = rawAt env address := by
            unfold rawAt
            rw [hr]
            rfl
          unfold decodeLoop
          rw [if_pos hlt]
          simp only [hv, hr, Bool.not_true, Bool.false_eq_true, if_false]
          rw [hraw, hnext, hloop]
          simp only [List.range_succ_eq_map, List.map_cons, List.map_map, List.append_assoc,
            List.singleton_append, Nat.mul_zero, Nat.add_zero]
          congr 2
          · congr 2
            apply List.map_congr_left
            intro i _
            simp only [Function.comp]
            have : address + 4 + 4 * i = address + 4 * (i + 1) := by omega
            rw [this]
          · simp
        · intro i hi
          cases i with
          | zero => simp [readable, hv, hr]
          | succ i =>
            have := hread i (by omega)
            have e : address + 4 + 4 * i = address + 4 * (i + 1) := by omega
            rw [e] at this
            exact this
        · intro hk1
          have := hstop (by omega)
          have e : address + 4 + 4 * k = address + 4 * (k + 1) := by omega
          rw [e] at this
          exact this
    · refine ⟨0, by omega, ?_, ?_, ?_⟩
      · unfold decodeLoop
        rw [if_pos hlt]
        simp [hv]
      · intro i hi; omega
      · intro _
        simp [readable, hv]

/-- The raw word handed to the decoder is the parsed patch, reduced to 32 bits, when the address
has a patch that parses, and else the word read. -/
theorem rawAt_cases (env : DecodeEnv) (a : Nat) :
    (∀ text value, env.patches a = some text → env.stoul text = some value →
      rawAt env a = u32 value) ∧
    (∀ word, env.readWord a = some word →
      (env.patches a = none ∨ ∃ text, env.patches a = some text ∧ env.stoul text = none) →
      rawAt env a = word) := by
  constructor
  · intro text value hp hs
    unfold rawAt
    simp only [hp, hs]
  · intro word hr h
    unfold rawAt
    rcases h with hp | ⟨text, hp, hs⟩
    · simp only [hp, hr, Option.getD_some]
    · simp only [hp, hs, hr, Option.getD_some]

/-- C22: for a function with `start < end`, `end - start` a multiple of 4 and `end` a 32-bit
value, and a decoder that records the address and the raw word it is given, `decodeFunction`
ends (every fuel above the number of words gives a result). If the word at `start` is not
readable the result is `false` and neither the function nor the map has changed. Otherwise the
result is `true`, the map holds at `start` a non-empty list whose `i`-th instruction has address
`start + 4*i` and as raw word the parsed patch of that address (reduced to 32 bits) when there is
one that parses and else the word read; every listed address is readable and the list stops at
`end` or at the first address that is not readable; and the function's `end` is now the address
of the last listed instruction plus 4. -/
theorem C22_decodeFunction (env : DecodeEnv) (m : Nat → Option (List Instruction))
    (f : Function) (hlt : f.start < f.end_) (hmod : (f.end_ - f.start) % 4 = 0)
    (hend : f.end_ < 4294967296)
    (hdec : ∀ a w, (env.decodeInstruction a w).address = a ∧
      (env.decodeInstruction a w).raw = w) :
    ∀ fuel, (f.end_ - f.start) / 4 + 1 ≤ fuel →
      ∃ r, decodeFunction env fuel m f = some r ∧
        (readable env f.start = false →
          r.ok = false ∧ r.function = f ∧ r.m_decodedFunctions = m) ∧
        (readable env f.start = true →
          r.ok = true ∧
          ∃ l, r.m_decodedFunctions = (fun a => if a = f.start then some l else m a) ∧
            l ≠ [] ∧
            (∀ i (h : i < l.length),
              readable env (f.start + 4 * i) = true ∧
              (l.get ⟨i, h⟩).address = f.start + 4 * i ∧
              (∀ text value, env.patches (f.start + 4 * i) = some text →
                env.stoul text = some value → (l.get ⟨i, h⟩).raw = u32 value) ∧
              (∀ word, env.readWord (f.start + 4 * i) = some word →
                (env.patches (f.start + 4 * i) = none ∨
                  ∃ text, env.patches (f.start + 4 * i) = some text ∧ env.stoul text = none) →
                (l.get ⟨i, h⟩).raw = word)) ∧
            (f.start + 4 * l.length = f.end_ ∨
              (f.start + 4 * l.length < f.end_ ∧
                readable env (f.start + 4 * l.length) = false)) ∧
            (∃ last, l.getLast? = some last ∧ r.function.end_ = last.address + 4) ∧
            r.function = { f with end_ := f.start + 4 * l.length }) := by
  intro fuel hfuel
  obtain ⟨k, hk, hloop, hread, hstop⟩ :=
    decodeLoop_spec env f.end_ hend ((f.end_ - f.start) / 4) fuel f.start [] (by omega) hfuel
  rw [List.nil_append] at hloop
  cases k with
  | zero =>
    have hnr : readable env f.start = false := by
      have := hstop (by omega)
      simpa using this
    refine ⟨{ ok := false, function := f, m_decodedFunctions := m }, ?_, ?_, ?_⟩
    · unfold decodeFunction
      rw [hloop]
      rfl
    · intro _
      exact ⟨rfl, rfl, rfl⟩
    · intro h
      rw [hnr] at h
      exact absurd h (by simp)
  | succ k =>
    have hr0 : readable env f.start = true := by
      have := hread 0 (by omega)
      simpa using this
    have hlast : ((List.range (k + 1)).map (fun i =>
        env.decodeInstruction (f.start + 4 * i) (rawAt env (f.start + 4 * i)))).getLast? =
        some (env.decodeInstruction (f.start + 4 * k) (rawAt env (f.start + 4 * k))) := by
      rw [List.range_succ, List.map_append, List.map_singleton, List.getLast?_append]
      rfl
    have hlen : ((List.range (k + 1)).map (fun i =>
        env.decodeInstruction (f.start + 4 * i) (rawAt env (f.start + 4 * i)))).length =
        k + 1 := by
      rw [List.length_map, List.length_range]
    have hendnew : (if decide (k + 1 < (f.end_ - f.start) / 4) = true then
          { f with end_ := u32 ((env.decodeInstruction (f.start + 4 * k)
              (rawAt env (f.start + 4 * k))).address + 4) }
        else f) = { f with end_ := f.start + 4 * (k + 1) } := by
      rw [(hdec _ _).1]
      split_ifs with ht
      · have : u32 (f.start + 4 * k + 4) = f.start + 4 * (k + 1) := by
          unfold u32; omega
        rw [this]
      · have ht2 : ¬ (k + 1 < (f.end_ - f.start) / 4) := by simpa using ht
        have : f.start + 4 * (k + 1) = f.end_ := by omega
        rw [this]
    refine ⟨{ ok := true, function := { f with end_ := f.start + 4 * (k + 1) },
              m_decodedFunctions := fun a => if a = f.start then
                some ((List.range (k + 1)).map (fun i =>
                  env.decodeInstruction (f.start + 4 * i) (rawAt env (f.start + 4 * i))))
                else m a }, ?_, ?_, ?_⟩
    · unfold decodeFunction
      rw [hloop]
      simp only [hlast]
      rw [hendnew]
    · intro h
      rw [hr0] at h
      exact absurd h (by simp)
    · intro _
      refine ⟨rfl, _, rfl, ?_, ?_, ?_, ?_, ?_⟩
      · intro h0
        have := congrArg List.length h0
        rw [hlen] at this
        simp at this
      · intro i h
        have hi : i < k + 1 := by rw [hlen] at h; exact h
        have hget : ((List.range (k + 1)).map (fun i =>
            env.decodeInstruction (f.start + 4 * i) (rawAt env (f.start + 4 * i)))).get ⟨i, h⟩ =
            env.decodeInstruction (f.start + 4 * i) (rawAt env (f.start + 4 * i)) := by
          simp
        rw [hget]
        refine ⟨hread i hi, (hdec _ _).1, ?_, ?_⟩
        · intro text value hp hs
          rw [(hdec _ _).2]
          exact (rawAt_cases env _).1 text value hp hs
        · intro word hr hp
          rw [(hdec _ _).2]
          exact (rawAt_cases env _).2 word hr hp
      · rw [hlen]
        by_cases hkn : k + 1 < (f.end_ - f.start) / 4
        · right
          exact ⟨by omega, hstop hkn⟩
        · left
          omega
      · refine ⟨_, hlast, ?_⟩
        rw [(hdec _ _).1]
        show f.start + 4 * (k + 1) = f.start + 4 * k + 4
        omega
      · rw [hlen]

/-- C22 at the function `[0x100000, 0x100010)` read through `sampleDecodeEnv`, where the
addresses from `0x100008` on are not readable and `0x100004` carries the patch `"0x0"`: the
hypotheses hold, the word at `start` is readable, so the result is `true`; evaluated, the list
holds two instructions with raw words `0x24420001` and `0` (the patch) and the function's `end`
has become `0x100008`. -/
theorem C22_decodeFunction_witness :
    sampleDecodeFunction.start < sampleDecodeFunction.end_ ∧
    (sampleDecodeFunction.end_ - sampleDecodeFunction.start) % 4 = 0 ∧
    sampleDecodeFunction.end_ < 4294967296 ∧
    readable sampleDecodeEnv sampleDecodeFunction.start = true ∧
    (∃ r, decodeFunction sampleDecodeEnv 5 (fun _ => none) sampleDecodeFunction = some r ∧
      r.ok = true) ∧
    (decodeFunction sampleDecodeEnv 5 (fun _ => none) sampleDecodeFunction).map
      (fun r => (r.ok, r.function.end_,
        (r.m_decodedFunctions 0x100000).map (fun l => l.map (fun i => (i.address, i.raw))))) =
      some (true, 0x100008, some [(0x100000, 0x24420001), (0x100004, 0)]) :=
  ⟨by decide, by decide, by decide, by decide,
    (C22_decodeFunction sampleDecodeEnv (fun _ => none) sampleDecodeFunction (by decide)
      (by decide) (by decide) (fun _ _ => ⟨rfl, rfl⟩) 5 (by decide)).elim
      (fun r h => ⟨r, h.1, (h.2.2 (by decide)).1⟩),
    by decide⟩

/-! ### Packed word arithmetic -/

/-- A lane of a value built from four lanes is the low 32 bits of that lane's entry. -/
theorem lane32_ofLanes32 (f : Nat → Nat) (i : Nat) (hi : i < 4) :
    lane32 (ofLanes32 f) i = u32 (f i) := by
  unfold lane32 ofLanes32 u32
  have h4 : i = 0 ∨ i = 1 ∨ i = 2 ∨ i = 3 := by omega
  rcases h4 with h | h | h | h <;> subst h <;> norm_num <;> omega

/-- Two lane functions with the same low 32 bits in lanes 0 to 3 build the same value. -/
theorem ofLanes32_congr (f g : Nat → Nat) (h : ∀ i, i < 4 → u32 (f i) = u32 (g i)) :
    ofLanes32 f = ofLanes32 g := by
  unfold ofLanes32
  rw [h 0 (by omega), h 1 (by omega), h 2 (by omega), h 3 (by omega)]

/-- The lane-wise maximum with `INT32_MIN` changes no lane. -/
theorem max_INT32_MIN_id (f : Nat → Nat) :
    _mm_max_epi32 (ofLanes32 f) (_mm_set1_epi32 INT32_MIN) = ofLanes32 f := by
  unfold _mm_max_epi32 _mm_set1_epi32
  apply ofLanes32_congr
  intro i hi
  rw [lane32_ofLanes32 _ i hi, lane32_ofLanes32 _ i hi]
  have hb := s32_bounds (u32 (f i))
  have hm : s32 (u32 (u32OfInt INT32_MIN)) = -2147483648 := by decide
  rw [hm, if_neg (by omega)]
  unfold u32; omega

/-- The lane-wise minimum with `INT32_MAX` changes no lane. -/
theorem min_INT32_MAX_id (f : Nat → Nat) :
    _mm_min_epi32 (ofLanes32 f) (_mm_set1_epi32 INT32_MAX) = ofLanes32 f := by
  unfold _mm_min_epi32 _mm_set1_epi32
  apply ofLanes32_congr
  intro i hi
  rw [lane32_ofLanes32 _ i hi, lane32_ofLanes32 _ i hi]
  have hb := s32_bounds (u32 (f i))
  have hm : s32 (u32 (u32OfInt INT32_MAX)) = 2147483647 := by decide
  rw [hm, if_neg (by omega)]
  unfold u32; omega

/-- The text emitted for `PADDSW` does what the text emitted for `PADDW` does, for every pair of
operands: the two clamps act on lanes that are already wrapped to 32 bits. -/
theorem execPADDSW_eq_execPADDW (inst : Instruction) (ctx : R5900Context) :
    execPADDSW inst ctx = execPADDW inst ctx := by
  unfold execPADDSW execPADDW PS2_PADDW
  unfold _mm_add_epi32
  rw [max_INT32_MIN_id, min_INT32_MAX_id]

/-- The text emitted for `PSUBSW` does what the text emitted for `PSUBW` does, for every pair of
operands. -/
theorem execPSUBSW_eq_execPSUBW (inst : Instruction) (ctx : R5900Context) :
    execPSUBSW inst ctx = execPSUBW inst ctx := by
  unfold execPSUBSW execPSUBW PS2_PSUBW
  unfold _mm_sub_epi32
  rw [max_INT32_MIN_id, min_INT32_MAX_id]

/-- C23, the code at its failing input: with lane 0 of `rs` (register 4) `0x7FFFFFFF` and lane 0
of `rt` (register 5) `1`, the text emitted for `PADDSW $6, $4, $5` leaves `0x80000000` in lane 0
of `rd`, the wrapped sum that `PADDW` leaves, and not the clamped `0x7FFFFFFF`; with lanes
`0x80000000` and `1` the text emitted for `PSUBSW` leaves `0x7FFFFFFF`, the wrapped difference of
`PSUBW`, and not the clamped `0x80000000`. -/
theorem C23_packed_saturation_wraps :
    translatePADDSW (sampleMMI0 4 5 6 0x10) =
      "SET_GPR_VEC(ctx, 6, _mm_min_epi32(_mm_max_epi32(_mm_add_epi32(GPR_VEC(ctx, 4), " ++
      "GPR_VEC(ctx, 5)), _mm_set1_epi32(INT32_MIN)), _mm_set1_epi32(INT32_MAX)));" ∧
    lane32 (GPR_VEC (contextWith 0x7FFFFFFF 1) 4) 0 = 0x7FFFFFFF ∧
    lane32 (GPR_VEC (contextWith 0x7FFFFFFF 1) 5) 0 = 1 ∧
    lane32 (GPR_VEC (execPADDSW (sampleMMI0 4 5 6 0x10) (contextWith 0x7FFFFFFF 1)) 6) 0 =
      0x80000000 ∧
    lane32 (GPR_VEC (execPADDW (sampleMMI0 4 5 6 0x00) (contextWith 0x7FFFFFFF 1)) 6) 0 =
      0x80000000 ∧
    translatePSUBSW (sampleMMI0 4 5 6 0x11) =
      "SET_GPR_VEC(ctx, 6, _mm_min_epi32(_mm_max_epi32(_mm_sub_epi32(GPR_VEC(ctx, 4), " ++
      "GPR_VEC(ctx, 5)), _mm_set1_epi32(INT32_MIN)), _mm_set1_epi32(INT32_MAX)));" ∧
    lane32 (GPR_VEC (execPSUBSW (sampleMMI0 4 5 6 0x11) (contextWith 0x80000000 1)) 6) 0 =
      0x7FFFFFFF ∧
    lane32 (GPR_VEC (execPSUBW (sampleMMI0 4 5 6 0x01) (contextWith 0x80000000 1)) 6) 0 =
      0x7FFFFFFF := by
  refine ⟨by decide, by decide, by decide, by decide, by decide, by decide, by decide,
    by decide⟩

/-! ### The bootstrap function -/

/-- An address below the size of the buffer is its own masked offset. -/
theorem and_PS2_RAM_MASK_of_lt (a : Nat) (h : a < PS2_RAM_SIZE) : a &&& PS2_RAM_MASK = a := by
  have h1 : a &&& PS2_RAM_MASK = a % 2 ^ 25 := Nat.and_pow_two_sub_one_eq_mod a 25
  rw [h1]
  unfold PS2_RAM_SIZE at h
  exact Nat.mod_eq_of_lt (by omega)

/-- A byte-wise store of zero clears the bytes of its range and leaves the others. -/
theorem storeLE_zero (rdram : Nat → Nat) (o w : Nat) :
    storeLE rdram o w 0 = fun off => if o ≤ off ∧ off < o + w then 0 else rdram off := by
  funext off
  unfold storeLE
  split_ifs <;> simp

/-- The macro `WRITE32` with the value zero clears four bytes and leaves the others. -/
theorem WRITE32_zero (rdram : Nat → Nat) (a : Nat) (h : a < PS2_RAM_SIZE) :
    WRITE32 rdram a 0 = fun off => if a ≤ off ∧ off < a + 4 then 0 else rdram off := by
  funext off
  unfold WRITE32
  rw [and_PS2_RAM_MASK_of_lt a h]
  simp only [u32]
  split_ifs <;> first | rfl | omega

/-- The 16-byte loop on a buffer whose host address is a multiple of 16, from an address that is
a multiple of 16: with `n` whole strides left before `bss_end` it ends with `addr` advanced by
`16 * n` and those bytes cleared. -/
theorem zeroLoop128_spec (base : Nat) (hbase : base % 16 = 0) (bss_end : Nat)
    (hend : bss_end ≤ PS2_RAM_SIZE) :
    ∀ (n fuel addr : Nat) (rdram : Nat → Nat),
      addr % 16 = 0 → addr + 16 * n ≤ bss_end → bss_end < addr + 16 * (n + 1) → n + 1 ≤ fuel →
      zeroLoop128 base fuel bss_end addr rdram =
        Run.done (addr + 16 * n,
          fun off => if addr ≤ off ∧ off < addr + 16 * n then 0 else rdram off) := by
  have hsz : PS2_RAM_SIZE = 33554432 := by decide
  intro n
  induction n with
  | zero =>
    intro fuel addr rdram ha h1 h2 hf
    obtain ⟨fuel, rfl⟩ : ∃ m, fuel = m + 1 := ⟨fuel - 1, by omega⟩
    unfold zeroLoop128
    have : ¬ SUB32 bss_end addr ≥ 16 := by unfold SUB32 u32OfInt; omega
    rw [if_neg this]
    congr 2
    funext off
    rw [if_neg (by omega)]
  | succ n ih =>
    intro fuel addr rdram ha h1 h2 hf
    obtain ⟨fuel, rfl⟩ : ∃ m, fuel = m + 1 := ⟨fuel - 1, by omega⟩
    unfold zeroLoop128
    have : SUB32 bss_end addr ≥ 16 := by unfold SUB32 u32OfInt; omega
    rw [if_pos this]
    have hn : u32 (addr + 16) = addr + 16 := by unfold u32; omega
    have hw : WRITE128 base rdram addr 0 =
        some (fun off => if addr ≤ off ∧ off < addr + 16 then 0 else rdram off) := by
      unfold WRITE128
      rw [and_PS2_RAM_MASK_of_lt addr (by omega), if_pos (by omega), storeLE_zero]
    rw [hw]
    simp only
    rw [hn, ih fuel (addr + 16) _ (by omega) (by omega) (by omega) (by omega)]
    congr 2
    · omega
    · funext off
      split_ifs <;> first | rfl | omega

/-- The 16-byte loop faults at its first store when there is a whole stride before `bss_end` and
the host address of `addr` is not a multiple of 16. -/
theorem zeroLoop128_fault (base fuel bss_end addr : Nat) (rdram : Nat → Nat)
    (hmis : (base + addr) % 16 ≠ 0) (h16 : addr + 16 ≤ bss_end)
    (hend : bss_end ≤ PS2_RAM_SIZE) :
    zeroLoop128 base (fuel + 1) bss_end addr rdram = Run.fault := by
  have hsz : PS2_RAM_SIZE = 33554432 := by decide
  unfold zeroLoop128
  have : SUB32 bss_end addr ≥ 16 := by unfold SUB32 u32OfInt; omega
  rw [if_pos this]
  have hw : WRITE128 base rdram addr 0 = none := by
    unfold WRITE128
    rw [and_PS2_RAM_MASK_of_lt addr (by omega), if_neg hmis]
  rw [hw]

/-- The 4-byte loop: with `n` whole strides left before `bss_end` it ends with `addr` advanced
by `4 * n` and those bytes cleared. -/
theorem zeroLoop32_spec (bss_end : Nat) (hend : bss_end ≤ PS2_RAM_SIZE) :
    ∀ (n fuel addr : Nat) (rdram : Nat → Nat),
      addr + 4 * n ≤ bss_end → bss_end < addr + 4 * (n + 1) → n + 1 ≤ fuel →
      zeroLoop32 fuel bss_end addr rdram =
        some (addr + 4 * n,
          fun off => if addr ≤ off ∧ off < addr + 4 * n then 0 else rdram off) := by
  have hsz : PS2_RAM_SIZE = 33554432 := by decide
  intro n
  induction n with
  | zero =>
    intro fuel addr rdram h1 h2 hf
    obtain ⟨fuel, rfl⟩ : ∃ m, fuel = m + 1 := ⟨fuel - 1, by omega⟩
    unfold zeroLoop32
    have : ¬ SUB32 bss_end addr ≥ 4 := by unfold SUB32 u32OfInt; omega
    rw [if_neg this]
    congr 2
    funext off
    rw [if_neg (by omega)]
  | succ n ih =>
    intro fuel addr rdram h1 h2 hf
    obtain ⟨fuel, rfl⟩ : ∃ m, fuel = m + 1 := ⟨fuel - 1, by omega⟩
    unfold zeroLoop32
    have : SUB32 bss_end addr ≥ 4 := by unfold SUB32 u32OfInt; omega
    rw [if_pos this]
    have hn : u32 (addr + 4) = addr + 4 := by unfold u32; omega
    rw [hn, ih fuel (addr + 4) _ (by omega) (by omega) (by omega)]
    congr 2
    · omega
    · funext off
      rw [WRITE32_zero rdram addr (by omega)]
      simp only
      split_ifs <;> first | rfl | omega

/-- The byte loop: with `n` bytes left before `bss_end` it ends at `bss_end` with those bytes
cleared. -/
theorem zeroLoop8_spec (bss_end : Nat) (hend : bss_end ≤ PS2_RAM_SIZE) :
    ∀ (n fuel addr : Nat) (rdram : Nat → Nat),
      addr + n = bss_end → n + 1 ≤ fuel →
      zeroLoop8 fuel bss_end addr rdram =
        some (addr + n, fun off => if addr ≤ off ∧ off < addr + n then 0 else rdram off) := by
  have hsz : PS2_RAM_SIZE = 33554432 := by decide
  intro n
  induction n with
  | zero =>
    intro fuel addr rdram h1 hf
    obtain ⟨fuel, rfl⟩ : ∃ m, fuel = m + 1 := ⟨fuel - 1, by omega⟩
    unfold zeroLoop8
    rw [if_neg (by omega)]
    congr 2
    funext off
    rw [if_neg (by omega)]
  | succ n ih =>
    intro fuel addr rdram h1 hf
    obtain ⟨fuel, rfl⟩ : ∃ m, fuel = m + 1 := ⟨fuel - 1, by omega⟩
    unfold zeroLoop8
    rw [if_pos (by omega)]
    have hn : u32 (addr + 1) = addr + 1 := by unfold u32; omega
    rw [hn, ih fuel (addr + 1) _ (by omega) (by omega)]
    congr 2
    · omega
    · funext off
      unfold WRITE8
      rw [and_PS2_RAM_MASK_of_lt addr (by omega), storeLE_zero]
      simp only
      split_ifs <;> first | rfl | omega

/-- The run of the emitted bootstrap function for an info with a BSS range inside the buffer that
starts at a multiple of 16, on a buffer whose host address is a multiple of 16: with enough fuel
the loops end, the range is cleared, the rest of the memory is kept and registers 29 and 28 are
written. -/
theorem execBootstrap_bss (base : Nat) (hbase : base % 16 = 0) (info : BootstrapInfo)
    (hstart : info.bssStart % 16 = 0) (hlt : info.bssStart < info.bssEnd)
    (hend : info.bssEnd ≤ PS2_RAM_SIZE) (fuel : Nat) (rdram : Nat → Nat) (ctx : R5900Context)
    (hfuel : (info.bssEnd - info.bssStart) / 16 + 4 ≤ fuel) :
    ∃ rdram1 ctx1, execBootstrap base info fuel rdram ctx = Run.done (rdram1, ctx1) ∧
      (∀ off, info.bssStart ≤ off → off < info.bssEnd → rdram1 off = 0) ∧
      (∀ off, off < info.bssStart ∨ info.bssEnd ≤ off → rdram1 off = rdram off) ∧
      GPR_U32 ctx1 29 = info.bssEnd ∧
      (info.gp ≠ 0 → info.gp < 4294967296 → GPR_U32 ctx1 28 = info.gp) := by
  have hsz : PS2_RAM_SIZE = 33554432 := by decide
  obtain ⟨valid, entry, s, e, gp, entryName⟩ := info
  simp only at hstart hlt hend hfuel ⊢
  have hs : u32 s = s := by unfold u32; omega
  have he : u32 e = e := by unfold u32; omega
  have h1 := zeroLoop128_spec base hbase e hend ((e - s) / 16) fuel s rdram hstart (by omega)
    (by omega) (by omega)
  generalize hn1 : (e - s) / 16 = n1 at h1
  have h2 := zeroLoop32_spec e hend ((e - (s + 16 * n1)) / 4) fuel (s + 16 * n1)
    (fun off => if s ≤ off ∧ off < s + 16 * n1 then 0 else rdram off)
    (by omega) (by omega) (by omega)
  generalize hn2 : (e - (s + 16 * n1)) / 4 = n2 at h2
  have h3 := zeroLoop8_spec e hend (e - (s + 16 * n1 + 4 * n2)) fuel (s + 16 * n1 + 4 * n2)
    (fun off => if s + 16 * n1 ≤ off ∧ off < s + 16 * n1 + 4 * n2 then 0
      else if s ≤ off ∧ off < s + 16 * n1 then 0 else rdram off)
    (by omega) (by omega)
  generalize hn3 : e - (s + 16 * n1 + 4 * n2) = n3 at h3
  beta_reduce at h2 h3
  have hex : execBootstrap base ⟨valid, entry, s, e, gp, entryName⟩ fuel rdram ctx =
      Run.done (fun off =>
          if s + 16 * n1 + 4 * n2 ≤ off ∧ off < s + 16 * n1 + 4 * n2 + n3 then 0
          else if s + 16 * n1 ≤ off ∧ off < s + 16 * n1 + 4 * n2 then 0
          else if s ≤ off ∧ off < s + 16 * n1 then 0 else rdram off,
        SET_GPR_U32 (if gp ≠ 0 then SET_GPR_U32 ctx 28 gp else ctx) 29 e) := by
    unfold execBootstrap
    simp only [hs, he, gt_iff_lt, hlt, if_true, h1, h2, h3]
  refine ⟨_, _, hex, ?_, ?_, ?_, ?_⟩
  · intro off ho1 ho2
    split_ifs <;> first | rfl | omega
  · intro off ho
    split_ifs <;> first | rfl | omega
  · simp [GPR_U32, SET_GPR_U32, u32]
    omega
  · intro hgp hgp2
    rw [if_pos hgp]
    simp [GPR_U32, SET_GPR_U32, u32]
    omega

/-- The run of the emitted bootstrap function faults at the first 16-byte store when the BSS
range holds a whole stride and the host address of its start is not a multiple of 16. -/
theorem execBootstrap_fault (base : Nat) (info : BootstrapInfo) (fuel : Nat)
    (rdram : Nat → Nat) (ctx : R5900Context)
    (hmis : (base + info.bssStart) % 16 ≠ 0) (h16 : info.bssStart + 16 ≤ info.bssEnd)
    (hend : info.bssEnd ≤ PS2_RAM_SIZE) :
    execBootstrap base info (fuel + 1) rdram ctx = Run.fault := by
  have hsz : PS2_RAM_SIZE = 33554432 := by decide
  obtain ⟨valid, entry, s, e, gp, entryName⟩ := info
  simp only at hmis h16 hend ⊢
  have hs : u32 s = s := by unfold u32; omega
  have he : u32 e = e := by unfold u32; omega
  have hlt : s < e := by omega
  unfold execBootstrap
  simp only [hs, he, gt_iff_lt, hlt, if_true,
    zeroLoop128_fault base fuel e s rdram hmis h16 hend]

/-- The text of the emitted bootstrap function and its run on a buffer whose host address is a
multiple of 16, for a valid bootstrap info with an entry name. When `bssStart` is a multiple of 16
and `bssStart < bssEnd <= PS2_RAM_SIZE` the emitted function is the header, the three zeroing
loops, the write of register 28 when `gp != 0`, the write of register 29 and, last, the call of the
entry name; run with enough fuel the loops end, every byte of `[bssStart, bssEnd)` is zero
afterwards, every other byte is as before, register 29 holds `bssEnd` and register 28 holds `gp`
when `gp != 0`. When `bssEnd <= bssStart` the emitted function has no loop and no write of
register 29, and its run leaves the memory and register 29 as they were. -/
theorem bootstrap_aligned_bss (g : CodeGenerator)
    (hvalid : g.m_bootstrapInfo.valid = true) (hname : g.m_bootstrapInfo.entryName ≠ "")
    (base : Nat) (hbase : base % 16 = 0) :
    (g.m_bootstrapInfo.bssStart < g.m_bootstrapInfo.bssEnd →
      g.m_bootstrapInfo.bssEnd ≤ PS2_RAM_SIZE →
      generateBootstrapFunction g = some (
        "// Auto-generated bootstrap for ELF entry point\n" ++
        "void entry_" ++ hexLower g.m_bootstrapInfo.entry ++
        "(uint8_t* rdram, R5900Context* ctx, PS2Runtime *runtime) \x7b\n" ++
        "    const uint32_t bss_start = 0x" ++ hexLower g.m_bootstrapInfo.bssStart ++ ";\n" ++
        "    const uint32_t bss_end   = 0x" ++ hexLower g.m_bootstrapInfo.bssEnd ++ ";\n" ++
        "    __m128i zero = _mm_setzero_si128();\n" ++
        "    uint32_t addr = bss_start;\n" ++
        "    for (; (bss_end - addr) >= 16; addr += 16) \x7b\n" ++
        "        WRITE128(addr, zero);\n" ++
        "    \x7d\n" ++
        "    for (; (bss_end - addr) >= 4; addr += 4) \x7b\n" ++
        "        WRITE32(addr, 0);\n" ++
        "    \x7d\n" ++
        "    for (; addr < bss_end; ++addr) \x7b\n" ++
        "        WRITE8(addr, 0);\n" ++
        "    \x7d\n\n" ++
        (if g.m_bootstrapInfo.gp ≠ 0 then
          "    SET_GPR_U32(ctx, 28, 0x" ++ hexLower g.m_bootstrapInfo.gp ++ ");\n" else "") ++
        "    SET_GPR_U32(ctx, 29, bss_end);\n" ++
        "    " ++ g.m_bootstrapInfo.entryName ++ "(rdram, ctx, runtime);\n" ++ "\x7d\n") ∧
      (g.m_bootstrapInfo.bssStart % 16 = 0 →
        ∀ (fuel : Nat) (rdram : Nat → Nat) (ctx : R5900Context),
          (g.m_bootstrapInfo.bssEnd - g.m_bootstrapInfo.bssStart) / 16 + 4 ≤ fuel →
          ∃ rdram1 ctx1,
            execBootstrap base g.m_bootstrapInfo fuel rdram ctx = Run.done (rdram1, ctx1) ∧
            (∀ off, g.m_bootstrapInfo.bssStart ≤ off → off < g.m_bootstrapInfo.bssEnd →
              rdram1 off = 0) ∧
            (∀ off, off < g.m_bootstrapInfo.bssStart ∨ g.m_bootstrapInfo.bssEnd ≤ off →
              rdram1 off = rdram off) ∧
            GPR_U32 ctx1 29 = g.m_bootstrapInfo.bssEnd ∧
            (g.m_bootstrapInfo.gp ≠ 0 → g.m_bootstrapInfo.gp < 4294967296 →
              GPR_U32 ctx1 28 = g.m_bootstrapInfo.gp))) ∧
    (g.m_bootstrapInfo.bssEnd ≤ g.m_bootstrapInfo.bssStart →
      generateBootstrapFunction g = some (
        "// Auto-generated bootstrap for ELF entry point\n" ++
        "void entry_" ++ hexLower g.m_bootstrapInfo.entry ++
        "(uint8_t* rdram, R5900Context* ctx, PS2Runtime *runtime) \x7b\n" ++
        (if g.m_bootstrapInfo.gp ≠ 0 then
          "    SET_GPR_U32(ctx, 28, 0x" ++ hexLower g.m_bootstrapInfo.gp ++ ");\n" else "") ++
        "    " ++ g.m_bootstrapInfo.entryName ++ "(rdram, ctx, runtime);\n" ++ "\x7d\n") ∧
      ∀ (fuel : Nat) (rdram : Nat → Nat) (ctx : R5900Context),
        ∃ ctx1, execBootstrap base g.m_bootstrapInfo fuel rdram ctx = Run.done (rdram, ctx1) ∧
          ctx1.r 29 = ctx.r 29) := by
  have hsz : PS2_RAM_SIZE = 33554432 := by decide
  constructor
  · intro hlt hend
    constructor
    · unfold generateBootstrapFunction
      simp only [hvalid, Bool.not_true, Bool.false_eq_true, if_false, gt_iff_lt, hlt, if_true,
        hname, ne_eq, not_false_eq_true]
      split_ifs <;>
        simp only [String.append_assoc, String.append_empty, String.empty_append]
    · intro hstart fuel rdram ctx hfuel
      exact execBootstrap_bss base hbase g.m_bootstrapInfo hstart hlt hend fuel rdram ctx hfuel
  · intro hle
    have hnot : ¬ g.m_bootstrapInfo.bssEnd > g.m_bootstrapInfo.bssStart := by omega
    constructor
    · unfold generateBootstrapFunction
      simp only [hvalid, Bool.not_true, Bool.false_eq_true, if_false, hnot, hname, ne_eq,
        not_false_eq_true, if_true]
      split_ifs <;>
        simp only [String.append_assoc, String.append_empty, String.empty_append]
    · intro fuel rdram ctx
      refine ⟨if g.m_bootstrapInfo.gp ≠ 0 then SET_GPR_U32 ctx 28 g.m_bootstrapInfo.gp
        else ctx, ?_, ?_⟩
      · unfold execBootstrap
        simp only [hnot, if_false]
      · split_ifs with hgp
        · simp [SET_GPR_U32]
        · rfl

/-- C24, the code at its failing input: the bootstrap info with entry `0x100008`, BSS range
`[0x1003, 0x1020)`, `gp = 0x7FF0` and entry name `main`. The range is not empty and lies inside
the buffer; the emitted text starts the 16-byte loop at `bss_start` itself; on a buffer at any
host address that is a multiple of 16 the first `WRITE128` is misaligned and the run faults, with
any fuel and from any memory and context, so no byte of the range is cleared and the entry
function is not called. With the range `[0x1000, 0x1020)` the same function runs to the call and
clears the range. -/
theorem C24_bootstrap_store_faults :
    sampleBssGenerator.m_bootstrapInfo.valid = true ∧
    sampleBssGenerator.m_bootstrapInfo.bssStart < sampleBssGenerator.m_bootstrapInfo.bssEnd ∧
    sampleBssGenerator.m_bootstrapInfo.bssEnd ≤ PS2_RAM_SIZE ∧
    generateBootstrapFunction sampleBssGenerator = some (
      "// Auto-generated bootstrap for ELF entry point\n" ++
      "void entry_100008(uint8_t* rdram, R5900Context* ctx, PS2Runtime *runtime) \x7b\n" ++
      "    const uint32_t bss_start = 0x1003;\n" ++
      "    const uint32_t bss_end   = 0x1020;\n" ++
      "    __m128i zero = _mm_setzero_si128();\n" ++
      "    uint32_t addr = bss_start;\n" ++
      "    for (; (bss_end - addr) >= 16; addr += 16) \x7b\n" ++
      "        WRITE128(addr, zero);\n" ++
      "    \x7d\n" ++
      "    for (; (bss_end - addr) >= 4; addr += 4) \x7b\n" ++
      "        WRITE32(addr, 0);\n" ++
      "    \x7d\n" ++
      "    for (; addr < bss_end; ++addr) \x7b\n" ++
      "        WRITE8(addr, 0);\n" ++
      "    \x7d\n\n" ++
      "    SET_GPR_U32(ctx, 28, 0x7ff0);\n" ++
      "    SET_GPR_U32(ctx, 29, bss_end);\n" ++
      "    main(rdram, ctx, runtime);\n" ++ "\x7d\n") ∧
    (∀ (k fuel : Nat) (rdram : Nat → Nat) (ctx : R5900Context),
      execBootstrap (16 * k) sampleBssGenerator.m_bootstrapInfo (fuel + 1) rdram ctx =
        Run.fault) ∧
    (∀ (k : Nat), ∃ rdram1 ctx1,
      execBootstrap (16 * k) sampleAlignedBssGenerator.m_bootstrapInfo 6 filledMemory
        sampleContext = Run.done (rdram1, ctx1) ∧
      rdram1 0x1000 = 0 ∧ rdram1 0x101F = 0 ∧
      rdram1 0xFFF = filledMemory 0xFFF ∧ rdram1 0x1020 = filledMemory 0x1020 ∧
      GPR_U32 ctx1 29 = 0x1020 ∧ GPR_U32 ctx1 28 = 0x7FF0) := by
  refine ⟨by decide, by decide, by decide, by decide, ?_, ?_⟩
  · intro k fuel rdram ctx
    exact execBootstrap_fault (16 * k) sampleBssGenerator.m_bootstrapInfo fuel rdram ctx
      (by simp only [sampleBssGenerator]; omega) (by decide) (by decide)
  · intro k
    obtain ⟨rdram1, ctx1, h, hz, hk, h29, h28⟩ :=
      execBootstrap_bss (16 * k) (by omega) sampleAlignedBssGenerator.m_bootstrapInfo
        (by decide) (by decide) (by decide) 6 filledMemory sampleContext (by decide)
    exact ⟨rdram1, ctx1, h, hz 0x1000 (by decide) (by decide),
      hz 0x101F (by decide) (by decide), hk 0xFFF (Or.inl (by decide)),
      hk 0x1020 (Or.inr (by decide)), h29, h28 (by decide) (by decide)⟩

/-! ### A generated function -/

/-- The things emitted for scenario S1: four address comments, three translated instructions and
the jump with its delay slot; no label. -/
theorem functionBody_sampleS1 :
    functionBody sampleS1Function sampleS1 =
      [Emitted.comment 0x00100000 0x3C020001, Emitted.plain sampleLUI,
       Emitted.comment 0x00100004 0x34422345, Emitted.plain sampleORI,
       Emitted.comment 0x00100008 0x2443FFFF, Emitted.plain sampleADDIUm1,
       Emitted.comment 0x0010000C 0x03E00008,
       Emitted.delayed sampleJR31 (sampleNOP 0x00100010)] := by
  decide

/-- The statement emitted for `LUI` leaves `imm << 16` in the low 32 bits of `rt`. -/
theorem execLUI_spec (inst : Instruction) (ctx : R5900Context) (hrt : inst.rt ≠ 0)
    (himm : inst.immediate < 65536) :
    GPR_U32 (execLUI inst ctx) inst.rt = inst.immediate <<< 16 := by
  unfold execLUI
  simp only [GPR_U32, SET_GPR_U32, hrt, ne_eq, not_false_eq_true, if_true, if_false]
  unfold u32
  rw [Nat.shiftLeft_eq, Nat.shiftLeft_eq]
  omega

/-- The statement emitted for `ORI` leaves `rs | imm` in the low 32 bits of `rt`. -/
theorem execORI_spec (inst : Instruction) (ctx : R5900Context) (hrt : inst.rt ≠ 0)
    (himm : inst.immediate < 65536) :
    GPR_U32 (execORI inst ctx) inst.rt = GPR_U32 ctx inst.rs ||| inst.immediate := by
  have hlt : GPR_U32 ctx inst.rs ||| inst.immediate < 2 ^ 32 := by
    apply Nat.or_lt_two_pow
    · unfold GPR_U32 u32
      split_ifs <;> omega
    · omega
  unfold execORI OR32
  simp only [GPR_U32, SET_GPR_U32, hrt, ne_eq, not_false_eq_true, if_true, if_false] at hlt ⊢
  unfold u32 at hlt ⊢
  omega

/-- The statement emitted for `ADDIU` leaves `(rs + simm) mod 2^32` in the low 32 bits of
`rt`. -/
theorem execADDIU_spec (inst : Instruction) (ctx : R5900Context) (hrt : inst.rt ≠ 0) :
    (GPR_U32 (execADDIU inst ctx) inst.rt : Int) =
      ((GPR_U32 ctx inst.rs : Int) + inst.simmediate) % 4294967296 := by
  unfold execADDIU ADD32
  simp only [GPR_U32, SET_GPR_S32, hrt, ne_eq, not_false_eq_true, if_true, if_false]
  unfold u32 u32OfInt
  omega

/-- The run of the text emitted for `JR rs` whose delay slot is a `NOP`: `pc` takes the low 32
bits of `rs` and the function returns. -/
theorem runDelayed_JR_NOP (inst delaySlot : Instruction) (ctx : R5900Context)
    (hop : inst.opcode = OPCODE_SPECIAL) (hfn : inst.function = SPECIAL_JR)
    (hrs : inst.rs < 32) (hraw : delaySlot.raw = 0) :
    runDelayed inst delaySlot ctx = some { ctx with pc := GPR_U32 ctx inst.rs } := by
  unfold runDelayed
  have h256 : inst.rs % 256 = inst.rs := by omega
  simp [hop, hfn, hraw, h256, OPCODE_SPECIAL, OPCODE_J, OPCODE_JAL, SPECIAL_JR, SPECIAL_JALR]

/-- The text `handleBranchDelaySlots` returns for `JR rs` whose delay slot is a `NOP`. -/
theorem handleBranchDelaySlots_JR_NOP (g : CodeGenerator) (tr : Instruction → String)
    (inst delaySlot : Instruction) (function : Function) (internalTargets : List Nat)
    (hop : inst.opcode = OPCODE_SPECIAL) (hfn : inst.function = SPECIAL_JR)
    (hrs : inst.rs < 32) (hraw : delaySlot.raw = 0) :
    handleBranchDelaySlots g tr inst delaySlot function internalTargets =
      "    ctx->pc = GPR_U32(ctx, " ++ toString inst.rs ++ "); return;\n" := by
  unfold handleBranchDelaySlots
  have h256 : inst.rs % 256 = inst.rs := by omega
  simp only [hop, hfn, hraw, h256, OPCODE_SPECIAL, OPCODE_J, OPCODE_JAL, SPECIAL_JR,
    SPECIAL_JALR]
  simp

/-- The run of the body emitted for scenario S1, from any context: the three statements in
order, then the jump through register 31. -/
theorem runEmitted_sampleS1 (ctx : R5900Context) :
    runEmitted (functionBody sampleS1Function sampleS1) ctx =
      (runDelayed sampleJR31 (sampleNOP 0x00100010) (execADDIU sampleADDIUm1
        (execORI sampleORI (execLUI sampleLUI ctx)))).map (fun c => (c, true)) := by
  rfl

/-- C25: the function `generateFunction` emits for scenario S1 is the text below; run from any
context it returns with `0x00012345` in the low 32 bits of `r2`, `0x00012344` in those of `r3`
and `pc` equal to the low 32 bits `r31` had on entry. In general the statement emitted for `LUI`
writes `imm << 16`, the one for `ORI` writes `rs | imm`, the one for `ADDIU` writes
`(rs + simm) mod 2^32` (destination not register 0, 16-bit immediate), and the text emitted for
`JR rs` with a `NOP` in the delay slot sets `pc` to the low 32 bits of `rs` and returns. -/
theorem C25_scenario_S1 :
    generateFunction sampleS1Generator translateEmbedded sampleS1Function sampleS1 false =
      "// Function: f\n" ++
      "// Address: 0x100000 - 0x100014\n" ++
      "void f(uint8_t* rdram, R5900Context* ctx, PS2Runtime *runtime) \x7b\n\n" ++
      "    // 0x100000: 0x3c020001\n" ++
      "    SET_GPR_U32(ctx, 2, ((uint32_t)1 << 16));\n" ++
      "    // 0x100004: 0x34422345\n" ++
      "    SET_GPR_U32(ctx, 2, OR32(GPR_U32(ctx, 2), 9029));\n" ++
      "    // 0x100008: 0x2443ffff\n" ++
      "    SET_GPR_S32(ctx, 3, ADD32(GPR_U32(ctx, 2), -1));\n" ++
      "    // 0x10000c: 0x3e00008\n" ++
      "    ctx->pc = GPR_U32(ctx, 31); return;\n" ++
      "\x7d\n" ∧
    (∀ ctx : R5900Context, ∃ ctx1,
      runEmitted (functionBody sampleS1Function sampleS1) ctx = some (ctx1, true) ∧
      GPR_U32 ctx1 2 = 0x00012345 ∧ GPR_U32 ctx1 3 = 0x00012344 ∧
      ctx1.pc = GPR_U32 ctx 31) ∧
    (∀ (inst : Instruction) (ctx : R5900Context), inst.rt ≠ 0 → inst.immediate < 65536 →
      GPR_U32 (execLUI inst ctx) inst.rt = inst.immediate <<< 16) ∧
    (∀ (inst : Instruction) (ctx : R5900Context), inst.rt ≠ 0 → inst.immediate < 65536 →
      GPR_U32 (execORI inst ctx) inst.rt = GPR_U32 ctx inst.rs ||| inst.immediate) ∧
    (∀ (inst : Instruction) (ctx : R5900Context), inst.rt ≠ 0 →
      (GPR_U32 (execADDIU inst ctx) inst.rt : Int) =
        ((GPR_U32 ctx inst.rs : Int) + inst.simmediate) % 4294967296) ∧
    (∀ (g : CodeGenerator) (tr : Instruction → String) (inst delaySlot : Instruction)
        (function : Function) (internalTargets : List Nat) (ctx : R5900Context),
      inst.opcode = OPCODE_SPECIAL → inst.function = SPECIAL_JR → inst.rs < 32 →
      delaySlot.raw = 0 →
      handleBranchDelaySlots g tr inst delaySlot function internalTargets =
        "    ctx->pc = GPR_U32(ctx, " ++ toString inst.rs ++ "); return;\n" ∧
      runDelayed inst delaySlot ctx = some { ctx with pc := GPR_U32 ctx inst.rs }) := by
  refine ⟨by decide, ?_, ?_, ?_, ?_, ?_⟩
  · intro ctx
    refine ⟨{ execADDIU sampleADDIUm1 (execORI sampleORI (execLUI sampleLUI ctx)) with
        pc := GPR_U32 (execADDIU sampleADDIUm1 (execORI sampleORI (execLUI sampleLUI ctx)))
          31 }, ?_, ?_, ?_, ?_⟩
    · rw [runEmitted_sampleS1, runDelayed_JR_NOP _ _ _ rfl rfl (by decide) rfl]
      rfl
    · simp [GPR_U32, execADDIU, execORI, execLUI, SET_GPR_S32, SET_GPR_U32, ADD32, OR32,
        sampleADDIUm1, sampleORI, sampleLUI, u32, u32OfInt]
    · simp [GPR_U32, execADDIU, execORI, execLUI, SET_GPR_S32, SET_GPR_U32, ADD32, OR32,
        sampleADDIUm1, sampleORI, sampleLUI, u32, u32OfInt]
    · simp [GPR_U32, execADDIU, execORI, execLUI, SET_GPR_S32, SET_GPR_U32, ADD32, OR32,
        sampleADDIUm1, sampleORI, sampleLUI, u32, u32OfInt]
  · intro inst ctx hrt himm
    exact execLUI_spec inst ctx hrt himm
  · intro inst ctx hrt himm
    exact execORI_spec inst ctx hrt himm
  · intro inst ctx hrt
    exact execADDIU_spec inst ctx hrt
  · intro g tr inst delaySlot function internalTargets ctx hop hfn hrs hraw
    exact ⟨handleBranchDelaySlots_JR_NOP g tr inst delaySlot function internalTargets hop hfn
      hrs hraw, runDelayed_JR_NOP inst delaySlot ctx hop hfn hrs hraw⟩

/-- C25 at the instructions of scenario S1 and the context with `r31 = 0x00200000`: the run
returns with `r2 = 0x00012345`, `r3 = 0x00012344` and `pc = 0x00200000`; `LUI $2, 0x0001` has a
destination other than register 0 and a 16-bit immediate and leaves `0x00010000`; `JR $31` with
the `NOP` after it sets `pc` to `0x00200000`. -/
theorem C25_scenario_S1_witness :
    (∃ ctx1, runEmitted (functionBody sampleS1Function sampleS1) sampleReturnContext =
        some (ctx1, true) ∧
      GPR_U32 ctx1 2 = 0x00012345 ∧ GPR_U32 ctx1 3 = 0x00012344 ∧ ctx1.pc = 0x00200000) ∧
    (sampleLUI.rt ≠ 0 ∧ sampleLUI.immediate < 65536 ∧
      GPR_U32 (execLUI sampleLUI sampleReturnContext) 2 = 0x00010000) ∧
    (sampleJR31.opcode = OPCODE_SPECIAL ∧ sampleJR31.function = SPECIAL_JR ∧
      sampleJR31.rs < 32 ∧ (sampleNOP 0x00100010).raw = 0 ∧
      (runDelayed sampleJR31 (sampleNOP 0x00100010) sampleReturnContext).map (fun c => c.pc) =
        some 0x00200000) :=
  ⟨(C25_scenario_S1.2.1 sampleReturnContext).elim
      (fun ctx1 h => ⟨ctx1, h.1, h.2.1, h.2.2.1, h.2.2.2.trans (by decide)⟩),
    ⟨by decide, by decide,
      (C25_scenario_S1.2.2.1 sampleLUI sampleReturnContext (by decide) (by decide)).trans
        (by decide)⟩,
    ⟨by decide, by decide, by decide, by decide,
      (congrArg (fun o => Option.map (fun c => R5900Context.pc c) o)
        (C25_scenario_S1.2.2.2.2.2 sampleGenerator translateEmbedded sampleJR31
          (sampleNOP 0x00100010) sampleS1Function [] sampleReturnContext
          (by decide) (by decide) (by decide) (by decide)).2).trans (by decide)⟩⟩

/-- The last instruction of a list never reaches `handleBranchDelaySlots` as the branch: the last
thing the loop of `generateFunction` emits is either its `translateInstruction` line or the text
of an earlier branch that takes it as delay slot. -/
theorem emitFunctionBody_getLast (it : List Nat) (l : List Instruction) (last : Instruction)
    (h : l.getLast? = some last) :
    (emitFunctionBody it l).getLast? = some (Emitted.plain last) ∨
    ∃ branchInst, (emitFunctionBody it l).getLast? = some (Emitted.delayed branchInst last) := by
  induction l using emitFunctionBody.induct it with
  | case1 => simp at h
  | case2 inst =>
    left
    have : inst = last := by simpa using h
    subst this
    unfold emitFunctionBody
    simp
  | case3 inst delaySlot rest hd ih =>
    unfold emitFunctionBody
    rw [if_pos hd]
    cases rest with
    | nil =>
      right
      have : delaySlot = last := by simpa using h
      subst this
      refine ⟨inst, ?_⟩
      simp only [emitFunctionBody, List.append_nil]
      rw [List.getLast?_append_of_ne_nil _ (by simp)]
      rfl
    | cons x xs =>
      have h2 : (x :: xs).getLast? = some last := by
        simpa [List.getLast?_cons_cons] using h
      have hne : emitFunctionBody it (x :: xs) ≠ [] := by
        cases xs with
        | nil => simp [emitFunctionBody]
        | cons y ys =>
          unfold emitFunctionBody
          split_ifs <;> simp
      rcases ih h2 with h3 | ⟨b, h3⟩
      · left
        rw [List.getLast?_append_of_ne_nil _ hne]
        exact h3
      · right
        refine ⟨b, ?_⟩
        rw [List.getLast?_append_of_ne_nil _ hne]
        exact h3
  | case4 inst delaySlot rest hd ih =>
    unfold emitFunctionBody
    rw [if_neg hd]
    have h2 : (delaySlot :: rest).getLast? = some last := by
      simpa [List.getLast?_cons_cons] using h
    have hne : emitFunctionBody it (delaySlot :: rest) ≠ [] := by
      cases rest with
      | nil => simp [emitFunctionBody]
      | cons y ys =>
        unfold emitFunctionBody
        split_ifs <;> simp
    rcases ih h2 with h3 | ⟨b, h3⟩
    · left
      rw [List.getLast?_append_of_ne_nil _ hne]
      exact h3
    · right
      refine ⟨b, ?_⟩
      rw [List.getLast?_append_of_ne_nil _ hne]
      exact h3

/-- C26, the code at its failing input: the function `[0x00100000, 0x00100010)` whose list ends
with `JR $31` (scenario S1 without the `NOP`). The jump is flagged `hasDelaySlot` but has no
successor, so it goes to `translateInstruction` and the emitted function ends with the comment
`// JR $31 - Handled by branch logic`: no write of `pc`, no `return`. Run with
`r31 = 0x00200000`, the emitted body falls off its end with `pc` still 0, while the body emitted
for the full scenario returns with `pc = 0x00200000`. -/
theorem C26_last_jump_is_a_comment :
    (sampleS1.take 4).getLast? = some sampleJR31 ∧ sampleJR31.hasDelaySlot = true ∧
    generateFunction sampleS1Generator translateEmbedded sampleCutFunction (sampleS1.take 4)
        false =
      "// Function: f\n" ++
      "// Address: 0x100000 - 0x100010\n" ++
      "void f(uint8_t* rdram, R5900Context* ctx, PS2Runtime *runtime) \x7b\n\n" ++
      "    // 0x100000: 0x3c020001\n" ++
      "    SET_GPR_U32(ctx, 2, ((uint32_t)1 << 16));\n" ++
      "    // 0x100004: 0x34422345\n" ++
      "    SET_GPR_U32(ctx, 2, OR32(GPR_U32(ctx, 2), 9029));\n" ++
      "    // 0x100008: 0x2443ffff\n" ++
      "    SET_GPR_S32(ctx, 3, ADD32(GPR_U32(ctx, 2), -1));\n" ++
      "    // 0x10000c: 0x3e00008\n" ++
      "    // JR $31 - Handled by branch logic\n" ++
      "\x7d\n" ∧
    (functionBody sampleCutFunction (sampleS1.take 4)).getLast? =
      some (Emitted.plain sampleJR31) ∧
    translateInstruction sampleJR31 = some "// JR $31 - Handled by branch logic" ∧
    GPR_U32 sampleReturnContext 31 = 0x00200000 ∧ sampleReturnContext.pc = 0 ∧
    (runEmitted (functionBody sampleCutFunction (sampleS1.take 4)) sampleReturnContext).map
      (fun p => (p.1.pc, p.2)) = some (0, false) ∧
    (runEmitted (functionBody sampleS1Function sampleS1) sampleReturnContext).map
      (fun p => (p.1.pc, p.2)) = some (0x00200000, true) := by
  refine ⟨by decide, by decide, by decide, by decide, by decide, by decide, by decide,
    by decide, by decide⟩

/-- The value of the digit character of a number below 16 is that number. -/
theorem hexDigitValue_digitChar : ∀ k, k < 16 → hexDigitValue (Nat.digitChar k) = k := by
  decide

/-- The digits `Nat.toDigitsCore` puts in front of `ds` denote `n`, when the fuel exceeds
`n`. -/
theorem toDigitsCore_hexValue :
    ∀ (fuel n : Nat) (ds : List Char), n < fuel →
      ∃ pre, Nat.toDigitsCore 16 fuel n ds = pre ++ ds ∧ hexValue pre = n := by
  intro fuel
  induction fuel with
  | zero => intro n ds h; omega
  | succ fuel ih =>
    intro n ds h
    unfold Nat.toDigitsCore
    by_cases h0 : n / 16 = 0
    · simp only [h0, if_true]
      refine ⟨[Nat.digitChar (n % 16)], rfl, ?_⟩
      simp only [hexValue, List.foldl_cons, List.foldl_nil]
      rw [hexDigitValue_digitChar _ (by omega)]
      omega
    · simp only [h0, if_false]
      obtain ⟨pre, hpre, hval⟩ := ih (n / 16) (Nat.digitChar (n % 16) :: ds) (by omega)
      refine ⟨pre ++ [Nat.digitChar (n % 16)], ?_, ?_⟩
      · rw [hpre]
        simp
      · unfold hexValue at hval ⊢
        rw [List.foldl_append, hval]
        simp only [List.foldl_cons, List.foldl_nil]
        rw [hexDigitValue_digitChar _ (by omega)]
        omega

/-- The lower-case hexadecimal text of a number denotes that number. -/
theorem hexValue_hexLower (n : Nat) : hexValue (hexLower n).data = n := by
  obtain ⟨pre, hpre, hval⟩ := toDigitsCore_hexValue (n + 1) n [] (by omega)
  unfold hexLower Nat.toDigits
  rw [hpre, List.append_nil]
  exact hval

/-- Two numbers with the same lower-case hexadecimal text are equal. -/
theorem hexLower_injective (a b : Nat) (h : hexLower a = hexLower b) : a = b := by
  rw [← hexValue_hexLower a, ← hexValue_hexLower b, h]

/-- Two label lines with the same text are the label lines of the same address. -/
theorem label_text_injective (g : CodeGenerator) (tr : Instruction → String)
    (function : Function) (it : List Nat) (a b : Nat)
    (h : Emitted.render g tr function it (Emitted.label a) =
      Emitted.render g tr function it (Emitted.label b)) : a = b := by
  simp only [Emitted.render] at h
  apply hexLower_injective
  have h1 := congrArg String.data h
  simp only [String.data_append, List.append_assoc] at h1
  have h2 := List.append_cancel_left h1
  have h3 := List.append_cancel_right h2
  exact String.ext h3

/-- The labels among the things emitted for one address. -/
theorem emittedLabels_labelFor (it : List Nat) (a : Nat) :
    emittedLabels (labelFor it a) = if it.contains a then [a] else [] := by
  unfold labelFor emittedLabels
  split_ifs <;> rfl

/-- Labels of a concatenation. -/
theorem emittedLabels_append (xs ys : List Emitted) :
    emittedLabels (xs ++ ys) = emittedLabels xs ++ emittedLabels ys := by
  unfold emittedLabels
  exact List.filterMap_append _ _ _

/-- The label lines the loop of `generateFunction` emits are those of the instruction addresses
that are internal targets, once per instruction and in list order. -/
theorem emittedLabels_emitFunctionBody (it : List Nat) (l : List Instruction) :
    emittedLabels (emitFunctionBody it l) =
      (l.map (fun i => i.address)).filter (fun a => it.contains a) := by
  induction l using emitFunctionBody.induct it with
  | case1 => rfl
  | case2 inst =>
    unfold emitFunctionBody
    rw [emittedLabels_append, emittedLabels_labelFor]
    simp only [List.map_cons, List.map_nil, List.filter_cons, List.filter_nil]
    split_ifs <;> rfl
  | case3 inst delaySlot rest h ih =>
    unfold emitFunctionBody
    rw [if_pos h]
    simp only [emittedLabels_append, emittedLabels_labelFor, ih, List.map_cons,
      List.filter_cons]
    split_ifs <;> simp [emittedLabels]
  | case4 inst delaySlot rest h ih =>
    unfold emitFunctionBody
    rw [if_neg h]
    simp only [emittedLabels_append, emittedLabels_labelFor, ih, List.map_cons,
      List.filter_cons]
    split_ifs <;> simp [emittedLabels]

/-- A `goto` is emitted only for a destination in `internalTargets`. -/
theorem gotoTarget_mem (it : List Nat) (inst : Instruction) (t : Nat)
    (h : gotoTarget it inst = some t) : t ∈ it := by
  unfold gotoTarget at h
  split_ifs at h with h1 h2 h3 h4
  · have ht : relativeBranchTarget inst = t := by simpa using h
    rw [← ht]
    simpa using h4

/-- When `gotoTarget` gives a destination, the text `handleBranchDelaySlots` returns holds the
statement `goto label_<hex>;` for it. -/
theorem handleBranchDelaySlots_goto (g : CodeGenerator) (tr : Instruction → String)
    (inst delaySlot : Instruction) (function : Function) (it : List Nat) (t : Nat)
    (h : gotoTarget it inst = some t) :
    ∃ before after, handleBranchDelaySlots g tr inst delaySlot function it =
      before ++ ("goto label_" ++ hexLower t ++ ";") ++ after := by
  unfold gotoTarget at h
  split_ifs at h with h1 h2 h3 h4
  have ht : relativeBranchTarget inst = t := by simpa using h
  subst ht
  have hact : branchTargetAction g inst it =
      "goto label_" ++ hexLower (relativeBranchTarget inst) ++ ";" := by
    unfold branchTargetAction
    simp only [h4, if_true]
  rw [← hact]
  unfold handleBranchDelaySlots
  simp only [h1, h2, h3, if_false, if_true]
  by_cases hl : isLikely inst = true
  · simp only [hl, if_true]
    exact ⟨_, "\n" ++ "    \x7d\n", String.append_assoc _ _ _⟩
  · simp only [hl, if_false]
    exact ⟨_, "\n" ++ "    \x7d\n", String.append_assoc _ _ _⟩

/-- Every destination of an emitted `goto` is in `internalTargets`. -/
theorem emittedGotos_mem (it : List Nat) (body : List Emitted) (t : Nat)
    (h : t ∈ emittedGotos it body) : t ∈ it := by
  unfold emittedGotos at h
  rw [List.mem_filterMap] at h
  obtain ⟨e, _, he⟩ := h
  cases e with
  | delayed inst delaySlot => exact gotoTarget_mem it inst t he
  | label a => simp at he
  | comment a r => simp at he
  | plain i => simp at he

/-- C27: for a function whose instruction list has the addresses `start, start + 4, ...` up to
`end` with `start` a multiple of 4, every destination of a `goto` that `generateFunction` emits
is the address of a label line it emits, no address has its label line emitted twice, and the
label lines of two addresses have the same text only when the addresses are equal. -/
theorem C27_labels_and_gotos (function : Function) (instructions : List Instruction) (n : Nat)
    (hA : function.start % 4 = 0)
    (hcover : instructions.map (fun i => i.address) =
      (List.range n).map (fun k => function.start + 4 * k))
    (hend : function.start + 4 * n = function.end_) :
    (∀ t ∈ emittedGotos (collectInternalBranchTargets function instructions)
        (functionBody function instructions),
      t ∈ emittedLabels (functionBody function instructions)) ∧
    (emittedLabels (functionBody function instructions)).Nodup ∧
    (∀ (g : CodeGenerator) (tr : Instruction → String) (a b : Nat),
      Emitted.render g tr function (collectInternalBranchTargets function instructions)
          (Emitted.label a) =
        Emitted.render g tr function (collectInternalBranchTargets function instructions)
          (Emitted.label b) → a = b) := by
  refine ⟨?_, ?_, fun g tr a b h => label_text_injective g tr function _ a b h⟩
  · unfold functionBody
    split_ifs with hsys
    · intro t ht
      simp [emittedGotos] at ht
    · rw [emittedLabels_emitFunctionBody]
      intro t ht
      have hmem := emittedGotos_mem _ _ t ht
      have haligned : ∀ i ∈ instructions, i.address % 4 = 0 := by
        intro i hi
        have : i.address ∈ instructions.map (fun i => i.address) := List.mem_map_of_mem _ hi
        rw [hcover, List.mem_map] at this
        obtain ⟨k, _, hk⟩ := this
        omega
      obtain ⟨h1, h2, h3⟩ :=
        collectInternalBranchTargets_range_aligned function instructions haligned t hmem
      rw [List.mem_filter]
      refine ⟨?_, by simpa using hmem⟩
      rw [hcover, List.mem_map]
      refine ⟨(t - function.start) / 4, ?_, by omega⟩
      rw [List.mem_range]
      omega
  · unfold functionBody
    split_ifs with hsys
    · simp [emittedLabels]
    · rw [emittedLabels_emitFunctionBody]
      apply List.Nodup.filter
      rw [hcover]
      apply List.Nodup.map
      · intro a b hab
        simp only at hab
        omega
      · exact List.nodup_range n

/-- C27 at scenario S2: the six instructions cover `[0x00200000, 0x00200018)` in steps of 4 from
an aligned start; the one `goto` goes to `0x00200010`, and the one label line is the one of
`0x00200010`. -/
theorem C27_labels_and_gotos_witness :
    sampleFunction.start % 4 = 0 ∧
    sampleS2.map (fun i => i.address) =
      (List.range 6).map (fun k => sampleFunction.start + 4 * k) ∧
    sampleFunction.start + 4 * 6 = sampleFunction.end_ ∧
    (∀ t ∈ emittedGotos (collectInternalBranchTargets sampleFunction sampleS2)
        (functionBody sampleFunction sampleS2),
      t ∈ emittedLabels (functionBody sampleFunction sampleS2)) ∧
    (emittedLabels (functionBody sampleFunction sampleS2)).Nodup ∧
    emittedGotos (collectInternalBranchTargets sampleFunction sampleS2)
      (functionBody sampleFunction sampleS2) = [0x00200010] ∧
    emittedLabels (functionBody sampleFunction sampleS2) = [0x00200010] :=
  ⟨by decide, by decide, by decide,
    (C27_labels_and_gotos sampleFunction sampleS2 6 (by decide) (by decide) (by decide)).1,
    (C27_labels_and_gotos sampleFunction sampleS2 6 (by decide) (by decide) (by decide)).2.1,
    by decide, by decide⟩

/-- C28, the code at its failing input: two recompiled functions named `FlushCache`, at
`0x100000` and `0x100010`, with the rename map `generateOutput` builds for them. The name
`getFunctionName` gives, which the header and the registration table use, is
`FlushCache_0x100000` for the first and `FlushCache_0x100010` for the second, but the guest name
is in `systemCallNames`, so the definition `generateFunction` emits is named `FlushCache` for
both. -/
theorem C28_syscall_wrapper_ignores_rename :
    sampleFlushCacheGenerator.getFunctionName 0x100000 = "FlushCache_0x100000" ∧
    sampleFlushCacheGenerator.getFunctionName 0x100010 = "FlushCache_0x100010" ∧
    normalFunctions sampleFlushCacheGenerator sampleFlushCacheFunctions =
      [(0x100000, "FlushCache_0x100000"), (0x100010, "FlushCache_0x100010")] ∧
    sampleFlushCacheFunctions.map (definitionName sampleFlushCacheGenerator) =
      ["FlushCache", "FlushCache"] ∧
    sampleFlushCacheFunctions.map
      (fun f => generateFunction sampleFlushCacheGenerator translateEmbedded f sampleS1 false) =
      ["// System call wrapper for FlushCache\n" ++
       "void FlushCache(uint8_t* rdram, R5900Context* ctx, PS2Runtime *runtime) \x7b\n" ++
       "    ps2_syscalls::FlushCache(rdram, ctx, runtime);\n" ++
       "\x7d\n",
       "// System call wrapper for FlushCache\n" ++
       "void FlushCache(uint8_t* rdram, R5900Context* ctx, PS2Runtime *runtime) \x7b\n" ++
       "    ps2_syscalls::FlushCache(rdram, ctx, runtime);\n" ++
       "\x7d\n"] := by
  refine ⟨by decide, by decide, by decide, by decide, by decide⟩

/-! ### File modes -/

/-- Whenever one of the two low bits of the flag word is set, `translateFioMode` takes the
read-and-write branch: the test `ps2Flags & PS2_FIO_O_RDWR` is true for `PS2_FIO_O_RDONLY` and for
`PS2_FIO_O_WRONLY` alike, so the result is one of `w+b`, `a+b` and `r+b`. -/
theorem translateFioMode_access_bits (ps2Flags : Nat) (h : ps2Flags % 4 ≠ 0) :
    translateFioMode ps2Flags = "w+b" ∨ translateFioMode ps2Flags = "a+b" ∨
      translateFioMode ps2Flags = "r+b" := by
  have h3 : ps2Flags &&& PS2_FIO_O_RDWR = ps2Flags % 4 :=
    Nat.and_pow_two_sub_one_eq_mod ps2Flags 2
  have hrw : ((ps2Flags &&& PS2_FIO_O_RDWR) != 0) = true := by
    rw [h3]; simpa using h
  unfold translateFioMode
  simp only [hrw, Bool.or_true, Bool.and_self, if_true]
  split_ifs <;> simp

/-- C29, the code at its failing input: for the read-only flag word `0x0001` the function
`translateFioMode` returns `r+b`, a mode that permits writing, and not `rb`; with `CREAT` and
`TRUNC` added (`0x0601`) it returns `w+b`, with `CREAT` alone (`0x0201`) it returns `a+b`, and
with `APPEND` (`0x0101`) again `r+b`. The mode `rb` comes back for the flag word `0`. -/
theorem C29_read_only_opens_for_writing :
    PS2_FIO_O_RDONLY = 0x0001 ∧
    translateFioMode 0x0001 = "r+b" ∧
    translateFioMode 0x0601 = "w+b" ∧
    translateFioMode 0x0201 = "a+b" ∧
    translateFioMode 0x0101 = "r+b" ∧
    translateFioMode 0 = "rb" := by
  refine ⟨by decide, by decide, by decide, by decide, by decide, by decide⟩

/-! ### Guest memory accessors of every width -/

/-- The 32-bit accessors are the four-byte cases of the byte-wise load and store. -/
theorem READ32_eq_loadLE (rdram : Nat → Nat) (addr : Nat) :
    READ32 rdram addr = loadLE rdram (addr &&& PS2_RAM_MASK) 4 := by
  unfold READ32
  simp only [loadLE, Nat.add_assoc, Nat.reduceAdd]
  omega

/-- The masked offset of an access is below the size of the buffer, so a one-byte access stays
inside it. -/
theorem masked_offset_lt (a : Nat) : (a &&& PS2_RAM_MASK) + 1 ≤ PS2_RAM_SIZE := by
  have h : a &&& PS2_RAM_MASK = a % 2 ^ 25 := Nat.and_pow_two_sub_one_eq_mod a 25
  rw [h]
  unfold PS2_RAM_SIZE
  omega

/-- An access of width 1, 2, 4, 8 or 16 at an address that is a multiple of its width stays
inside the buffer. -/
theorem aligned_access_in_bounds (a w : Nat)
    (hw : w = 1 ∨ w = 2 ∨ w = 4 ∨ w = 8 ∨ w = 16) (ha : a % w = 0) :
    (a &&& PS2_RAM_MASK) + w ≤ PS2_RAM_SIZE := by
  have h : a &&& PS2_RAM_MASK = a % 2 ^ 25 := Nat.and_pow_two_sub_one_eq_mod a 25
  rw [h]
  unfold PS2_RAM_SIZE
  rcases hw with rfl | rfl | rfl | rfl | rfl <;> omega

/-- A 16-byte access through `READ128` or `WRITE128` that does not fault, on a buffer whose host
address is a multiple of 16, stays inside the buffer. -/
theorem access128_in_bounds (base : Nat) (hbase : base % 16 = 0) (rdram : Nat → Nat)
    (a val : Nat) :
    (READ128 base rdram a ≠ none → (a &&& PS2_RAM_MASK) + 16 ≤ PS2_RAM_SIZE) ∧
    (WRITE128 base rdram a val ≠ none → (a &&& PS2_RAM_MASK) + 16 ≤ PS2_RAM_SIZE) := by
  have h : a &&& PS2_RAM_MASK = a % 2 ^ 25 := Nat.and_pow_two_sub_one_eq_mod a 25
  have hsz : PS2_RAM_SIZE = 33554432 := by decide
  constructor
  · unfold READ128
    split_ifs with hal
    · intro _
      omega
    · intro hne
      exact absurd rfl hne
  · unfold WRITE128
    split_ifs with hal
    · intro _
      omega
    · intro hne
      exact absurd rfl hne

/-- C30, the code at its failing input: for the guest address `a = 0x01FFFFFF` the masked offset
is `PS2_RAM_SIZE - 1`, so an access of width 2, 4 or 8 reaches past the 32 MiB. `WRITE16`,
`WRITE32` and `WRITE64` of `0xAABBCCDD` at `a` change the byte at offset `PS2_RAM_SIZE`, and
`READ16`, `READ32` and `READ64` at `a` return the byte stored at that offset. -/
theorem C30_access_past_the_buffer :
    (0x01FFFFFF &&& PS2_RAM_MASK) + 2 > PS2_RAM_SIZE ∧
    (0x01FFFFFF &&& PS2_RAM_MASK) + 4 > PS2_RAM_SIZE ∧
    (0x01FFFFFF &&& PS2_RAM_MASK) + 8 > PS2_RAM_SIZE ∧
    WRITE16 zeroMemory 0x01FFFFFF 0xAABBCCDD PS2_RAM_SIZE = 0xCC ∧
    WRITE32 zeroMemory 0x01FFFFFF 0xAABBCCDD PS2_RAM_SIZE = 0xCC ∧
    WRITE64 zeroMemory 0x01FFFFFF 0xAABBCCDD PS2_RAM_SIZE = 0xCC ∧
    (∀ off, off < PS2_RAM_SIZE → pastEndMemory off = zeroMemory off) ∧
    READ32 zeroMemory 0x01FFFFFF = 0 ∧
    READ16 pastEndMemory 0x01FFFFFF = 0x1100 ∧
    READ32 pastEndMemory 0x01FFFFFF = 0x1100 ∧
    READ64 pastEndMemory 0x01FFFFFF = 0x1100 := by
  refine ⟨by decide, by decide, by decide, by decide, by decide, by decide, ?_, by decide,
    by decide, by decide, by decide⟩
  intro off h
  unfold pastEndMemory zeroMemory
  rw [if_neg (by omega)]

end PS2Recomp
